import Mathlib

/-!
# Atmosphere driver, coarsening remapper, physics functions, PAM output: shallow embedding

Shallow embedding of
* `components/scream/src/control/atmosphere_driver.cpp` (the driver's staged
  initialization, run and finalize),
* `components/scream/src/share/grid/remap/coarsening_remapper.hpp`,
* `components/scream/src/share/util/scream_common_physics_impl.hpp` (virtual
  temperature and layer thickness),
* `components/eam/src/physics/crm/pam/pam_output.h`.

Conventions of the embedding.
* A C++ `int` is represented by its 32-bit two's-complement bit pattern, a
  natural number below `2^32`; `&`, `|` are `&&&`, `|||` and `~` is `bit_not`.
* `Real` values (time steps, time stamps) are rationals: exact arithmetic.
* Classes that live outside the embedded files (communicator, parameter list,
  process group, grids manager, field repository, output manager, surface
  coupling, the PIO subsystem) are collaborators: a method call on one of them
  is recorded, in program order, in the list `calls` of the state, and returns
  normally or throws as decided by `Externals.ok`.
* An `EKAT_REQUIRE_MSG`/`EKAT_ERROR_MSG` failure, an exception thrown by a
  collaborator and the dereference of a null `shared_ptr` (undefined behaviour
  in C++) all stop the running operation; the state reached at that point is
  kept in the result.
* The field repository is a collaborator whose registered identifiers and
  groups are part of the state; field values are not: writing a field is a
  recorded call.
* The arrays of the PAM output have integer extents and contents by index; an
  access outside the extents (undefined behaviour in C++) and a failed lookup
  give no result (`Checked`). A parallel loop runs its body over the index space
  in order; the bodies write distinct elements or add atomically, so the order
  does not matter.
-/

namespace scream

/-- The communicator handle `ekat::Comm`, identified by a number, with the
rank of the calling process in it. -/
structure Comm where
  id : Nat
  rank : Nat := 0
deriving DecidableEq, Repr, Inhabited

/-- A value stored in an `ekat::ParameterList`. -/
inductive ParamValue
  | int (v : Int)
  | real (v : ℚ)
  | str (v : String)
  | reals (v : List ℚ)
deriving DecidableEq, Repr

/-- Modelled from the spec: `ekat::ParameterList` is not part of the embedded
files; the driver reads "config values" from it by name. It holds named values
and named sublists (one level of nesting is all the driver looks at). -/
structure ParameterList where
  params : List (String × ParamValue) := []
  sublists : List (String × List (String × ParamValue)) := []
deriving DecidableEq, Repr, Inhabited

namespace ParameterList

/-- Lookup `pl.sublist(name)`: the named sublist, empty when there is none. -/
def sublist (pl : ParameterList) (name : String) : ParameterList :=
  { params := (pl.sublists.lookup name).getD [], sublists := [] }

/-- Query `pl.isSublist(name)`. -/
def isSublist (pl : ParameterList) (name : String) : Bool :=
  (pl.sublists.lookup name).isSome

/-- Query `pl.isParameter(name)`. -/
def isParameter (pl : ParameterList) (name : String) : Bool :=
  (pl.params.lookup name).isSome

/-- Lookup `pl.get<std::string>(name)`; `none` when the entry is missing or is
not a string (the C++ call throws). -/
def get_string (pl : ParameterList) (name : String) : Option String :=
  match pl.params.lookup name with
  | some (ParamValue.str v) => some v
  | _ => none

/-- Lookup `pl.get<int>(name, dflt)`: the stored value, `dflt` when the entry
is missing; `none` when the entry is not an int (the C++ call throws). -/
def get_int_or (pl : ParameterList) (name : String) (dflt : Int) : Option Int :=
  match pl.params.lookup name with
  | none => some dflt
  | some (ParamValue.int v) => some v
  | some _ => none

/-- Lookup `pl.get<double>(name)`; `none` when the entry is missing or is not
a real (the C++ call throws). -/
def get_real (pl : ParameterList) (name : String) : Option ℚ :=
  match pl.params.lookup name with
  | some (ParamValue.real v) => some v
  | _ => none

/-- Lookup `pl.get<std::vector<double>>(name)`; `none` when the entry is
missing or is not a list of reals (the C++ call throws). -/
def get_reals (pl : ParameterList) (name : String) : Option (List ℚ) :=
  match pl.params.lookup name with
  | some (ParamValue.reals v) => some v
  | _ => none

end ParameterList

/-! ## Field layouts, identifiers and the field repository -/

/-- Modelled from the spec: the enum `FieldTag` is not part of the embedded
files; a "dimension tag" is identified by its name. -/
abbrev FieldTag := String

/-- Modelled from the spec: the class `FieldLayout` is not part of the embedded
files. The spec describes a layout as an "ordered list of dimension tags +
sizes". The field `vector_dim` holds the answer of `get_vector_dim()` for a
layout for which `is_vector_layout()` holds, and is `none` for any other
layout. -/
structure FieldLayout where
  tags : List FieldTag := []
  dims : List Nat := []
  vector_dim : Option Nat := none
deriving DecidableEq, Repr, Inhabited

namespace FieldLayout

/-- Query `layout.size()`: the product of all dimension extents. -/
def size (l : FieldLayout) : Nat := l.dims.prod

/-- Query `layout.dim(i)`. -/
def dim (l : FieldLayout) (i : Nat) : Nat := l.dims.getD i 0

/-- Query `layout.rank()`. -/
def rank (l : FieldLayout) : Nat := l.dims.length

/-- Query `layout.is_vector_layout()`. -/
def is_vector_layout (l : FieldLayout) : Bool := l.vector_dim.isSome

end FieldLayout

/-- Modelled from the spec: the class `FieldIdentifier` is not part of the
embedded files. The driver builds one from a name, a layout, units and a grid
name, and reads these four back. -/
structure FieldIdentifier where
  name : String := ""
  layout : FieldLayout := {}
  units : String := ""
  grid : String := ""
deriving DecidableEq, Repr, Inhabited

/-- The members of `FieldGroupInfo` that the driver reads. -/
structure FieldGroupInfo where
  m_fields_names : List String := []
  m_bundled : Bool := false
deriving DecidableEq, Repr, Inhabited

/-- Modelled from the spec: the class `FieldRepository` is not part of the
embedded files. The spec calls it the place where "all field identifiers" are
registered. The model keeps the registered identifiers in container order, the
groups (`get_groups_info()`), and for a field that is a view into a bundle the
name of that bundle (the parent of its header). -/
structure FieldRepository where
  fids : List FieldIdentifier := []
  groups : List (String × FieldGroupInfo) := []
  /-- pairs ((field name, grid name), name of the parent field) -/
  parents : List ((String × String) × String) := []
deriving DecidableEq, Repr, Inhabited

namespace FieldRepository

/-- Query `repo.has_field(name)`. -/
def has_field (repo : FieldRepository) (name : String) : Bool :=
  repo.fids.any fun fid => fid.name == name

/-- The identifiers between `repo.cbegin(name)` and `repo.cend(name)`. -/
def aliases (repo : FieldRepository) (name : String) : List FieldIdentifier :=
  repo.fids.filter fun fid => fid.name == name

/-- Whether the repository holds an identifier of field `name` on `grid`. -/
def has_field_on_grid (repo : FieldRepository) (name grid : String) : Bool :=
  repo.fids.any fun fid => fid.name == name && fid.grid == grid

/-- The identifier of the field `repo.get_field(name, grid)`, when the
repository holds one. -/
def get_fid (repo : FieldRepository) (name grid : String) : Option FieldIdentifier :=
  repo.fids.find? fun fid => fid.name == name && fid.grid == grid

/-- Modelled from the spec: `repo.register_field(fid, pack_size, group)` makes
`fid` one of the "field identifiers" the repository holds. The group given is
one that holds the field or its bundle already, so the groups are kept as they
are. -/
def register_field (repo : FieldRepository) (fid : FieldIdentifier) (_group : String) :
    FieldRepository :=
  { repo with fids := repo.fids ++ [fid] }

end FieldRepository

namespace control

/-! ## Status flags -/

/-- Modelled from the spec: the status constants are declared in
`atmosphere_driver.hpp`, which is not part of the embedded files. The spec calls
them "bit flags" and lists them in this order: comm set, params set, processes
created, grids created, fields created, fields initialized, processes
initialized, output initialized. -/
def s_comm_set : Nat := 1

/-- Modelled from the spec: second bit flag (see `s_comm_set`). -/
def s_params_set : Nat := 2

/-- Modelled from the spec: third bit flag (see `s_comm_set`). -/
def s_procs_created : Nat := 4

/-- Modelled from the spec: fourth bit flag (see `s_comm_set`). -/
def s_grids_created : Nat := 8

/-- Modelled from the spec: fifth bit flag (see `s_comm_set`). -/
def s_fields_created : Nat := 16

/-- Modelled from the spec: sixth bit flag (see `s_comm_set`). -/
def s_fields_inited : Nat := 32

/-- Modelled from the spec: seventh bit flag (see `s_comm_set`). -/
def s_procs_inited : Nat := 64

/-- Modelled from the spec: eighth bit flag (see `s_comm_set`). -/
def s_output_inited : Nat := 128

/-- The C++ operator `~` on a 32-bit `int`, on bit patterns. -/
def bit_not (x : Nat) : Nat := 4294967295 ^^^ (x % 4294967296)

/-- Flag (or flag mask) `flag` is set in `status`: all its bits are. -/
def flag_set (status flag : Nat) : Prop := status &&& flag = flag

instance (status flag : Nat) : Decidable (flag_set status flag) := by
  unfold flag_set; infer_instance

/-! ## Collaborators -/

/-- The data the driver queries from `AtmosphereProcessGroup`. -/
structure AtmosphereProcessGroup where
  /-- names of `get_required_fields()`, in iteration order -/
  required_fields : List String := []
  /-- names of `get_computed_fields()`, in iteration order -/
  computed_fields : List String := []
  /-- pairs (group name, grid name) of `get_required_groups()` -/
  required_groups : List (String × String) := []
  /-- pairs (group name, grid name) of `get_updated_groups()` -/
  updated_groups : List (String × String) := []
deriving DecidableEq, Repr, Inhabited

/-- The data the driver queries from the grids manager. -/
structure GridsManager where
  /-- name of `get_reference_grid()`, known once the grids are built -/
  reference_grid : Option String := none
deriving DecidableEq, Repr, Inhabited

/-- The surface-coupling collaborator, with its import and export field names. -/
structure SurfaceCoupling where
  get_import_fids : List String := []
  get_export_fids : List String := []
deriving DecidableEq, Repr, Inhabited

/-- A method call on a collaborator, with the arguments the driver passes. -/
inductive Call
  /-- Call `std::make_shared<AtmosphereProcessGroup>(comm, params.sublist(..))` -/
  | make_process_group (comm : Comm) (params : ParameterList)
  /-- Call `GridsManagerFactory::instance().create(gm_type, comm, gm_params)` -/
  | gm_create (gm_type : String) (comm : Comm) (gm_params : ParameterList)
  /-- Call `m_grids_manager->build_grids(required grids, reference grid)` -/
  | gm_build_grids (reference_grid : String)
  /-- Call `m_atm_process_group->set_grids(m_grids_manager)` -/
  | pg_set_grids
  /-- Call `m_field_repo->registration_begins()` -/
  | repo_registration_begins
  /-- Call `m_atm_process_group->register_fields(*m_field_repo)` -/
  | pg_register_fields
  /-- Call `m_grids_manager->create_remapper(from_grid, to_grid)` -/
  | gm_create_remapper (from_grid to_grid : String)
  /-- Call `m_field_repo->register_field(new_fid, gg.pack_size, group)` -/
  | repo_register_field (new_fid : FieldIdentifier) (group : String)
  /-- Call `m_field_repo->registration_ends(m_grids_manager)` -/
  | repo_registration_ends
  /-- Call `m_output_manager.set_params(out_params)` -/
  | om_set_params (out_params : ParameterList)
  /-- Call `m_output_manager.set_comm(m_atm_comm)` -/
  | om_set_comm (comm : Comm)
  /-- Call `m_output_manager.set_grids(m_grids_manager)` -/
  | om_set_grids
  /-- Call `m_output_manager.set_repo(m_field_repo)` -/
  | om_set_repo
  /-- Call `m_output_manager.init()` -/
  | om_init
  /-- Call `dag.create_dag(*m_atm_process_group, m_field_repo)` -/
  | dag_create
  /-- Call `dag.add_surface_coupling(import fids, export fids)` -/
  | dag_add_surface_coupling (imp_fids exp_fids : List String)
  /-- Call `dag.write_dag(file, verbosity)` -/
  | dag_write (file : String) (verbosity : Int)
  /-- Call `m_field_repo->get_field(fid)` -/
  | repo_get_field (name : String)
  /-- Call `m_field_repo->get_field(name, grid)` -/
  | repo_get_field_on_grid (name grid : String)
  /-- Call `f.set_value(value)` on the field `name` on `grid` (`comp = none`), or
  `f.get_component(comp).set_value(value)` on its component subfield `comp` -/
  | field_set_value (name grid : String) (comp : Option Nat) (value : ℚ)
  /-- Call `f.get_header().get_tracking().update_time_stamp(t0)` -/
  | update_time_stamp (name : String) (t0 : ℚ)
  /-- Call `scorpio::eam_init_pio_subsystem(fcomm)` -/
  | pio_init (comm : Comm)
  /-- Call `AtmosphereInput ic_reader(comm, ic_reader_params, repo, gm)` -/
  | ic_reader_create (comm : Comm) (ic_reader_params : ParameterList)
  /-- Call `ic_reader.pull_input()` -/
  | ic_reader_pull_input
  /-- Call `m_atm_process_group->set_required_field(..)` -/
  | pg_set_required_field (name : String)
  /-- Call `m_atm_process_group->set_computed_field(..)` -/
  | pg_set_computed_field (name : String)
  /-- Call `m_atm_process_group->set_required_group(..)` -/
  | pg_set_required_group (group grid : String)
  /-- Call `m_atm_process_group->set_updated_group(..)` -/
  | pg_set_updated_group (group grid : String)
  /-- Call `m_atm_process_group->initialize(m_current_ts)` -/
  | pg_initialize (ts : ℚ)
  /-- registration and deep copy of the backup repository (`SCREAM_DEBUG`) -/
  | bkp_repo_setup
  /-- Call `m_atm_process_group->set_field_repos(*m_field_repo, m_bkp_field_repo)` -/
  | pg_set_field_repos
  /-- Call `m_surface_coupling->do_import()` -/
  | sc_do_import
  /-- Call `m_atm_process_group->run(dt)` -/
  | pg_run (dt : ℚ)
  /-- Call `m_output_manager.run(m_current_ts)` -/
  | om_run (ts : ℚ)
  /-- Call `m_surface_coupling->do_export()` -/
  | sc_do_export
  /-- Call `m_atm_process_group->finalize()` -/
  | pg_finalize
  /-- Call `m_output_manager.finalize()` -/
  | om_finalize
  /-- Call `m_field_repo->clean_up()` -/
  | repo_clean_up
  /-- Call `m_bkp_field_repo.clean_up()` -/
  | bkp_repo_clean_up
  /-- Call `scorpio::eam_pio_finalize()` -/
  | pio_finalize
deriving DecidableEq, Repr

/-- What the driver cannot decide by itself: the build configuration and the
behaviour of its collaborators. -/
structure Externals where
  /-- whether a collaborator call returns normally, given the calls so far -/
  ok : List Call → Call → Bool
  /-- the process group the `AtmosphereProcessGroup` constructor builds -/
  new_process_group : Comm → ParameterList → AtmosphereProcessGroup
  /-- whether the build defines `SCREAM_DEBUG` -/
  scream_debug : Bool
  /-- the repository as `m_atm_process_group->register_fields(repo)` leaves it -/
  register_fields : AtmosphereProcessGroup → FieldRepository → FieldRepository :=
    fun _ repo => repo
  /-- the layout `create_remapper(from, to)->create_tgt_layout(layout)` -/
  create_tgt_layout : String → String → FieldLayout → FieldLayout := fun _ _ l => l

/-- How an operation of the driver can stop. -/
inductive ADError
  /-- Failed `check_ad_status`, branch `must_be_set`: "expected flag" -/
  | status_expected (flag ad_status : Nat)
  /-- Failed `check_ad_status`, other branch: "not expected flag" -/
  | status_not_expected (flag ad_status : Nat)
  /-- Message "Error! Input time step must be positive." -/
  | time_step
  /-- Message "EAM subsystem was inited with a comm different from the current atm comm." -/
  | pio_comm
  /-- a parameter list `get` of an entry that is not there -/
  | parameter (name : String)
  /-- dereference of a `shared_ptr` that holds no object -/
  | null_pointer
  /-- a collaborator call that throws -/
  | external (c : Call)
  /-- a field that the repository does not hold -/
  | field_not_found (name grid : String)
  /-- Message "Error! Initial condition values array for 'name' has the wrong
  dimension.", with the field dimension and the array dimension -/
  | wrong_dimension (name : String) (vec_dim array_dim : Nat)
  /-- Message "Error! Something went wrong while looking for field 'name' in the
  repo." -/
  | field_not_in_repo (name : String)
  /-- Message "Error! Group 'group' not found in the repo." -/
  | group_not_found (group : String)
deriving DecidableEq, Repr

/-- The members of `AtmosphereDriver`, together with the state of the world
outside it that its operations read or change. -/
structure AtmosphereDriver where
  m_ad_status : Nat := 0
  m_atm_comm : Comm := default
  m_atm_params : ParameterList := {}
  m_atm_process_group : Option AtmosphereProcessGroup := none
  m_grids_manager : Option GridsManager := none
  m_field_repo : Option FieldRepository := none
  m_surface_coupling : Option SurfaceCoupling := none
  m_current_ts : ℚ := 0
  /-- Value of `scorpio::is_eam_pio_subsystem_inited()` -/
  pio_inited : Bool := false
  /-- Value of `scorpio::eam_pio_subsystem_comm()` -/
  pio_comm : Comm := default
  /-- collaborator calls made so far, oldest first -/
  calls : List Call := []
deriving DecidableEq, Repr

/-- A driver operation: from the collaborators and the state before to the
outcome and the state after (also kept when the operation stops early). -/
def Exec (α : Type) : Type :=
  Externals → AtmosphereDriver → Except ADError α × AtmosphereDriver

namespace Exec

/-- Return normally. -/
def ret {α : Type} (a : α) : Exec α := fun _ s => (Except.ok a, s)

/-- Stop with an error. -/
def fail {α : Type} (e : ADError) : Exec α := fun _ s => (Except.error e, s)

/-- Sequencing: the second step runs only when the first returned normally. -/
def andThen {α β : Type} (m : Exec α) (f : α → Exec β) : Exec β := fun ext s =>
  match m ext s with
  | (Except.ok a, s1) => f a ext s1
  | (Except.error e, s1) => (Except.error e, s1)

instance : Monad Exec where
  pure := ret
  bind := andThen

/-- Read the current state. -/
def get : Exec AtmosphereDriver := fun _ s => (Except.ok s, s)

/-- Read the collaborators. -/
def externals : Exec Externals := fun ext s => (Except.ok ext, s)

/-- Change the state. -/
def modify (f : AtmosphereDriver → AtmosphereDriver) : Exec Unit :=
  fun _ s => (Except.ok (), f s)

/-- A call on a collaborator: it is recorded when it returns normally. -/
def call (c : Call) : Exec Unit := fun ext s =>
  if ext.ok s.calls c then (Except.ok (), { s with calls := s.calls ++ [c] })
  else (Except.error (ADError.external c), s)

/-- Dereference of a `shared_ptr`. -/
def deref {α : Type} (p : Option α) : Exec α :=
  match p with
  | some a => ret a
  | none => fail ADError.null_pointer

/-- An `ekat::ParameterList::get` that throws when the entry is missing. -/
def param {α : Type} (name : String) (v : Option α) : Exec α :=
  match v with
  | some a => ret a
  | none => fail (ADError.parameter name)

/-- A range-based `for` loop over `xs`. -/
def forEach {α : Type} (xs : List α) (body : α → Exec Unit) : Exec Unit :=
  match xs with
  | [] => ret ()
  | x :: rest => andThen (body x) (fun _ => forEach rest body)

end Exec

/-! ## The driver's operations (`atmosphere_driver.cpp`) -/

/-- Statement `m_ad_status |= flag`. -/
def or_status (flag : Nat) : Exec Unit :=
  Exec.modify fun s => { s with m_ad_status := s.m_ad_status ||| flag }

/-- Dereference of `m_field_repo`. -/
def deref_field_repo : Exec Unit := do
  let s ← Exec.get
  if s.m_field_repo.isSome then pure () else Exec.fail ADError.null_pointer

/-- Method `AtmosphereDriver::check_ad_status (flag, must_be_set)`. The condition
of `EKAT_REQUIRE_MSG` is an `int`, true when it is not zero. -/
def check_ad_status (flag : Nat) (must_be_set : Bool) : Exec Unit := do
  let s ← Exec.get
  if must_be_set then
    if s.m_ad_status &&& flag ≠ 0 then pure ()
    else Exec.fail (ADError.status_expected flag s.m_ad_status)
  else
    if bit_not s.m_ad_status &&& flag ≠ 0 then pure ()
    else Exec.fail (ADError.status_not_expected flag s.m_ad_status)

/-- Modelled from the spec: the default argument of `check_ad_status`, declared
in `atmosphere_driver.hpp` (not part of the embedded files). The one-argument
calls check "required precondition flags", so the default is `true`. -/
def must_be_set_default : Bool := true

/-- Method `AtmosphereDriver::set_comm`. -/
def set_comm (atm_comm : Comm) : Exec Unit := do
  check_ad_status s_comm_set false
  Exec.modify fun s => { s with m_atm_comm := atm_comm }
  or_status s_comm_set

/-- Method `AtmosphereDriver::set_params`. -/
def set_params (atm_params : ParameterList) : Exec Unit := do
  check_ad_status (bit_not s_params_set) must_be_set_default
  Exec.modify fun s => { s with m_atm_params := atm_params }
  or_status s_params_set

/-- Method `AtmosphereDriver::create_atm_processes`. -/
def create_atm_processes : Exec Unit := do
  check_ad_status (s_comm_set ||| s_params_set) must_be_set_default
  let s ← Exec.get
  let ext ← Exec.externals
  let pg_params := s.m_atm_params.sublist "Atmosphere Processes"
  Exec.call (Call.make_process_group s.m_atm_comm pg_params)
  Exec.modify fun s1 =>
    { s1 with m_atm_process_group := some (ext.new_process_group s.m_atm_comm pg_params) }
  or_status s_procs_created

/-- Method `AtmosphereDriver::create_grids`. -/
def create_grids : Exec Unit := do
  check_ad_status (s_procs_created ||| s_comm_set ||| s_params_set) must_be_set_default
  let s ← Exec.get
  let gm_params := s.m_atm_params.sublist "Grids Manager"
  let gm_type ← Exec.param "Type" (gm_params.get_string "Type")
  Exec.call (Call.gm_create gm_type s.m_atm_comm gm_params)
  Exec.modify fun s1 => { s1 with m_grids_manager := some { reference_grid := none } }
  let _pg ← Exec.deref s.m_atm_process_group
  let ref_grid ← Exec.param "Reference Grid" (gm_params.get_string "Reference Grid")
  Exec.call (Call.gm_build_grids ref_grid)
  Exec.modify fun s1 => { s1 with m_grids_manager := some { reference_grid := some ref_grid } }
  Exec.call Call.pg_set_grids
  or_status s_procs_created

/-- The lambda `register_if_not_there` of `register_groups`, for the request
of `group` on `grid`: registers a copy of field `name` on `grid` unless the
repository holds one. The copy is made from the first alias of the field. -/
def register_if_not_there (group grid name : String) : Exec Unit := do
  let s ← Exec.get
  let ext ← Exec.externals
  let repo ← Exec.deref s.m_field_repo
  if repo.has_field name then pure () else Exec.fail (ADError.field_not_in_repo name)
  let found := repo.has_field_on_grid name grid
  if !found then
    let fid ← Exec.deref (repo.aliases name).head?
    let _gm ← Exec.deref s.m_grids_manager
    Exec.call (Call.gm_create_remapper fid.grid grid)
    let f_units := fid.units
    let src_layout := fid.layout
    let tgt_layout := ext.create_tgt_layout fid.grid grid src_layout
    let new_fid : FieldIdentifier :=
      { name := name, layout := tgt_layout, units := f_units, grid := grid }
    Exec.call (Call.repo_register_field new_fid group)
    Exec.modify fun s1 =>
      { s1 with m_field_repo := s1.m_field_repo.map fun r => r.register_field new_fid group }

/-- The body of the loop of the lambda `has_group_fields_on_grid` for the
request `gg` = (group, grid), with `groups_info` the groups of the repository.
An empty bundled group has no first name; the model stops there as for a
pointer that holds no object, and likewise for a field without a parent. -/
def group_fields_on_grid (groups_info : List (String × FieldGroupInfo))
    (gg : String × String) : Exec Unit := do
  let group := gg.1
  let grid := gg.2
  let info ← match groups_info.lookup group with
    | some info => pure info
    | none => Exec.fail (ADError.group_not_found group)
  let fnames := info.m_fields_names
  Exec.forEach fnames fun name => register_if_not_there group grid name
  if info.m_bundled then
    let name ← Exec.deref fnames.head?
    Exec.call (Call.repo_get_field_on_grid name grid)
    let s ← Exec.get
    let repo ← Exec.deref s.m_field_repo
    let bundle_name ← Exec.deref (repo.parents.lookup (name, grid))
    register_if_not_there group grid bundle_name

/-- The lambda `has_group_fields_on_grid` of `register_groups`. -/
def has_group_fields_on_grid (groups_grids : List (String × String)) : Exec Unit := do
  let s ← Exec.get
  let repo ← Exec.deref s.m_field_repo
  let groups_info := repo.groups
  Exec.forEach groups_grids fun gg => group_fields_on_grid groups_info gg

/-- Method `AtmosphereDriver::register_groups`. -/
def register_groups : Exec Unit := do
  let s ← Exec.get
  let pg ← Exec.deref s.m_atm_process_group
  has_group_fields_on_grid pg.required_groups
  has_group_fields_on_grid pg.updated_groups

/-- Method `AtmosphereDriver::create_fields`. -/
def create_fields : Exec Unit := do
  check_ad_status (s_procs_created ||| s_grids_created) must_be_set_default
  Exec.modify fun s => { s with m_field_repo := some {} }
  Exec.call Call.repo_registration_begins
  let s ← Exec.get
  let ext ← Exec.externals
  let pg ← Exec.deref s.m_atm_process_group
  Exec.call Call.pg_register_fields
  Exec.modify fun s1 =>
    { s1 with m_field_repo := s1.m_field_repo.map (ext.register_fields pg) }
  register_groups
  Exec.call Call.repo_registration_ends
  or_status s_fields_created

/-- Method `AtmosphereDriver::initialize_output_manager`. -/
def initialize_output_manager : Exec Unit := do
  check_ad_status (s_comm_set ||| s_params_set ||| s_grids_created ||| s_fields_created)
    must_be_set_default
  let s ← Exec.get
  if s.m_atm_params.isSublist "Output Manager" then
    let out_params := s.m_atm_params.sublist "Output Manager"
    Exec.call (Call.om_set_params out_params)
    Exec.call (Call.om_set_comm s.m_atm_comm)
    Exec.call Call.om_set_grids
    Exec.call Call.om_set_repo
  Exec.call Call.om_init
  or_status s_output_inited

/-- Method `AtmosphereDriver::initialize_one_field<double>` (the `printf` calls
are left out). -/
def initialize_one_field (name : String) (ic_pl : ParameterList) : Exec Unit := do
  let s ← Exec.get
  let repo ← Exec.deref s.m_field_repo
  let gm ← Exec.deref s.m_grids_manager
  let grid ← Exec.deref gm.reference_grid
  Exec.call (Call.repo_get_field_on_grid name grid)
  let fid ← match repo.get_fid name grid with
    | some fid => pure fid
    | none => Exec.fail (ADError.field_not_found name grid)
  let layout := fid.layout
  if layout.is_vector_layout then
    let idim ← Exec.deref layout.vector_dim
    let vec_dim := layout.dim idim
    let values ← Exec.param name (ic_pl.get_reals name)
    if values.length = vec_dim then pure ()
    else Exec.fail (ADError.wrong_dimension name vec_dim values.length)
    Exec.forEach (List.range vec_dim) fun comp =>
      Exec.call (Call.field_set_value name grid (some comp) (values.getD comp 0))
  else
    let value ← Exec.param name (ic_pl.get_real name)
    Exec.call (Call.field_set_value name grid none value)

/-- The loop of `initialize_fields` over the required fields: `ifield` counts
the fields to read from the file, `ic_fields` is the sublist "FIELDS" of the
reader's parameters. -/
def initialize_fields_loop (ic_pl : ParameterList) (t0 : ℚ) :
    List String → Nat → List (String × ParamValue) → Exec (Nat × List (String × ParamValue))
  | [], ifield, ic_fields => pure (ifield, ic_fields)
  | name :: rest, ifield, ic_fields => do
    deref_field_repo
    Exec.call (Call.repo_get_field name)
    if ic_pl.isParameter name then
      initialize_one_field name ic_pl
      Exec.call (Call.update_time_stamp name t0)
      initialize_fields_loop ic_pl t0 rest ifield ic_fields
    else
      let ic_fields1 := ic_fields ++ [("field" ++ toString (ifield + 1), ParamValue.str name)]
      Exec.call (Call.update_time_stamp name t0)
      initialize_fields_loop ic_pl t0 rest (ifield + 1) ic_fields1

/-- Method `AtmosphereDriver::initialize_fields`. -/
def initialize_fields (t0 : ℚ) : Exec Unit := do
  let s ← Exec.get
  let deb_pl := s.m_atm_params.sublist "Debug"
  let verb_lvl ← Exec.param "Atmosphere DAG Verbosity Level"
    (deb_pl.get_int_or "Atmosphere DAG Verbosity Level" (-1))
  if verb_lvl > 0 then
    let _pg ← Exec.deref s.m_atm_process_group
    Exec.call Call.dag_create
    match s.m_surface_coupling with
    | some sc => Exec.call (Call.dag_add_surface_coupling sc.get_import_fids sc.get_export_fids)
    | none => pure ()
    Exec.call (Call.dag_write "scream_atm_dag.dot" (max verb_lvl 0))
  let pg ← Exec.deref s.m_atm_process_group
  let fields_in := pg.required_fields
  let ic_pl := s.m_atm_params.sublist "Initial Conditions"
  let gm ← Exec.deref s.m_grids_manager
  let grid ← Exec.deref gm.reference_grid
  let (ifield, ic_fields) ← initialize_fields_loop ic_pl t0 fields_in 0 []
  if ifield > 0 then
    let filename ← Exec.param "Initial Conditions File"
      (ic_pl.get_string "Initial Conditions File")
    let ic_reader_params : ParameterList :=
      { params := [("GRID", ParamValue.str grid), ("FILENAME", ParamValue.str filename)],
        sublists := [("FIELDS", ic_fields ++ [("Number of Fields", ParamValue.int ifield)])] }
    let s1 ← Exec.get
    if !s1.pio_inited then
      Exec.call (Call.pio_init s1.m_atm_comm)
      Exec.modify fun s2 => { s2 with pio_inited := true, pio_comm := s1.m_atm_comm }
    else
      if s1.m_atm_comm = s1.pio_comm then pure () else Exec.fail ADError.pio_comm
    Exec.call (Call.ic_reader_create s1.m_atm_comm ic_reader_params)
    Exec.call Call.ic_reader_pull_input
  Exec.modify fun s1 => { s1 with m_current_ts := t0 }
  or_status s_fields_inited

/-- Method `AtmosphereDriver::initialize_atm_procs`. -/
def initialize_atm_procs : Exec Unit := do
  let s ← Exec.get
  let pg ← Exec.deref s.m_atm_process_group
  Exec.forEach pg.required_fields fun id => do
    deref_field_repo
    Exec.call (Call.pg_set_required_field id)
  Exec.forEach pg.computed_fields fun id => do
    deref_field_repo
    Exec.call (Call.pg_set_computed_field id)
  Exec.forEach pg.required_groups fun it => do
    deref_field_repo
    Exec.call (Call.pg_set_required_group it.1 it.2)
  Exec.forEach pg.updated_groups fun it => do
    deref_field_repo
    Exec.call (Call.pg_set_updated_group it.1 it.2)
  Exec.call (Call.pg_initialize s.m_current_ts)
  or_status s_procs_inited

/-- Method `AtmosphereDriver::finish_setup`: empty unless `SCREAM_DEBUG`. -/
def finish_setup : Exec Unit := do
  let ext ← Exec.externals
  if ext.scream_debug then
    deref_field_repo
    Exec.call Call.bkp_repo_setup
    let s ← Exec.get
    let _pg ← Exec.deref s.m_atm_process_group
    Exec.call Call.pg_set_field_repos
  else pure ()

/-- Method `AtmosphereDriver::initialize` (the bare name is a keyword). -/
def initialize_driver (atm_comm : Comm) (params : ParameterList) (t0 : ℚ) : Exec Unit := do
  set_comm atm_comm
  set_params params
  create_atm_processes
  create_grids
  create_fields
  initialize_fields t0
  initialize_output_manager
  initialize_atm_procs
  finish_setup

/-- Method `AtmosphereDriver::run`. -/
def run (dt : ℚ) : Exec Unit := do
  if dt > 0 then pure () else Exec.fail ADError.time_step
  let s ← Exec.get
  if s.m_surface_coupling.isSome then
    Exec.call Call.sc_do_import
  let _pg ← Exec.deref s.m_atm_process_group
  Exec.call (Call.pg_run dt)
  Exec.modify fun s1 => { s1 with m_current_ts := s1.m_current_ts + dt }
  let s2 ← Exec.get
  Exec.call (Call.om_run s2.m_current_ts)
  if s.m_surface_coupling.isSome then
    Exec.call Call.sc_do_export

/-- Method `AtmosphereDriver::finalize`. The call of
`scorpio::eam_pio_finalize()` is recorded; what the routine does to the
subsystem is outside the embedded files and is not modelled. -/
def finalize : Exec Unit := do
  let s ← Exec.get
  let ext ← Exec.externals
  let _pg ← Exec.deref s.m_atm_process_group
  Exec.call Call.pg_finalize
  Exec.call Call.om_finalize
  deref_field_repo
  Exec.call Call.repo_clean_up
  if ext.scream_debug then
    Exec.call Call.bkp_repo_clean_up
  let s1 ← Exec.get
  if s1.pio_inited then
    Exec.call Call.pio_finalize

/-- The operations of the driver's public interface, with their arguments. -/
inductive DriverOp
  | set_comm (atm_comm : Comm)
  | set_params (atm_params : ParameterList)
  | create_atm_processes
  | create_grids
  | create_fields
  | initialize_output_manager
  | initialize_fields (t0 : ℚ)
  | initialize_atm_procs
  | finish_setup
  | run (dt : ℚ)
  | finalize
deriving DecidableEq, Repr

/-- The method a `DriverOp` stands for. -/
def DriverOp.exec : DriverOp → Exec Unit
  | DriverOp.set_comm atm_comm => control.set_comm atm_comm
  | DriverOp.set_params atm_params => control.set_params atm_params
  | DriverOp.create_atm_processes => control.create_atm_processes
  | DriverOp.create_grids => control.create_grids
  | DriverOp.create_fields => control.create_fields
  | DriverOp.initialize_output_manager => control.initialize_output_manager
  | DriverOp.initialize_fields t0 => control.initialize_fields t0
  | DriverOp.initialize_atm_procs => control.initialize_atm_procs
  | DriverOp.finish_setup => control.finish_setup
  | DriverOp.run dt => control.run dt
  | DriverOp.finalize => control.finalize

/-! ## Vocabulary of the statements -/

/-- Bitwise inclusion of status values: every bit of `a` is a bit of `b`. -/
def status_le (a b : Nat) : Prop := ∀ i, a.testBit i = true → b.testBit i = true

/-- The operation `m` never clears a status bit, whether it completes or not. -/
structure Grows {α : Type} (m : Exec α) : Prop where
  le : ∀ ext s, status_le s.m_ad_status (m ext s).2.m_ad_status

/-- Collaborators that never throw, a process group without fields, a build
without `SCREAM_DEBUG`. -/
def cooperative : Externals :=
  { ok := fun _ _ => true, new_process_group := fun _ _ => {}, scream_debug := false }

/-- A freshly constructed driver: no status flag set. -/
def fresh : AtmosphereDriver := {}

/-- Sample parameters naming a grids manager and a reference grid. -/
def sample_params : ParameterList :=
  { sublists := [("Grids Manager",
      [("Type", ParamValue.str "Mesh Free"), ("Reference Grid", ParamValue.str "Physics")])] }

/-- The driver after `set_comm`, `set_params sample_params` and
`create_atm_processes`, with cooperative collaborators. -/
def with_processes : AtmosphereDriver :=
  { m_ad_status := 7,
    m_atm_comm := { id := 7 },
    m_atm_params := sample_params,
    m_atm_process_group := some {},
    calls := [Call.make_process_group { id := 7 } {}] }

/-- The driver after `set_comm` and `set_params sample_params`. -/
def with_params : AtmosphereDriver :=
  { m_ad_status := 3, m_atm_comm := { id := 7 }, m_atm_params := sample_params }

/-- The driver `with_processes`, with a surface-coupling collaborator attached. -/
def coupled : AtmosphereDriver :=
  { with_processes with m_surface_coupling := some {} }

/-- Whether an error is a failed `check_ad_status` (the sequencing error). -/
def ADError.is_status_error : ADError → Bool
  | ADError.status_expected _ _ => true
  | ADError.status_not_expected _ _ => true
  | _ => false

/-- The operation `m` never stops with a failed status check. -/
structure NoStatusError {α : Type} (m : Exec α) : Prop where
  err : ∀ ext s e, (m ext s).1 = Except.error e → e.is_status_error = false

/-- The layout of the vector field "qv": 2 columns, 3 components, 4 levels. -/
def qv_layout : FieldLayout :=
  { tags := ["COL", "CMP", "LEV"], dims := [2, 3, 4], vector_dim := some 1 }

/-- The identifier of "qv" on the reference grid "Physics". -/
def qv_fid : FieldIdentifier :=
  { name := "qv", layout := qv_layout, units := "kg/kg", grid := "Physics" }

/-- A repository that holds "qv". -/
def qv_repo : FieldRepository := { fids := [qv_fid] }

/-- A driver whose grids are built (reference grid "Physics") and whose
repository holds "qv". -/
def qv_driver : AtmosphereDriver :=
  { with_processes with
    m_grids_manager := some { reference_grid := some "Physics" },
    m_field_repo := some qv_repo }

/-- Initial conditions that give "qv" the three values 0.1, 0.2, 0.3. -/
def qv_ic : ParameterList :=
  { params := [("qv", ParamValue.reals [1 / 10, 2 / 10, 3 / 10])] }

/-- Initial conditions that give "qv" only two values. -/
def qv_ic_short : ParameterList :=
  { params := [("qv", ParamValue.reals [1 / 10, 2 / 10])] }

/-- A driver ready for `finalize`, with the I/O subsystem initialized by someone
else: no call of the driver initialized it. -/
def pio_inited_elsewhere : AtmosphereDriver :=
  { with_processes with
    m_field_repo := some {},
    pio_inited := true,
    pio_comm := { id := 7 } }

/-- The calls that `initialize_one_field name ic_pl` records when it completes
on a driver with the repository `repo` and the reference grid `grid`. -/
def one_field_calls (repo : FieldRepository) (grid : String) (ic_pl : ParameterList)
    (name : String) : List Call :=
  Call.repo_get_field_on_grid name grid ::
    match repo.get_fid name grid with
    | none => []
    | some fid =>
      match fid.layout.vector_dim with
      | some idim =>
        (List.range (fid.layout.dim idim)).map fun comp =>
          Call.field_set_value name grid (some comp)
            (((ic_pl.get_reals name).getD []).getD comp 0)
      | none =>
        match ic_pl.get_real name with
        | some value => [Call.field_set_value name grid none value]
        | none => []

/-- The required fields that the initial-conditions list `ic_pl` gives no
constant for, in iteration order. -/
def fields_from_file (ic_pl : ParameterList) (names : List String) : List String :=
  names.filter fun name => !ic_pl.isParameter name

/-- The entries "field(start+1)", "field(start+2)", ... for `names`, in order. -/
def ic_field_keys (start : Nat) : List String → List (String × ParamValue)
  | [] => []
  | name :: rest =>
    ("field" ++ toString (start + 1), ParamValue.str name) :: ic_field_keys (start + 1) rest

/-- The calls of the loop of `initialize_fields` over `names` when it completes:
for each name the repository lookup, the calls of `initialize_one_field` when
the name is a parameter of `ic_pl`, and the update of the time stamp. -/
def loop_calls (repo : FieldRepository) (grid : String) (ic_pl : ParameterList) (t0 : ℚ)
    (names : List String) : List Call :=
  names.flatMap fun name =>
    [Call.repo_get_field name]
      ++ (if ic_pl.isParameter name then one_field_calls repo grid ic_pl name else [])
      ++ [Call.update_time_stamp name t0]

/-- The calls of the first block of `initialize_fields` when it completes, for
the verbosity level `lvl`. -/
def dag_calls (s : AtmosphereDriver) (lvl : Int) : List Call :=
  if lvl > 0 then
    [Call.dag_create]
      ++ (match s.m_surface_coupling with
          | some sc => [Call.dag_add_surface_coupling sc.get_import_fids sc.get_export_fids]
          | none => [])
      ++ [Call.dag_write "scream_atm_dag.dot" (max lvl 0)]
  else []

/-- The parameters `initialize_fields` hands to the reader of the
initial-conditions file. -/
def ic_reader_params (grid filename : String) (from_file : List String) : ParameterList :=
  { params := [("GRID", ParamValue.str grid), ("FILENAME", ParamValue.str filename)],
    sublists := [("FIELDS", ic_field_keys 0 from_file
      ++ [("Number of Fields", ParamValue.int from_file.length)])] }

/-- The calls of the last block of `initialize_fields` when it completes, on the
driver `s` (before the operation) with the reference grid `grid`: nothing when
no field is to be read from the file, else the initialization of the I/O
subsystem unless it is initialized already, the creation of the reader and
`pull_input`. -/
def reader_calls (s : AtmosphereDriver) (grid : String) (ic_pl : ParameterList)
    (from_file : List String) : List Call :=
  if from_file.length > 0 then
    (if s.pio_inited then [] else [Call.pio_init s.m_atm_comm])
      ++ [Call.ic_reader_create s.m_atm_comm
            (ic_reader_params grid ((ic_pl.get_string "Initial Conditions File").getD "")
              from_file),
          Call.ic_reader_pull_input]
  else []

/-- The operation `initialize_fields` with its last block `if (ifield>0) { ... }`
left out, to compare with: the name of the file is not looked up, the I/O
subsystem is not touched, and no reader is created. -/
def initialize_fields_without_file (t0 : ℚ) : Exec Unit := do
  let s ← Exec.get
  let deb_pl := s.m_atm_params.sublist "Debug"
  let verb_lvl ← Exec.param "Atmosphere DAG Verbosity Level"
    (deb_pl.get_int_or "Atmosphere DAG Verbosity Level" (-1))
  if verb_lvl > 0 then
    let _pg ← Exec.deref s.m_atm_process_group
    Exec.call Call.dag_create
    match s.m_surface_coupling with
    | some sc => Exec.call (Call.dag_add_surface_coupling sc.get_import_fids sc.get_export_fids)
    | none => pure ()
    Exec.call (Call.dag_write "scream_atm_dag.dot" (max verb_lvl 0))
  let pg ← Exec.deref s.m_atm_process_group
  let fields_in := pg.required_fields
  let ic_pl := s.m_atm_params.sublist "Initial Conditions"
  let gm ← Exec.deref s.m_grids_manager
  let _grid ← Exec.deref gm.reference_grid
  let (_ifield, _ic_fields) ← initialize_fields_loop ic_pl t0 fields_in 0 []
  Exec.modify fun s1 => { s1 with m_current_ts := t0 }
  or_status s_fields_inited

/-- Whether a call creates or runs the reader of the initial-conditions file. -/
def Call.is_ic_reader : Call → Bool
  | Call.ic_reader_create _ _ => true
  | Call.ic_reader_pull_input => true
  | _ => false

/-- The operation `m` stops only with errors that satisfy `Q`. -/
structure FailsOnly {α : Type} (Q : ADError → Prop) (m : Exec α) : Prop where
  err : ∀ ext s e, (m ext s).1 = Except.error e → Q e

/-- Whether a call writes the dependency graph of the processes. -/
def Call.is_dag_write : Call → Bool
  | Call.dag_write _ _ => true
  | _ => false

/-- Whether an error is the reader of the initial-conditions file failing in
`pull_input` (an input field is missing from the file). -/
def ADError.is_missing_input : ADError → Bool
  | ADError.external Call.ic_reader_pull_input => true
  | _ => false

/-- Collaborators that return normally except for the reader of the
initial-conditions file, whose `pull_input` fails. -/
def missing_input : Externals :=
  { ok := fun _ c => match c with
      | Call.ic_reader_pull_input => false
      | _ => true,
    new_process_group := fun _ _ => {},
    scream_debug := false }

/-- Parameters with initial conditions that name a file and give "qv" constant
values, and with no "Debug" sublist. -/
def ic_params : ParameterList :=
  { sublists := [("Initial Conditions",
      [("Initial Conditions File", ParamValue.str "ic.nc"),
       ("qv", ParamValue.reals [1 / 10, 2 / 10, 3 / 10])])] }

/-- The driver `qv_driver` with the required fields "T", "qv" and "ps" and the
parameters `ic_params`. -/
def ic_driver : AtmosphereDriver :=
  { qv_driver with
    m_atm_process_group := some { required_fields := ["T", "qv", "ps"] },
    m_atm_params := ic_params }

/-- The driver `qv_driver` with the only required field "qv" and the parameters
`ic_params`: no field is to be read from a file. -/
def ic_driver_const : AtmosphereDriver :=
  { qv_driver with
    m_atm_process_group := some { required_fields := ["qv"] },
    m_atm_params := { sublists := [("Initial Conditions",
      [("qv", ParamValue.reals [1 / 10, 2 / 10, 3 / 10])])] } }

/-- Whether a call initializes or shuts down the I/O subsystem. -/
def Call.is_pio : Call → Bool
  | Call.pio_init _ => true
  | Call.pio_finalize => true
  | _ => false

/-- The driver `ic_driver` at a moment when someone else has initialized the I/O
subsystem, with the communicator of the driver. -/
def foreign_pio_driver : AtmosphereDriver :=
  { ic_driver with pio_inited := true, pio_comm := { id := 7 } }

/-- Equality of two results of an operation is decidable. -/
instance except_decEq {ε α : Type} [DecidableEq ε] [DecidableEq α] :
    DecidableEq (Except ε α) := fun a b =>
  match a, b with
  | Except.ok x, Except.ok y =>
    if h : x = y then isTrue (by rw [h]) else isFalse (fun h1 => h (Except.ok.inj h1))
  | Except.error x, Except.error y =>
    if h : x = y then isTrue (by rw [h]) else isFalse (fun h1 => h (Except.error.inj h1))
  | Except.ok _, Except.error _ => isFalse (fun h => Except.noConfusion h)
  | Except.error _, Except.ok _ => isFalse (fun h => Except.noConfusion h)

/-- The identifier `f` is a copy that `register_if_not_there` makes when the
repository holds the identifiers `fids`: no identifier of `fids` has the name of
`f` on the grid of `f`, and some identifier `g` of `fids` has the name and the
units of `f`, with the layout of `f` equal to `create_tgt_layout` of the layout
of `g`, for the remapper from the grid of `g` to the grid of `f`. -/
def Synthesized (ext : Externals) (fids : List FieldIdentifier) (f : FieldIdentifier) : Prop :=
  (∀ g ∈ fids, ¬ (g.name = f.name ∧ g.grid = f.grid)) ∧
  ∃ g ∈ fids, g.name = f.name ∧ g.units = f.units ∧
    f.layout = ext.create_tgt_layout g.grid f.grid g.layout

/-- The identifiers `new` were registered one after another in a repository
that held `fids`, each one a copy synthesized from the identifiers held at its
registration. -/
inductive Registered (ext : Externals) (fids : List FieldIdentifier) :
    List FieldIdentifier → Prop
  | nil : Registered ext fids []
  | snoc (new : List FieldIdentifier) (f : FieldIdentifier) :
      Registered ext fids new → Synthesized ext (fids ++ new) f →
      Registered ext fids (new ++ [f])

/-- From the state `s` to the state `s1` the repository only gained identifiers,
registered one after another as synthesized copies. -/
def RepoExtended (ext : Externals) (s s1 : AtmosphereDriver) : Prop :=
  ∀ repo, s.m_field_repo = some repo →
    ∃ new, s1.m_field_repo = some { repo with fids := repo.fids ++ new } ∧
      Registered ext repo.fids new

/-- In the state `s` the repository holds an identifier of field `name` on
`grid`. -/
def OnGrid (s : AtmosphereDriver) (name grid : String) : Prop :=
  ∃ repo, s.m_field_repo = some repo ∧ repo.has_field_on_grid name grid = true

/-- A repository with "T" and "qv" on the grid "Physics" and the group
"tracers" that holds "qv". -/
def tracers_repo : FieldRepository :=
  { fids := [{ name := "T", layout := { tags := ["COL", "LEV"], dims := [2, 4] },
               units := "K", grid := "Physics" }, qv_fid],
    groups := [("tracers", { m_fields_names := ["qv"], m_bundled := false })] }

/-- A driver whose repository is `tracers_repo` and whose processes require the
group "tracers" on the grid "Dynamics" and update it on the grid "Physics". -/
def tracers_driver : AtmosphereDriver :=
  { qv_driver with
    m_field_repo := some tracers_repo,
    m_atm_process_group := some
      { required_groups := [("tracers", "Dynamics")],
        updated_groups := [("tracers", "Physics")] } }

/-- The driver `tracers_driver` with processes that require the group
"aerosols", which the repository does not hold. -/
def aerosols_driver : AtmosphereDriver :=
  { tracers_driver with
    m_atm_process_group := some { required_groups := [("aerosols", "Dynamics")] } }

/-- Constructor `AtmosphereDriver::AtmosphereDriver(atm_comm, params)`, run on
the members of a new object. -/
def new_AtmosphereDriver (atm_comm : Comm) (params : ParameterList) : Exec Unit := do
  set_comm atm_comm
  set_params params

/-- The driver that the two-argument constructor builds from `atm_comm` and
`params`: the two are stored, CommSet and ParamsSet are set, nothing else is
there. -/
def constructed (atm_comm : Comm) (params : ParameterList) : AtmosphereDriver :=
  { fresh with m_atm_comm := atm_comm, m_atm_params := params, m_ad_status := 3 }

end control

/-! ## The coarsening remapper (`coarsening_remapper.hpp`) -/

/-- A field bound to the remapper: its name, its grid and its values. -/
structure Field where
  name : String := ""
  grid : String := ""
  values : List ℚ := []
deriving DecidableEq, Repr, Inhabited

/-- The registration state of a remapper (`RepoState`). -/
inductive RepoState
  | Clean
  | Open
  | Closed
deriving DecidableEq, Repr, Inhabited

/-- The data members of `CoarseningRemapper` that hold fields, weights and the
exchange plan, with the members of its base class that registration uses. The
two `num_dofs` members are the numbers of local DOFs of `m_ov_tgt_grid` and of
the target grid. -/
structure CoarseningRemapper where
  m_comm : Comm := default
  m_src_fields : List Field := []
  m_ov_tgt_fields : List Field := []
  m_tgt_fields : List Field := []
  /-- one pair (row lid, col lid) per triplet -/
  m_row_col_lids : List (Nat × Nat) := []
  m_weights : List ℚ := []
  m_send_buffer : List ℚ := []
  m_recv_buffer : List ℚ := []
  /-- pairs (lid in the overlapped target grid, pid to send it to) -/
  m_send_lids_pids : List (Nat × Nat) := []
  /-- pairs (lid in the target grid, pid to receive it from) -/
  m_recv_lids_pids : List (Nat × Nat) := []
  ov_tgt_num_dofs : Nat := 0
  tgt_num_dofs : Nat := 0
  /-- registration state kept by `AbstractRemapper` -/
  m_state : RepoState := RepoState.Clean
  /-- registered pairs (source identifier, target identifier) -/
  m_fields : List (FieldIdentifier × FieldIdentifier) := []
deriving DecidableEq, Repr, Inhabited

/-- Method `CoarseningRemapper::do_remap_bwd`: its body is the single statement
`EKAT_ERROR_MSG`, which throws. The result pairs the outcome with the remapper
as the call leaves it. -/
def CoarseningRemapper.do_remap_bwd (r : CoarseningRemapper) :
    Except String Unit × CoarseningRemapper :=
  (Except.error "CoarseningRemapper only supports fwd remapping.\n", r)

/-- Method `CoarseningRemapper::compatible_layouts`. The free function
`get_layout_type` is declared outside the embedded files and is a parameter;
`/` is the division of non-negative `int`s. -/
def CoarseningRemapper.compatible_layouts {τ : Type} [DecidableEq τ]
    (get_layout_type : List FieldTag → τ) (src tgt : FieldLayout) : Bool :=
  decide (get_layout_type src.tags = get_layout_type tgt.tags) &&
    decide (src.size / src.dim 0 = tgt.size / tgt.dim 0)

/-- Modelled from the spec: `AbstractRemapper::register_field` is not part of
the embedded files. The spec: it "records that a future bind+remap call will
relate these two field identifiers; must occur between `registration_begins`
and `registration_ends`; fails if layouts are incompatible per the
compatibility predicate". -/
def CoarseningRemapper.register_field {τ : Type} [DecidableEq τ]
    (get_layout_type : List FieldTag → τ) (r : CoarseningRemapper)
    (src tgt : FieldIdentifier) : Except String CoarseningRemapper :=
  if r.m_state ≠ RepoState.Open then
    Except.error "Error! Cannot register fields in the remapper at this time."
  else if CoarseningRemapper.compatible_layouts get_layout_type src.layout tgt.layout then
    Except.ok { r with m_fields := r.m_fields ++ [(src, tgt)] }
  else
    Except.error "Error! Source and target layouts do not match."

/-! ### Forward remap

The bodies of `do_remap_fwd`, `local_mat_vec`, `pack` and `unpack` are not part
of the embedded files (the header declares them); they are modelled from the
spec, for scalar fields (one value per DOF), in exact arithmetic. -/

/-- Add `v` to entry `i` of `xs`; an index out of range changes nothing. -/
def add_at : List ℚ → Nat → ℚ → List ℚ
  | [], _, _ => []
  | x :: rest, 0, v => (x + v) :: rest
  | x :: rest, i + 1, v => x :: add_at rest i v

/-- Start from `n` zeros and add each item `(i, v)`, in list order, into entry
`i`. -/
def accumulate (n : Nat) (items : List (Nat × ℚ)) : List ℚ :=
  items.foldl (fun acc it => add_at acc it.1 it.2) (List.replicate n 0)

/-- The triplets (row lid, col lid, weight) of a remapper, in triplet-list
order. -/
def CoarseningRemapper.triplets (r : CoarseningRemapper) : List ((Nat × Nat) × ℚ) :=
  r.m_row_col_lids.zip r.m_weights

/-- Modelled from the spec: `local_mat_vec` is "a local sparse matrix-vector
product from source-field values into the overlapped-target intermediate using
the triplet list (accumulating, since multiple source DOFs may map to the same
destination DOF ...), e.g. ascending triplet-list order". -/
def CoarseningRemapper.local_mat_vec (r : CoarseningRemapper) (f_src : List ℚ) : List ℚ :=
  accumulate r.ov_tgt_num_dofs
    (r.triplets.map fun t => (t.1.1, t.2 * f_src.getD t.1.2 0))

/-- The lids of a list of pairs (lid, pid) that go with `pid`, in list order. -/
def lids_of_pid (lids_pids : List (Nat × Nat)) (pid : Nat) : List Nat :=
  (lids_pids.filter fun lp => lp.2 == pid).map fun lp => lp.1

/-- Modelled from the spec: `pack` "gathers every registered field's
contributing values into one contiguous send buffer per peer rank ordering".
The result is the part of the send buffer that goes to rank `pid`: the
overlapped-target values at the lids to send to `pid`. -/
def CoarseningRemapper.pack (r : CoarseningRemapper) (ov_tgt : List ℚ) (pid : Nat) : List ℚ :=
  (lids_of_pid r.m_send_lids_pids pid).map fun lid => ov_tgt.getD lid 0

/-- Modelled from the spec: `unpack` "scatters a received buffer back into
per-field destination rows, adding (not overwriting) into already-present
partial sums from other peers". The received buffer is given as the list of
pairs (sending pid, values received from it); the k-th value received from a
pid is added into the k-th lid to receive from that pid. -/
def CoarseningRemapper.unpack (r : CoarseningRemapper) (recv : List (Nat × List ℚ)) : List ℚ :=
  accumulate r.tgt_num_dofs
    (recv.flatMap fun pm => (lids_of_pid r.m_recv_lids_pids pm.1).zip pm.2)

/-- Modelled from the spec: `remap_forward` "performs a local sparse
matrix-vector product from source-field values into the overlapped-target
intermediate ..., then exchanges the overlapped-target values with peer
processes and accumulates received contributions into the final target field".
The argument lists every rank's remapper with the values of the source field on
that rank; the result lists the values of the target field on every rank. -/
def remap_forward (ranks : List (CoarseningRemapper × List ℚ)) : List (List ℚ) :=
  ranks.map fun rq =>
    rq.1.unpack (ranks.map fun rp =>
      (rp.1.m_comm.rank, rp.1.pack (rp.1.local_mat_vec rp.2) rq.1.m_comm.rank))

/-- The field `a * xs + b * ys`, DOF by DOF. -/
def axpby (a b : ℚ) (xs ys : List ℚ) : List ℚ :=
  List.zipWith (fun x y => a * x + b * y) xs ys

/-- The weights that contribute to the target DOF with lid `t` on the rank of
`rq`: on every rank `rp`, for every overlapped-target lid that `rp` sends to
the rank of `rq` and that `rq` receives into `t`, the weights of the triplets
of `rp` in that row. -/
def contributing_weights (ranks : List CoarseningRemapper) (rq : CoarseningRemapper)
    (t : Nat) : List ℚ :=
  ranks.flatMap fun rp =>
    ((lids_of_pid rq.m_recv_lids_pids rp.m_comm.rank).zip
        (lids_of_pid rp.m_send_lids_pids rq.m_comm.rank)).flatMap fun ll =>
      if ll.1 = t then (rp.triplets.filter fun tr => tr.1.1 = ll.2).map fun tr => tr.2
      else []

/-- A layout with 4 columns and 8 entries per column. -/
def layout_4x8 : FieldLayout := { tags := ["COL", "LEV"], dims := [4, 8] }

/-- A layout with 2 columns and 5 entries per column. -/
def layout_2x5 : FieldLayout := { tags := ["COL", "LEV"], dims := [2, 5] }

/-- A vector layout: 4 columns, 2 components, 6 levels. -/
def layout_4x2x6 : FieldLayout :=
  { tags := ["COL", "CMP", "LEV"], dims := [4, 2, 6], vector_dim := some 1 }

/-- A vector layout with the same tags: 3 columns, 3 components, 4 levels. -/
def layout_3x3x4 : FieldLayout :=
  { tags := ["COL", "CMP", "LEV"], dims := [3, 3, 4], vector_dim := some 1 }

/-- Rank 0 of a two-rank remap: two source DOFs, two overlapped-target rows (row
0 goes to rank 0, row 1 to rank 1), one target DOF that receives a partial sum
from each rank. -/
def rank0 : CoarseningRemapper :=
  { m_comm := { id := 0, rank := 0 },
    m_row_col_lids := [(0, 0), (1, 1)],
    m_weights := [1 / 2, 1 / 4],
    m_send_lids_pids := [(0, 0), (1, 1)],
    m_recv_lids_pids := [(0, 0), (0, 1)],
    ov_tgt_num_dofs := 2,
    tgt_num_dofs := 1 }

/-- Rank 1 of the two-rank remap. -/
def rank1 : CoarseningRemapper :=
  { m_comm := { id := 0, rank := 1 },
    m_row_col_lids := [(0, 0), (1, 0), (1, 1)],
    m_weights := [1 / 2, 1 / 4, 1 / 2],
    m_send_lids_pids := [(0, 0), (1, 1)],
    m_recv_lids_pids := [(0, 0), (0, 1)],
    ov_tgt_num_dofs := 2,
    tgt_num_dofs := 1 }

/-! ## The common physics functions (`scream_common_physics_impl.hpp`) -/

namespace physics

/-- Modelled from the spec: the class `Constants` is declared in
`physics/share/physics_constants.hpp`, which is not part of the embedded files.
The kernels read the constants by name; their values are parameters here. -/
structure Constants where
  RD : ℚ
  gravit : ℚ
  ep_2 : ℚ
deriving DecidableEq, Repr

end physics

namespace PhysicsFunctions

/-- Function `calculate_temperature_from_virtual_temperature(T_virtual, qv)`. -/
def calculate_temperature_from_virtual_temperature (C : physics.Constants)
    (T_virtual qv : ℚ) : ℚ :=
  let ep_2 := C.ep_2
  T_virtual * ((ep_2 * (1 + qv)) / (qv + ep_2))

/-- Function `calculate_virtual_temperature(temperature, qv)`. -/
def calculate_virtual_temperature (C : physics.Constants) (temperature qv : ℚ) : ℚ :=
  let ep_2 := C.ep_2
  temperature * ((qv + ep_2) / (ep_2 * (1 + qv)))

/-- Function `calculate_dz(pseudo_density, p_mid, T_mid, qv)`. -/
def calculate_dz (C : physics.Constants) (pseudo_density p_mid T_mid qv : ℚ) : ℚ :=
  let T_virtual := calculate_virtual_temperature C T_mid qv
  let rd := C.RD
  let g := C.gravit
  (rd / g) * pseudo_density * T_virtual / p_mid

/-- Loop `Kokkos::parallel_for(Kokkos::TeamThreadRange(team, n), body)`: the body
runs once for every `k` in `0 .. n-1`. -/
def team_thread_range {σ : Type} (n : Nat) (body : Nat → σ → σ) (view : σ) : σ :=
  (List.range n).foldl (fun v k => body k v) view

/-- Function `calculate_dz(team, pseudo_density, p_mid, T_mid, qv, dz)`, the
version for a full column: the inputs are providers of a value per level, `dz`
is the output view and `dz.length` its extent. -/
def calculate_dz_column (C : physics.Constants) (pseudo_density p_mid T_mid qv : Nat → ℚ)
    (dz : List ℚ) : List ℚ :=
  team_thread_range dz.length
    (fun k dz1 => dz1.set k (calculate_dz C (pseudo_density k) (p_mid k) (T_mid k) (qv k)))
    dz

/-- Sample constants: `RD` = 287, `gravit` = 10, `ep_2` = 5/8. -/
def sample_constants : physics.Constants := { RD := 287, gravit := 10, ep_2 := 5 / 8 }

end PhysicsFunctions

end scream

/-! ## The output of the PAM cloud-resolving model (`pam_output.h`) -/

namespace pam

/-- The values `0 .. n-1` of a C++ `int` loop counter; none when `n ≤ 0`. -/
def irange (n : Int) : List Int := (List.range n.toNat).map Int.ofNat

/-- The result of a step that can go wrong: an access to an array outside its
extents (undefined behaviour in C++) or a lookup of a name that a data manager
or the options do not hold (the run aborts) gives no result. -/
def Checked (α : Type) : Type := Option α

namespace Checked

/-- The step completes with the value `a`. -/
def ret {α : Type} (a : α) : Checked α := some a

/-- The step goes wrong. -/
def fail {α : Type} : Checked α := none

/-- Sequencing: the second step runs only when the first completed. -/
def andThen {α β : Type} (m : Checked α) (f : α → Checked β) : Checked β :=
  match m with
  | some a => f a
  | none => none

instance : Monad Checked where
  pure := ret
  bind := andThen

/-- A lookup that aborts the run when it finds nothing. -/
def found {α : Type} (o : Option α) : Checked α :=
  match o with
  | some a => ret a
  | none => fail

end Checked

/-- Modelled from the spec: `yakl::c::SimpleBounds<2>(n0, n1)` is the index space
of the "external parallel-for abstraction": all pairs below the bounds, listed
here with the last index running fastest. -/
def SimpleBounds2 (n0 n1 : Int) : List (Int × Int) :=
  (irange n0).flatMap fun i0 => (irange n1).map fun i1 => (i0, i1)

/-- Modelled from the spec: `yakl::c::SimpleBounds<4>(n0, n1, n2, n3)`, see
`SimpleBounds2`. -/
def SimpleBounds4 (n0 n1 n2 n3 : Int) : List (Int × Int × Int × Int) :=
  (irange n0).flatMap fun i0 => (irange n1).flatMap fun i1 =>
    (irange n2).flatMap fun i2 => (irange n3).map fun i3 => (i0, i1, i2, i3)

/-- Modelled from the spec: `yakl::c::parallel_for(label, bounds, body)` runs the
body once for every index of the bounds. A body that goes wrong stops the whole loop
without a result. -/
def parallel_for {ι σ : Type} : List ι → (ι → σ → Checked σ) → σ → Checked σ
  | [], _, st => Checked.ret st
  | idx :: rest, body, st => Checked.andThen (body idx st) (parallel_for rest body)

/-- Modelled from the spec: a `yakl` array of `real` of rank 2 (`real2d`), with
its two extents and its contents by index. -/
structure real2d where
  extent0 : Int
  extent1 : Int
  data : Int → Int → ℚ

namespace real2d

/-- Whether the index pair lies within the extents of the array. -/
def inside (a : real2d) (i0 i1 : Int) : Bool :=
  decide (0 ≤ i0) && decide (i0 < a.extent0) && decide (0 ≤ i1) && decide (i1 < a.extent1)

/-- Read `a(i0,i1)`. -/
def read (a : real2d) (i0 i1 : Int) : Checked ℚ :=
  if a.inside i0 i1 then Checked.ret (a.data i0 i1) else Checked.fail

/-- The array `a` with the value `v` at `(i0,i1)`. -/
def updated (a : real2d) (i0 i1 : Int) (v : ℚ) : real2d :=
  { a with data := fun j0 j1 => if j0 = i0 ∧ j1 = i1 then v else a.data j0 j1 }

/-- Assignment `a(i0,i1) = v`. -/
def write (a : real2d) (i0 i1 : Int) (v : ℚ) : Checked real2d :=
  if a.inside i0 i1 then Checked.ret (a.updated i0 i1 v) else Checked.fail

/-- Modelled from the spec: `src.deep_copy_to(dst)` copies the contents of
`src` into the memory of `dst`, an array of the same extents. -/
def deep_copy_to (src dst : real2d) : Checked real2d :=
  if src.extent0 = dst.extent0 ∧ src.extent1 = dst.extent1 then
    Checked.ret { dst with data := src.data }
  else Checked.fail

end real2d

/-- Modelled from the spec: `yakl::atomicAdd(a(i0,i1), v)` adds `v` to the
element as one indivisible update. -/
def atomicAdd (a : real2d) (i0 i1 : Int) (v : ℚ) : Checked real2d := do
  let old ← a.read i0 i1
  a.write i0 i1 (old + v)

/-- Modelled from the spec: a `yakl` array of `real` of rank 4. -/
structure real4d where
  extent0 : Int
  extent1 : Int
  extent2 : Int
  extent3 : Int
  data : Int → Int → Int → Int → ℚ

namespace real4d

/-- Whether the index lies within the extents of the array. -/
def inside (a : real4d) (i0 i1 i2 i3 : Int) : Bool :=
  decide (0 ≤ i0) && decide (i0 < a.extent0) && decide (0 ≤ i1) && decide (i1 < a.extent1)
    && decide (0 ≤ i2) && decide (i2 < a.extent2) && decide (0 ≤ i3) && decide (i3 < a.extent3)

/-- Read `a(i0,i1,i2,i3)`. -/
def read (a : real4d) (i0 i1 i2 i3 : Int) : Checked ℚ :=
  if a.inside i0 i1 i2 i3 then Checked.ret (a.data i0 i1 i2 i3) else Checked.fail

end real4d

/-- An array that a data manager holds. -/
inductive Entry
  | rank2 (a : real2d)
  | rank4 (a : real4d)

/-- Modelled from the spec: the data manager of the coupler (`pam_coupler.h` is
not part of the embedded files). It holds named dimensions and named arrays. -/
structure DataManager where
  dimensions : List (String × Int) := []
  entries : List (String × Entry) := []

namespace DataManager

/-- Query `dm.get_dimension_size(name)`. -/
def get_dimension_size (dm : DataManager) (name : String) : Checked Int :=
  Checked.found (dm.dimensions.lookup name)

/-- Query `dm.get<real,2>(name)`. -/
def get2 (dm : DataManager) (name : String) : Checked real2d :=
  match dm.entries.lookup name with
  | some (Entry.rank2 a) => Checked.ret a
  | _ => Checked.fail

/-- Query `dm.get<real,4>(name)`. -/
def get4 (dm : DataManager) (name : String) : Checked real4d :=
  match dm.entries.lookup name with
  | some (Entry.rank4 a) => Checked.ret a
  | _ => Checked.fail

/-- Registration of one dimension name with its size: an unknown name is added,
a known name must have this size. -/
def add_dimension (dm : DataManager) (name : String) (size : Int) : Checked DataManager :=
  match dm.dimensions.lookup name with
  | some known => if known = size then Checked.ret dm else Checked.fail
  | none => Checked.ret { dm with dimensions := (name, size) :: dm.dimensions }

/-- Modelled from the spec: `dm.register_and_allocate<real>(name, desc, {e0,e1},
{d0,d1})` adds an array of the given extents under a name that is not yet in
use, and registers the two dimension names. The memory is not initialized:
`contents` is what it happens to hold. -/
def register_and_allocate (dm : DataManager) (name : String) (e0 e1 : Int) (d0 d1 : String)
    (contents : Int → Int → ℚ) : Checked DataManager :=
  if (dm.entries.lookup name).isSome then Checked.fail
  else do
    let dm1 ← dm.add_dimension d0 e0
    let dm2 ← dm1.add_dimension d1 e1
    pure { dm2 with
      entries := (name, Entry.rank2 { extent0 := e0, extent1 := e1, data := contents })
        :: dm2.entries }

/-- The data manager after the array `a`, a handle to the memory of the entry
`name`, has been written through. -/
def store (dm : DataManager) (name : String) (a : real2d) : DataManager :=
  { dm with
    entries := dm.entries.map fun e => if e.1 = name then (name, Entry.rank2 a) else e }

end DataManager

/-- Modelled from the spec: the members of `pam::PamCoupler` that the output
functions use: the two data managers and the integer options. The member
`uninitialized` gives, for the variable name of an allocation, the contents of
the memory that the allocation returns. -/
structure PamCoupler where
  dm_device : DataManager := {}
  dm_host : DataManager := {}
  options : List (String × Int) := []
  uninitialized : String → Int → Int → ℚ := fun _ _ _ => 0

/-- Query `coupler.get_option<int>(name)`. -/
def PamCoupler.get_option (coupler : PamCoupler) (name : String) : Checked Int :=
  Checked.found (coupler.options.lookup name)

/-- The six arrays of horizontal means. -/
structure Means where
  nc_mean : real2d
  ni_mean : real2d
  qr_mean : real2d
  nr_mean : real2d
  qm_mean : real2d
  bm_mean : real2d

/-- The body of the loop "Initialize horzontal means" of
`pam_output_compute_means`. -/
def initialize_horizontal_means (idx : Int × Int) (m : Means) : Checked Means := do
  let k_gcm := idx.1
  let iens := idx.2
  let nc_mean ← m.nc_mean.write k_gcm iens 0
  let ni_mean ← m.ni_mean.write k_gcm iens 0
  let qr_mean ← m.qr_mean.write k_gcm iens 0
  let nr_mean ← m.nr_mean.write k_gcm iens 0
  let qm_mean ← m.qm_mean.write k_gcm iens 0
  let bm_mean ← m.bm_mean.write k_gcm iens 0
  pure { nc_mean := nc_mean, ni_mean := ni_mean, qr_mean := qr_mean, nr_mean := nr_mean,
         qm_mean := qm_mean, bm_mean := bm_mean }

/-- The body of the loop "Horz mean of CRM state" of `pam_output_compute_means`. -/
def horz_mean_of_crm_state (gcm_nlev : Int) (r_nx_ny : ℚ) (nc ni qr nr qm bm : real4d)
    (idx : Int × Int × Int × Int) (m : Means) : Checked Means := do
  let k_crm := idx.1
  let j := idx.2.1
  let i := idx.2.2.1
  let iens := idx.2.2.2
  let k_gcm := gcm_nlev - 1 - k_crm
  let nc_mean ← atomicAdd m.nc_mean k_gcm iens ((← nc.read k_crm j i iens) * r_nx_ny)
  let ni_mean ← atomicAdd m.ni_mean k_gcm iens ((← ni.read k_crm j i iens) * r_nx_ny)
  let qr_mean ← atomicAdd m.qr_mean k_gcm iens ((← qr.read k_crm j i iens) * r_nx_ny)
  let nr_mean ← atomicAdd m.nr_mean k_gcm iens ((← nr.read k_crm j i iens) * r_nx_ny)
  let qm_mean ← atomicAdd m.qm_mean k_gcm iens ((← qm.read k_crm j i iens) * r_nx_ny)
  let bm_mean ← atomicAdd m.bm_mean k_gcm iens ((← bm.read k_crm j i iens) * r_nx_ny)
  pure { nc_mean := nc_mean, ni_mean := ni_mean, qr_mean := qr_mean, nr_mean := nr_mean,
         qm_mean := qm_mean, bm_mean := bm_mean }

/-- Function `pam_output_compute_means(coupler)`. -/
def pam_output_compute_means (coupler : PamCoupler) : Checked PamCoupler := do
  let dm_device := coupler.dm_device
  let crm_nz ← dm_device.get_dimension_size "z"
  let crm_ny ← dm_device.get_dimension_size "y"
  let crm_nx ← dm_device.get_dimension_size "x"
  let nens ← dm_device.get_dimension_size "nens"
  let gcm_nlev ← coupler.get_option "gcm_nlev"
  let nc ← dm_device.get4 "cloud_water_num"
  let ni ← dm_device.get4 "ice_num"
  let qr ← dm_device.get4 "rain"
  let nr ← dm_device.get4 "rain_num"
  let qm ← dm_device.get4 "ice_rime"
  let bm ← dm_device.get4 "ice_rime_vol"
  let dm_device ← dm_device.register_and_allocate "nc_mean" gcm_nlev nens "gcm_lev" "nens"
    (coupler.uninitialized "nc_mean")
  let dm_device ← dm_device.register_and_allocate "ni_mean" gcm_nlev nens "gcm_lev" "nens"
    (coupler.uninitialized "ni_mean")
  let dm_device ← dm_device.register_and_allocate "qr_mean" gcm_nlev nens "gcm_lev" "nens"
    (coupler.uninitialized "qr_mean")
  let dm_device ← dm_device.register_and_allocate "nr_mean" gcm_nlev nens "gcm_lev" "nens"
    (coupler.uninitialized "nr_mean")
  let dm_device ← dm_device.register_and_allocate "qm_mean" gcm_nlev nens "gcm_lev" "nens"
    (coupler.uninitialized "qm_mean")
  let dm_device ← dm_device.register_and_allocate "bm_mean" gcm_nlev nens "gcm_lev" "nens"
    (coupler.uninitialized "bm_mean")
  let nc_mean ← dm_device.get2 "nc_mean"
  let ni_mean ← dm_device.get2 "ni_mean"
  let qr_mean ← dm_device.get2 "qr_mean"
  let nr_mean ← dm_device.get2 "nr_mean"
  let qm_mean ← dm_device.get2 "qm_mean"
  let bm_mean ← dm_device.get2 "bm_mean"
  let means ← parallel_for (SimpleBounds2 gcm_nlev nens) initialize_horizontal_means
    { nc_mean := nc_mean, ni_mean := ni_mean, qr_mean := qr_mean, nr_mean := nr_mean,
      qm_mean := qm_mean, bm_mean := bm_mean }
  let r_nx_ny : ℚ := 1 / ((crm_nx * crm_ny : Int) : ℚ)
  let means ← parallel_for (SimpleBounds4 crm_nz crm_ny crm_nx nens)
    (horz_mean_of_crm_state gcm_nlev r_nx_ny nc ni qr nr qm bm) means
  let dm_device := dm_device.store "nc_mean" means.nc_mean
  let dm_device := dm_device.store "ni_mean" means.ni_mean
  let dm_device := dm_device.store "qr_mean" means.qr_mean
  let dm_device := dm_device.store "nr_mean" means.nr_mean
  let dm_device := dm_device.store "qm_mean" means.qm_mean
  let dm_device := dm_device.store "bm_mean" means.bm_mean
  pure { coupler with dm_device := dm_device }

/-- The three arrays that `pam_output_copy_to_host` fills on the GCM vertical
grid. -/
structure ForcingOut where
  forcing_tend_out_temp : real2d
  forcing_tend_out_rho_d : real2d
  forcing_tend_out_rho_v : real2d

/-- The body of the loop "Initialize aggregated precipitation" of
`pam_output_copy_to_host`. -/
def convert_to_gcm_grid (gcm_nlev crm_nz : Int)
    (gcm_forcing_tend_temp gcm_forcing_tend_rho_d gcm_forcing_tend_rho_v : real2d)
    (idx : Int × Int) (out : ForcingOut) : Checked ForcingOut := do
  let k_gcm := idx.1
  let iens := idx.2
  let k_crm := gcm_nlev - 1 - k_gcm
  if k_crm < crm_nz then
    let forcing_tend_out_temp ← out.forcing_tend_out_temp.write k_gcm iens
      (← gcm_forcing_tend_temp.read k_crm iens)
    let forcing_tend_out_rho_d ← out.forcing_tend_out_rho_d.write k_gcm iens
      (← gcm_forcing_tend_rho_d.read k_crm iens)
    let forcing_tend_out_rho_v ← out.forcing_tend_out_rho_v.write k_gcm iens
      (← gcm_forcing_tend_rho_v.read k_crm iens)
    pure { forcing_tend_out_temp := forcing_tend_out_temp,
           forcing_tend_out_rho_d := forcing_tend_out_rho_d,
           forcing_tend_out_rho_v := forcing_tend_out_rho_v }
  else
    let forcing_tend_out_temp ← out.forcing_tend_out_temp.write k_gcm iens 0
    let forcing_tend_out_rho_d ← out.forcing_tend_out_rho_d.write k_gcm iens 0
    let forcing_tend_out_rho_v ← out.forcing_tend_out_rho_v.write k_gcm iens 0
    pure { forcing_tend_out_temp := forcing_tend_out_temp,
           forcing_tend_out_rho_d := forcing_tend_out_rho_d,
           forcing_tend_out_rho_v := forcing_tend_out_rho_v }

/-- Function `pam_output_copy_to_host(coupler)`. -/
def pam_output_copy_to_host (coupler : PamCoupler) : Checked PamCoupler := do
  let dm_device := coupler.dm_device
  let dm_host := coupler.dm_host
  let nens ← coupler.get_option "ncrms"
  let crm_nz ← coupler.get_option "crm_nz"
  let gcm_nlev ← coupler.get_option "gcm_nlev"
  let nc_mean ← dm_device.get2 "nc_mean"
  let ni_mean ← dm_device.get2 "ni_mean"
  let qr_mean ← dm_device.get2 "qr_mean"
  let nr_mean ← dm_device.get2 "nr_mean"
  let qm_mean ← dm_device.get2 "qm_mean"
  let bm_mean ← dm_device.get2 "bm_mean"
  let gcm_forcing_tend_temp ← dm_device.get2 "gcm_forcing_tend_temp"
  let gcm_forcing_tend_rho_d ← dm_device.get2 "gcm_forcing_tend_rho_d"
  let gcm_forcing_tend_rho_v ← dm_device.get2 "gcm_forcing_tend_rho_v"
  let forcing_tend_out_temp : real2d :=
    { extent0 := gcm_nlev, extent1 := nens,
      data := coupler.uninitialized "forcing_tend_out_temp" }
  let forcing_tend_out_rho_d : real2d :=
    { extent0 := gcm_nlev, extent1 := nens,
      data := coupler.uninitialized "forcing_tend_out_rho_d" }
  let forcing_tend_out_rho_v : real2d :=
    { extent0 := gcm_nlev, extent1 := nens,
      data := coupler.uninitialized "forcing_tend_out_rho_v" }
  let out ← parallel_for (SimpleBounds2 gcm_nlev nens)
    (convert_to_gcm_grid gcm_nlev crm_nz gcm_forcing_tend_temp gcm_forcing_tend_rho_d
      gcm_forcing_tend_rho_v)
    { forcing_tend_out_temp := forcing_tend_out_temp,
      forcing_tend_out_rho_d := forcing_tend_out_rho_d,
      forcing_tend_out_rho_v := forcing_tend_out_rho_v }
  let output_nc_mean ← dm_host.get2 "output_nc_mean"
  let output_ni_mean ← dm_host.get2 "output_ni_mean"
  let output_qr_mean ← dm_host.get2 "output_qr_mean"
  let output_nr_mean ← dm_host.get2 "output_nr_mean"
  let output_qm_mean ← dm_host.get2 "output_qm_mean"
  let output_bm_mean ← dm_host.get2 "output_bm_mean"
  let output_t_ls ← dm_host.get2 "output_t_ls"
  let output_rho_v_ls ← dm_host.get2 "output_rho_v_ls"
  let output_rho_d_ls ← dm_host.get2 "output_rho_d_ls"
  let output_nc_mean ← nc_mean.deep_copy_to output_nc_mean
  let output_ni_mean ← ni_mean.deep_copy_to output_ni_mean
  let output_qr_mean ← qr_mean.deep_copy_to output_qr_mean
  let output_nr_mean ← nr_mean.deep_copy_to output_nr_mean
  let output_qm_mean ← qm_mean.deep_copy_to output_qm_mean
  let output_bm_mean ← bm_mean.deep_copy_to output_bm_mean
  let output_t_ls ← out.forcing_tend_out_temp.deep_copy_to output_t_ls
  let output_rho_v_ls ← out.forcing_tend_out_rho_d.deep_copy_to output_rho_v_ls
  let output_rho_d_ls ← out.forcing_tend_out_rho_v.deep_copy_to output_rho_d_ls
  let dm_host := dm_host.store "output_nc_mean" output_nc_mean
  let dm_host := dm_host.store "output_ni_mean" output_ni_mean
  let dm_host := dm_host.store "output_qr_mean" output_qr_mean
  let dm_host := dm_host.store "output_nr_mean" output_nr_mean
  let dm_host := dm_host.store "output_qm_mean" output_qm_mean
  let dm_host := dm_host.store "output_bm_mean" output_bm_mean
  let dm_host := dm_host.store "output_t_ls" output_t_ls
  let dm_host := dm_host.store "output_rho_v_ls" output_rho_v_ls
  let dm_host := dm_host.store "output_rho_d_ls" output_rho_d_ls
  pure { coupler with dm_host := dm_host }

end pam

/-! ### Vocabulary of the statements on the PAM output -/

namespace pam

/-- The array `a` has the extents `e0` and `e1`. -/
def real2d.has_extents (a : real2d) (e0 e1 : Int) : Prop :=
  a.extent0 = e0 ∧ a.extent1 = e1

/-- The array `a` has the extents `e0`, `e1`, `e2` and `e3`. -/
def real4d.has_extents (a : real4d) (e0 e1 e2 e3 : Int) : Prop :=
  a.extent0 = e0 ∧ a.extent1 = e1 ∧ a.extent2 = e2 ∧ a.extent3 = e3

/-- What the body "Initialize horzontal means" leaves when every assignment is
within the extents. -/
def Means.zeroed (idx : Int × Int) (m : Means) : Means :=
  { nc_mean := m.nc_mean.updated idx.1 idx.2 0,
    ni_mean := m.ni_mean.updated idx.1 idx.2 0,
    qr_mean := m.qr_mean.updated idx.1 idx.2 0,
    nr_mean := m.nr_mean.updated idx.1 idx.2 0,
    qm_mean := m.qm_mean.updated idx.1 idx.2 0,
    bm_mean := m.bm_mean.updated idx.1 idx.2 0 }

/-- The array `a` after `v` has been added to its element `(i0,i1)`. -/
def real2d.added (a : real2d) (i0 i1 : Int) (v : ℚ) : real2d :=
  a.updated i0 i1 (a.data i0 i1 + v)

/-- The contribution of the index `idx` of the CRM array `x` to the mean at
level `gcm_nlev - 1 - k_crm`. -/
def contribution (gcm_nlev : Int) (r_nx_ny : ℚ) (x : real4d) (idx : Int × Int × Int × Int)
    (a : real2d) : real2d :=
  a.added (gcm_nlev - 1 - idx.1) idx.2.2.2 (x.data idx.1 idx.2.1 idx.2.2.1 idx.2.2.2 * r_nx_ny)

/-- What the body "Horz mean of CRM state" leaves when every access is within
the extents. -/
def Means.accumulated (gcm_nlev : Int) (r_nx_ny : ℚ) (nc ni qr nr qm bm : real4d)
    (idx : Int × Int × Int × Int) (m : Means) : Means :=
  { nc_mean := contribution gcm_nlev r_nx_ny nc idx m.nc_mean,
    ni_mean := contribution gcm_nlev r_nx_ny ni idx m.ni_mean,
    qr_mean := contribution gcm_nlev r_nx_ny qr idx m.qr_mean,
    nr_mean := contribution gcm_nlev r_nx_ny nr idx m.nr_mean,
    qm_mean := contribution gcm_nlev r_nx_ny qm idx m.qm_mean,
    bm_mean := contribution gcm_nlev r_nx_ny bm idx m.bm_mean }

/-- All six arrays of means have the extents `e0` and `e1`. -/
def Means.has_extents (m : Means) (e0 e1 : Int) : Prop :=
  m.nc_mean.has_extents e0 e1 ∧ m.ni_mean.has_extents e0 e1 ∧ m.qr_mean.has_extents e0 e1 ∧
  m.nr_mean.has_extents e0 e1 ∧ m.qm_mean.has_extents e0 e1 ∧ m.bm_mean.has_extents e0 e1

/-- The array `mean` holds the horizontal means of the CRM array `x` on the
flipped vertical grid: at the GCM level `gcm_nlev - 1 - k_crm` the sum of `x`
over the `crm_ny` by `crm_nx` columns of the CRM level `k_crm`, divided by their
number, and 0 at the GCM levels `k_gcm < gcm_nlev - crm_nz`. -/
def is_horizontal_mean (mean : real2d) (x : real4d) (crm_nz crm_ny crm_nx nens gcm_nlev : Int) :
    Prop :=
  mean.has_extents gcm_nlev nens ∧
  (∀ k_crm iens, 0 ≤ k_crm → k_crm < crm_nz → 0 ≤ iens → iens < nens →
    mean.data (gcm_nlev - 1 - k_crm) iens =
      ((irange crm_ny).map fun j => ((irange crm_nx).map fun i => x.data k_crm j i iens).sum).sum
        / ((crm_nx * crm_ny : Int) : ℚ)) ∧
  (∀ k_gcm iens, 0 ≤ k_gcm → k_gcm < gcm_nlev → k_gcm < gcm_nlev - crm_nz →
    0 ≤ iens → iens < nens → mean.data k_gcm iens = 0)

/-- The coupler holds what `pam_output_compute_means` reads: the four dimensions
of the CRM, the option "gcm_nlev", six CRM arrays with the extents of these
dimensions, no array yet under the six names of the means, and no dimension
"gcm_lev" of another size. -/
structure MeansInput (coupler : PamCoupler) (crm_nz crm_ny crm_nx nens gcm_nlev : Int)
    (nc ni qr nr qm bm : real4d) : Prop where
  dim_z : coupler.dm_device.dimensions.lookup "z" = some crm_nz
  dim_y : coupler.dm_device.dimensions.lookup "y" = some crm_ny
  dim_x : coupler.dm_device.dimensions.lookup "x" = some crm_nx
  dim_nens : coupler.dm_device.dimensions.lookup "nens" = some nens
  dim_gcm_lev : coupler.dm_device.dimensions.lookup "gcm_lev" = none ∨
    coupler.dm_device.dimensions.lookup "gcm_lev" = some gcm_nlev
  opt_gcm_nlev : coupler.options.lookup "gcm_nlev" = some gcm_nlev
  has_nc : coupler.dm_device.entries.lookup "cloud_water_num" = some (Entry.rank4 nc)
  has_ni : coupler.dm_device.entries.lookup "ice_num" = some (Entry.rank4 ni)
  has_qr : coupler.dm_device.entries.lookup "rain" = some (Entry.rank4 qr)
  has_nr : coupler.dm_device.entries.lookup "rain_num" = some (Entry.rank4 nr)
  has_qm : coupler.dm_device.entries.lookup "ice_rime" = some (Entry.rank4 qm)
  has_bm : coupler.dm_device.entries.lookup "ice_rime_vol" = some (Entry.rank4 bm)
  ext_nc : nc.has_extents crm_nz crm_ny crm_nx nens
  ext_ni : ni.has_extents crm_nz crm_ny crm_nx nens
  ext_qr : qr.has_extents crm_nz crm_ny crm_nx nens
  ext_nr : nr.has_extents crm_nz crm_ny crm_nx nens
  ext_qm : qm.has_extents crm_nz crm_ny crm_nx nens
  ext_bm : bm.has_extents crm_nz crm_ny crm_nx nens
  free_nc_mean : coupler.dm_device.entries.lookup "nc_mean" = none
  free_ni_mean : coupler.dm_device.entries.lookup "ni_mean" = none
  free_qr_mean : coupler.dm_device.entries.lookup "qr_mean" = none
  free_nr_mean : coupler.dm_device.entries.lookup "nr_mean" = none
  free_qm_mean : coupler.dm_device.entries.lookup "qm_mean" = none
  free_bm_mean : coupler.dm_device.entries.lookup "bm_mean" = none

/-- The value that the loop of `pam_output_copy_to_host` assigns at the index
`idx` = (k_gcm, iens) for the CRM array `x`. -/
def flipped (gcm_nlev crm_nz : Int) (x : real2d) (idx : Int × Int) : ℚ :=
  if gcm_nlev - 1 - idx.1 < crm_nz then x.data (gcm_nlev - 1 - idx.1) idx.2 else 0

/-- What the body "Initialize aggregated precipitation" leaves when every access
is within the extents. -/
def ForcingOut.converted (gcm_nlev crm_nz : Int)
    (gcm_forcing_tend_temp gcm_forcing_tend_rho_d gcm_forcing_tend_rho_v : real2d)
    (idx : Int × Int) (out : ForcingOut) : ForcingOut :=
  { forcing_tend_out_temp := out.forcing_tend_out_temp.updated idx.1 idx.2
      (flipped gcm_nlev crm_nz gcm_forcing_tend_temp idx),
    forcing_tend_out_rho_d := out.forcing_tend_out_rho_d.updated idx.1 idx.2
      (flipped gcm_nlev crm_nz gcm_forcing_tend_rho_d idx),
    forcing_tend_out_rho_v := out.forcing_tend_out_rho_v.updated idx.1 idx.2
      (flipped gcm_nlev crm_nz gcm_forcing_tend_rho_v idx) }

/-- All three arrays on the GCM grid have the extents `e0` and `e1`. -/
def ForcingOut.has_extents (out : ForcingOut) (e0 e1 : Int) : Prop :=
  out.forcing_tend_out_temp.has_extents e0 e1 ∧ out.forcing_tend_out_rho_d.has_extents e0 e1 ∧
  out.forcing_tend_out_rho_v.has_extents e0 e1

/-- The array `out` holds the CRM array `x` on the GCM vertical grid, flipped
and padded with zeros: `out(k_gcm,iens)` is `x(gcm_nlev-1-k_gcm,iens)` when
`gcm_nlev-1-k_gcm < crm_nz` and 0 otherwise, for every GCM level and every
ensemble index. -/
def is_flipped (out x : real2d) (crm_nz nens gcm_nlev : Int) : Prop :=
  out.has_extents gcm_nlev nens ∧
  ∀ k_gcm iens, 0 ≤ k_gcm → k_gcm < gcm_nlev → 0 ≤ iens → iens < nens →
    out.data k_gcm iens =
      if gcm_nlev - 1 - k_gcm < crm_nz then x.data (gcm_nlev - 1 - k_gcm) iens else 0

/-- The device data manager holds an array under `device_name` and the host data
manager holds an array of the same extents under `host_name`. -/
def can_copy (coupler : PamCoupler) (device_name host_name : String) : Prop :=
  ∃ a o, coupler.dm_device.entries.lookup device_name = some (Entry.rank2 a) ∧
    coupler.dm_host.entries.lookup host_name = some (Entry.rank2 o) ∧
    a.extent0 = o.extent0 ∧ a.extent1 = o.extent1

/-- The host data manager holds an array of the extents `e0` and `e1` under
`host_name`. -/
def host_output (coupler : PamCoupler) (host_name : String) (e0 e1 : Int) : Prop :=
  ∃ o, coupler.dm_host.entries.lookup host_name = some (Entry.rank2 o) ∧ o.has_extents e0 e1

/-- The coupler holds what `pam_output_copy_to_host` reads: the three options,
the six means with host outputs of their extents, the three forcing tendencies
with the extents `crm_nz` and `nens`, and the three host outputs of the forcing
tendencies with the extents `gcm_nlev` and `nens`. -/
structure CopyInput (coupler : PamCoupler) (nens crm_nz gcm_nlev : Int)
    (gcm_forcing_tend_temp gcm_forcing_tend_rho_d gcm_forcing_tend_rho_v : real2d) : Prop where
  opt_ncrms : coupler.options.lookup "ncrms" = some nens
  opt_crm_nz : coupler.options.lookup "crm_nz" = some crm_nz
  opt_gcm_nlev : coupler.options.lookup "gcm_nlev" = some gcm_nlev
  copy_nc : can_copy coupler "nc_mean" "output_nc_mean"
  copy_ni : can_copy coupler "ni_mean" "output_ni_mean"
  copy_qr : can_copy coupler "qr_mean" "output_qr_mean"
  copy_nr : can_copy coupler "nr_mean" "output_nr_mean"
  copy_qm : can_copy coupler "qm_mean" "output_qm_mean"
  copy_bm : can_copy coupler "bm_mean" "output_bm_mean"
  has_temp : coupler.dm_device.entries.lookup "gcm_forcing_tend_temp"
    = some (Entry.rank2 gcm_forcing_tend_temp)
  has_rho_d : coupler.dm_device.entries.lookup "gcm_forcing_tend_rho_d"
    = some (Entry.rank2 gcm_forcing_tend_rho_d)
  has_rho_v : coupler.dm_device.entries.lookup "gcm_forcing_tend_rho_v"
    = some (Entry.rank2 gcm_forcing_tend_rho_v)
  ext_temp : gcm_forcing_tend_temp.has_extents crm_nz nens
  ext_rho_d : gcm_forcing_tend_rho_d.has_extents crm_nz nens
  ext_rho_v : gcm_forcing_tend_rho_v.has_extents crm_nz nens
  out_t_ls : host_output coupler "output_t_ls" gcm_nlev nens
  out_rho_v_ls : host_output coupler "output_rho_v_ls" gcm_nlev nens
  out_rho_d_ls : host_output coupler "output_rho_d_ls" gcm_nlev nens

end pam

/-! ### Sample couplers -/

namespace pam

instance : DecidableEq (Checked ℚ) := inferInstanceAs (DecidableEq (Option ℚ))

/-- The element `(i0,i1)` of the array that the data manager holds under `name`. -/
def DataManager.value (dm : DataManager) (name : String) (i0 i1 : Int) : Checked ℚ := do
  let a ← dm.get2 name
  a.read i0 i1

/-- A CRM array of 2 levels, 1 row, 2 columns and 1 ensemble member: level 0
holds `c` and `c + 1`, level 1 holds `c + 2` and `c + 3`. -/
def sample_state (c : ℚ) : real4d :=
  { extent0 := 2, extent1 := 1, extent2 := 2, extent3 := 1,
    data := fun k _ i _ => c + (if k = 0 then 0 else 2) + (if i = 0 then 0 else 1) }

/-- A coupler with a CRM of 2 levels, 1 row, 2 columns, 1 ensemble member, a GCM
of 3 levels, and fresh memory that holds 7 everywhere. -/
def sample_crm : PamCoupler :=
  { dm_device :=
      { dimensions := [("z", 2), ("y", 1), ("x", 2), ("nens", 1)],
        entries := [("cloud_water_num", Entry.rank4 (sample_state 10)),
                    ("ice_num", Entry.rank4 (sample_state 20)),
                    ("rain", Entry.rank4 (sample_state 30)),
                    ("rain_num", Entry.rank4 (sample_state 40)),
                    ("ice_rime", Entry.rank4 (sample_state 50)),
                    ("ice_rime_vol", Entry.rank4 (sample_state 60))] },
    options := [("gcm_nlev", 3)],
    uninitialized := fun _ _ _ => 7 }

/-- A forcing tendency on 2 CRM levels and 1 ensemble member: `c` on level 0 and
`c + 1` on level 1. -/
def sample_tendency (c : ℚ) : real2d :=
  { extent0 := 2, extent1 := 1, data := fun k _ => if k = 0 then c else c + 1 }

/-- An array on 3 GCM levels and 1 ensemble member that holds `c` everywhere. -/
def sample_output (c : ℚ) : real2d :=
  { extent0 := 3, extent1 := 1, data := fun _ _ => c }

/-- A coupler after the CRM has run: 2 CRM levels, 3 GCM levels, 1 ensemble
member; the temperature tendency is 100 and 101, the dry density tendency 1 and
2, the vapor density tendency 5 and 6 (levels 0 and 1). -/
def sample_forced : PamCoupler :=
  { dm_device :=
      { entries := [("nc_mean", Entry.rank2 (sample_output 11)),
                    ("ni_mean", Entry.rank2 (sample_output 12)),
                    ("qr_mean", Entry.rank2 (sample_output 13)),
                    ("nr_mean", Entry.rank2 (sample_output 14)),
                    ("qm_mean", Entry.rank2 (sample_output 15)),
                    ("bm_mean", Entry.rank2 (sample_output 16)),
                    ("gcm_forcing_tend_temp", Entry.rank2 (sample_tendency 100)),
                    ("gcm_forcing_tend_rho_d", Entry.rank2 (sample_tendency 1)),
                    ("gcm_forcing_tend_rho_v", Entry.rank2 (sample_tendency 5))] },
    dm_host :=
      { entries := [("output_nc_mean", Entry.rank2 (sample_output 0)),
                    ("output_ni_mean", Entry.rank2 (sample_output 0)),
                    ("output_qr_mean", Entry.rank2 (sample_output 0)),
                    ("output_nr_mean", Entry.rank2 (sample_output 0)),
                    ("output_qm_mean", Entry.rank2 (sample_output 0)),
                    ("output_bm_mean", Entry.rank2 (sample_output 0)),
                    ("output_t_ls", Entry.rank2 (sample_output 0)),
                    ("output_rho_v_ls", Entry.rank2 (sample_output 0)),
                    ("output_rho_d_ls", Entry.rank2 (sample_output 0))] },
    options := [("ncrms", 1), ("crm_nz", 2), ("gcm_nlev", 3)],
    uninitialized := fun _ _ _ => 7 }

end pam

namespace scream

namespace control

/-! # Theorems -/

set_option linter.unusedTactic false
set_option linter.unreachableTactic false

/-! ## Status values as sets of bits -/

theorem status_le_refl (a : Nat) : status_le a a := fun _ h => h

theorem status_le_trans {a b c : Nat} (h1 : status_le a b) (h2 : status_le b c) :
    status_le a c := fun i h => h2 i (h1 i h)

theorem status_le_or (a flag : Nat) : status_le a (a ||| flag) := by
  intro i h
  simp [Nat.testBit_or, h]

theorem flag_set_of_status_le {a b flag : Nat} (h : status_le a b) (hf : flag_set a flag) :
    flag_set b flag := by
  unfold flag_set at hf ⊢
  apply Nat.eq_of_testBit_eq
  intro i
  have hi := congrArg (fun x => x.testBit i) hf
  simp only [Nat.testBit_and] at hi ⊢
  cases hfi : flag.testBit i
  · simp
  · rw [hfi] at hi
    simp at hi
    simp [h i hi]

/-! ## No step of the driver clears a status bit -/

theorem grows_pure {α : Type} (a : α) : Grows (pure a : Exec α) :=
  ⟨fun _ _ => status_le_refl _⟩

theorem grows_fail {α : Type} (e : ADError) : Grows (Exec.fail e : Exec α) :=
  ⟨fun _ _ => status_le_refl _⟩

theorem grows_bind {α β : Type} {m : Exec α} {f : α → Exec β}
    (hm : Grows m) (hf : ∀ a, Grows (f a)) : Grows (m >>= f) := by
  constructor
  intro ext s
  show status_le _ (Exec.andThen m f ext s).2.m_ad_status
  unfold Exec.andThen
  have h1 := hm.le ext s
  cases hr : m ext s with
  | mk r s1 =>
    rw [hr] at h1
    cases r with
    | error e => exact h1
    | ok a => exact status_le_trans h1 ((hf a).le ext s1)

theorem grows_ite {α : Type} {c : Prop} [Decidable c] {a b : Exec α}
    (ha : Grows a) (hb : Grows b) : Grows (if c then a else b) := by
  split
  · exact ha
  · exact hb

theorem grows_get : Grows Exec.get := ⟨fun _ _ => status_le_refl _⟩

theorem grows_externals : Grows Exec.externals := ⟨fun _ _ => status_le_refl _⟩

theorem grows_call (c : Call) : Grows (Exec.call c) := by
  constructor
  intro ext s
  unfold Exec.call
  split <;> exact status_le_refl _

theorem grows_modify_keep {f : AtmosphereDriver → AtmosphereDriver}
    (h : ∀ s, (f s).m_ad_status = s.m_ad_status) : Grows (Exec.modify f) := by
  constructor
  intro _ s
  show status_le _ (f s).m_ad_status
  rw [h s]
  exact status_le_refl _

theorem grows_deref {α : Type} (p : Option α) : Grows (Exec.deref p) := by
  cases p <;> constructor <;> intro ext s <;> exact status_le_refl _

theorem grows_param {α : Type} (name : String) (v : Option α) : Grows (Exec.param name v) := by
  cases v <;> constructor <;> intro ext s <;> exact status_le_refl _

theorem grows_forEach {α : Type} (xs : List α) {body : α → Exec Unit}
    (h : ∀ x, Grows (body x)) : Grows (Exec.forEach xs body) := by
  induction xs with
  | nil => exact ⟨fun _ _ => status_le_refl _⟩
  | cons x rest ih =>
    unfold Exec.forEach
    exact grows_bind (h x) (fun _ => ih)

theorem grows_or_status (flag : Nat) : Grows (or_status flag) :=
  ⟨fun _ s => status_le_or s.m_ad_status flag⟩

theorem grows_deref_field_repo : Grows deref_field_repo := by
  unfold deref_field_repo
  exact grows_bind grows_get (fun s => grows_ite (grows_pure _) (grows_fail _))

theorem grows_check_ad_status (flag : Nat) (b : Bool) : Grows (check_ad_status flag b) := by
  unfold check_ad_status
  refine grows_bind grows_get (fun s => ?_)
  split <;> exact grows_ite (grows_pure _) (grows_fail _)

theorem grows_set_comm (c : Comm) : Grows (set_comm c) := by
  unfold set_comm
  repeat' first
    | with_reducible exact grows_check_ad_status _ _
    | with_reducible exact grows_or_status _
    | with_reducible exact grows_get
    | with_reducible exact grows_externals
    | with_reducible exact grows_call _
    | with_reducible exact grows_deref _
    | with_reducible exact grows_param _ _
    | with_reducible exact grows_pure _
    | with_reducible exact grows_fail _
    | with_reducible exact grows_deref_field_repo
    | with_reducible exact grows_modify_keep (fun _ => rfl)
    | with_reducible apply grows_bind
    | with_reducible apply grows_ite
    | with_reducible apply grows_forEach
    | intro _

theorem grows_set_params (p : ParameterList) : Grows (set_params p) := by
  unfold set_params
  repeat' first
    | with_reducible exact grows_check_ad_status _ _
    | with_reducible exact grows_or_status _
    | with_reducible exact grows_get
    | with_reducible exact grows_externals
    | with_reducible exact grows_call _
    | with_reducible exact grows_deref _
    | with_reducible exact grows_param _ _
    | with_reducible exact grows_pure _
    | with_reducible exact grows_fail _
    | with_reducible exact grows_deref_field_repo
    | with_reducible exact grows_modify_keep (fun _ => rfl)
    | with_reducible apply grows_bind
    | with_reducible apply grows_ite
    | with_reducible apply grows_forEach
    | intro _

theorem grows_create_atm_processes : Grows create_atm_processes := by
  unfold create_atm_processes
  repeat' first
    | with_reducible exact grows_check_ad_status _ _
    | with_reducible exact grows_or_status _
    | with_reducible exact grows_get
    | with_reducible exact grows_externals
    | with_reducible exact grows_call _
    | with_reducible exact grows_deref _
    | with_reducible exact grows_param _ _
    | with_reducible exact grows_pure _
    | with_reducible exact grows_fail _
    | with_reducible exact grows_deref_field_repo
    | with_reducible exact grows_modify_keep (fun _ => rfl)
    | with_reducible apply grows_bind
    | with_reducible apply grows_ite
    | with_reducible apply grows_forEach
    | intro _

theorem grows_create_grids : Grows create_grids := by
  unfold create_grids
  repeat' first
    | with_reducible exact grows_check_ad_status _ _
    | with_reducible exact grows_or_status _
    | with_reducible exact grows_get
    | with_reducible exact grows_externals
    | with_reducible exact grows_call _
    | with_reducible exact grows_deref _
    | with_reducible exact grows_param _ _
    | with_reducible exact grows_pure _
    | with_reducible exact grows_fail _
    | with_reducible exact grows_deref_field_repo
    | with_reducible exact grows_modify_keep (fun _ => rfl)
    | with_reducible apply grows_bind
    | with_reducible apply grows_ite
    | with_reducible apply grows_forEach
    | intro _

theorem grows_register_if_not_there (group grid name : String) :
    Grows (register_if_not_there group grid name) := by
  unfold register_if_not_there
  repeat' first
    | with_reducible exact grows_get
    | with_reducible exact grows_externals
    | with_reducible exact grows_call _
    | with_reducible exact grows_deref _
    | with_reducible exact grows_pure _
    | with_reducible exact grows_fail _
    | with_reducible exact grows_modify_keep (fun _ => rfl)
    | with_reducible apply grows_bind
    | with_reducible apply grows_ite
    | intro _

theorem grows_group_fields_on_grid (groups_info : List (String × FieldGroupInfo))
    (gg : String × String) : Grows (group_fields_on_grid groups_info gg) := by
  unfold group_fields_on_grid
  repeat' first
    | with_reducible exact grows_register_if_not_there _ _ _
    | with_reducible exact grows_get
    | with_reducible exact grows_call _
    | with_reducible exact grows_deref _
    | with_reducible exact grows_pure _
    | with_reducible exact grows_fail _
    | with_reducible apply grows_bind
    | with_reducible apply grows_ite
    | with_reducible apply grows_forEach
    | intro _
    | dsimp only
    | split

theorem grows_has_group_fields_on_grid (groups_grids : List (String × String)) :
    Grows (has_group_fields_on_grid groups_grids) := by
  unfold has_group_fields_on_grid
  repeat' first
    | with_reducible exact grows_group_fields_on_grid _ _
    | with_reducible exact grows_get
    | with_reducible exact grows_deref _
    | with_reducible apply grows_bind
    | with_reducible apply grows_forEach
    | intro _

theorem grows_register_groups : Grows register_groups := by
  unfold register_groups
  repeat' first
    | with_reducible exact grows_has_group_fields_on_grid _
    | with_reducible exact grows_check_ad_status _ _
    | with_reducible exact grows_or_status _
    | with_reducible exact grows_get
    | with_reducible exact grows_externals
    | with_reducible exact grows_call _
    | with_reducible exact grows_deref _
    | with_reducible exact grows_param _ _
    | with_reducible exact grows_pure _
    | with_reducible exact grows_fail _
    | with_reducible exact grows_deref_field_repo
    | with_reducible exact grows_modify_keep (fun _ => rfl)
    | with_reducible apply grows_bind
    | with_reducible apply grows_ite
    | with_reducible apply grows_forEach
    | intro _

theorem grows_create_fields : Grows create_fields := by
  unfold create_fields
  repeat' first
    | with_reducible exact grows_register_groups
    | with_reducible exact grows_check_ad_status _ _
    | with_reducible exact grows_or_status _
    | with_reducible exact grows_get
    | with_reducible exact grows_externals
    | with_reducible exact grows_call _
    | with_reducible exact grows_deref _
    | with_reducible exact grows_param _ _
    | with_reducible exact grows_pure _
    | with_reducible exact grows_fail _
    | with_reducible exact grows_deref_field_repo
    | with_reducible exact grows_modify_keep (fun _ => rfl)
    | with_reducible apply grows_bind
    | with_reducible apply grows_ite
    | with_reducible apply grows_forEach
    | intro _

theorem grows_initialize_output_manager : Grows initialize_output_manager := by
  unfold initialize_output_manager
  repeat' first
    | with_reducible exact grows_check_ad_status _ _
    | with_reducible exact grows_or_status _
    | with_reducible exact grows_get
    | with_reducible exact grows_externals
    | with_reducible exact grows_call _
    | with_reducible exact grows_deref _
    | with_reducible exact grows_param _ _
    | with_reducible exact grows_pure _
    | with_reducible exact grows_fail _
    | with_reducible exact grows_deref_field_repo
    | with_reducible exact grows_modify_keep (fun _ => rfl)
    | with_reducible apply grows_bind
    | with_reducible apply grows_ite
    | with_reducible apply grows_forEach
    | intro _

theorem grows_initialize_one_field (name : String) (ic_pl : ParameterList) :
    Grows (initialize_one_field name ic_pl) := by
  unfold initialize_one_field
  repeat' first
    | with_reducible exact grows_get
    | with_reducible exact grows_call _
    | with_reducible exact grows_deref _
    | with_reducible exact grows_param _ _
    | with_reducible exact grows_pure _
    | with_reducible exact grows_fail _
    | with_reducible apply grows_bind
    | with_reducible apply grows_ite
    | with_reducible apply grows_forEach
    | intro _
    | dsimp only
    | split

theorem grows_initialize_fields_loop (ic_pl : ParameterList) (t0 : ℚ) (names : List String) :
    ∀ ifield ic_fields, Grows (initialize_fields_loop ic_pl t0 names ifield ic_fields) := by
  induction names with
  | nil => intro ifield ic_fields; exact grows_pure _
  | cons name rest ih =>
    intro ifield ic_fields
    unfold initialize_fields_loop
    repeat' first
      | with_reducible exact ih _ _
      | with_reducible exact grows_initialize_one_field _ _
      | with_reducible exact grows_check_ad_status _ _
      | with_reducible exact grows_or_status _
      | with_reducible exact grows_get
      | with_reducible exact grows_externals
      | with_reducible exact grows_call _
      | with_reducible exact grows_deref _
      | with_reducible exact grows_param _ _
      | with_reducible exact grows_pure _
      | with_reducible exact grows_fail _
      | with_reducible exact grows_deref_field_repo
      | with_reducible exact grows_modify_keep (fun _ => rfl)
      | with_reducible apply grows_bind
      | with_reducible apply grows_ite
      | with_reducible apply grows_forEach
      | intro _

theorem grows_initialize_fields (t0 : ℚ) : Grows (initialize_fields t0) := by
  unfold initialize_fields
  repeat' first
    | with_reducible exact grows_initialize_fields_loop _ _ _ _ _
    | with_reducible exact grows_check_ad_status _ _
    | with_reducible exact grows_or_status _
    | with_reducible exact grows_get
    | with_reducible exact grows_externals
    | with_reducible exact grows_call _
    | with_reducible exact grows_deref _
    | with_reducible exact grows_param _ _
    | with_reducible exact grows_pure _
    | with_reducible exact grows_fail _
    | with_reducible exact grows_deref_field_repo
    | with_reducible exact grows_modify_keep (fun _ => rfl)
    | with_reducible apply grows_bind
    | with_reducible apply grows_ite
    | with_reducible apply grows_forEach
    | intro _
    | dsimp only
    | split

theorem grows_initialize_atm_procs : Grows initialize_atm_procs := by
  unfold initialize_atm_procs
  repeat' first
    | with_reducible exact grows_check_ad_status _ _
    | with_reducible exact grows_or_status _
    | with_reducible exact grows_get
    | with_reducible exact grows_externals
    | with_reducible exact grows_call _
    | with_reducible exact grows_deref _
    | with_reducible exact grows_param _ _
    | with_reducible exact grows_pure _
    | with_reducible exact grows_fail _
    | with_reducible exact grows_deref_field_repo
    | with_reducible exact grows_modify_keep (fun _ => rfl)
    | with_reducible apply grows_bind
    | with_reducible apply grows_ite
    | with_reducible apply grows_forEach
    | intro _

theorem grows_finish_setup : Grows finish_setup := by
  unfold finish_setup
  repeat' first
    | with_reducible exact grows_check_ad_status _ _
    | with_reducible exact grows_or_status _
    | with_reducible exact grows_get
    | with_reducible exact grows_externals
    | with_reducible exact grows_call _
    | with_reducible exact grows_deref _
    | with_reducible exact grows_param _ _
    | with_reducible exact grows_pure _
    | with_reducible exact grows_fail _
    | with_reducible exact grows_deref_field_repo
    | with_reducible exact grows_modify_keep (fun _ => rfl)
    | with_reducible apply grows_bind
    | with_reducible apply grows_ite
    | with_reducible apply grows_forEach
    | intro _

theorem grows_run (dt : ℚ) : Grows (run dt) := by
  unfold run
  repeat' first
    | with_reducible exact grows_check_ad_status _ _
    | with_reducible exact grows_or_status _
    | with_reducible exact grows_get
    | with_reducible exact grows_externals
    | with_reducible exact grows_call _
    | with_reducible exact grows_deref _
    | with_reducible exact grows_param _ _
    | with_reducible exact grows_pure _
    | with_reducible exact grows_fail _
    | with_reducible exact grows_deref_field_repo
    | with_reducible exact grows_modify_keep (fun _ => rfl)
    | with_reducible apply grows_bind
    | with_reducible apply grows_ite
    | with_reducible apply grows_forEach
    | intro _

theorem grows_finalize : Grows finalize := by
  unfold finalize
  repeat' first
    | with_reducible exact grows_check_ad_status _ _
    | with_reducible exact grows_or_status _
    | with_reducible exact grows_get
    | with_reducible exact grows_externals
    | with_reducible exact grows_call _
    | with_reducible exact grows_deref _
    | with_reducible exact grows_param _ _
    | with_reducible exact grows_pure _
    | with_reducible exact grows_fail _
    | with_reducible exact grows_deref_field_repo
    | with_reducible exact grows_modify_keep (fun _ => rfl)
    | with_reducible apply grows_bind
    | with_reducible apply grows_ite
    | with_reducible apply grows_forEach
    | intro _

theorem grows_exec (op : DriverOp) : Grows op.exec := by
  cases op
  · exact grows_set_comm _
  · exact grows_set_params _
  · exact grows_create_atm_processes
  · exact grows_create_grids
  · exact grows_create_fields
  · exact grows_initialize_output_manager
  · exact grows_initialize_fields _
  · exact grows_initialize_atm_procs
  · exact grows_finish_setup
  · exact grows_run _
  · exact grows_finalize

/-! ## Running an operation, step by step -/

theorem bind_apply {α β : Type} (m : Exec α) (f : α → Exec β) (ext : Externals)
    (s : AtmosphereDriver) :
    (m >>= f) ext s = match m ext s with
      | (Except.ok a, s1) => f a ext s1
      | (Except.error e, s1) => (Except.error e, s1) := rfl

theorem pure_apply {α : Type} (a : α) (ext : Externals) (s : AtmosphereDriver) :
    (pure a : Exec α) ext s = (Except.ok a, s) := rfl

theorem bind_eq_ok {α β : Type} (m : Exec α) (f : α → Exec β) (ext : Externals)
    (s s' : AtmosphereDriver) (b : β) :
    (m >>= f) ext s = (Except.ok b, s') ↔
      ∃ a s1, m ext s = (Except.ok a, s1) ∧ f a ext s1 = (Except.ok b, s') := by
  rw [bind_apply]
  cases hm : m ext s with
  | mk r s1 =>
    cases r with
    | error e => simp
    | ok a =>
      constructor
      · intro h
        exact ⟨a, s1, rfl, h⟩
      · rintro ⟨a1, s2, h1, h2⟩
        cases h1
        exact h2

theorem pure_eq_ok {α : Type} (a b : α) (ext : Externals) (s s' : AtmosphereDriver) :
    (pure a : Exec α) ext s = (Except.ok b, s') ↔ a = b ∧ s = s' := by
  simp [pure_apply]

theorem fail_eq_ok {α : Type} (e : ADError) (b : α) (ext : Externals)
    (s s' : AtmosphereDriver) :
    (Exec.fail e : Exec α) ext s = (Except.ok b, s') ↔ False := by
  simp [Exec.fail]

theorem get_eq_ok (a : AtmosphereDriver) (ext : Externals) (s s' : AtmosphereDriver) :
    Exec.get ext s = (Except.ok a, s') ↔ s = a ∧ s = s' := by
  simp [Exec.get]

theorem externals_eq_ok (a : Externals) (ext : Externals) (s s' : AtmosphereDriver) :
    Exec.externals ext s = (Except.ok a, s') ↔ ext = a ∧ s = s' := by
  simp [Exec.externals]

theorem modify_eq_ok (f : AtmosphereDriver → AtmosphereDriver) (u : Unit) (ext : Externals)
    (s s' : AtmosphereDriver) :
    Exec.modify f ext s = (Except.ok u, s') ↔ f s = s' := by
  simp [Exec.modify]

theorem call_eq_ok (c : Call) (u : Unit) (ext : Externals) (s s' : AtmosphereDriver) :
    Exec.call c ext s = (Except.ok u, s') ↔
      ext.ok s.calls c = true ∧ { s with calls := s.calls ++ [c] } = s' := by
  unfold Exec.call
  split <;> simp [*]

theorem deref_eq_ok {α : Type} (p : Option α) (a : α) (ext : Externals)
    (s s' : AtmosphereDriver) :
    Exec.deref p ext s = (Except.ok a, s') ↔ p = some a ∧ s = s' := by
  cases p <;> simp [Exec.deref, Exec.fail, Exec.ret]

theorem param_eq_ok {α : Type} (name : String) (v : Option α) (a : α) (ext : Externals)
    (s s' : AtmosphereDriver) :
    Exec.param name v ext s = (Except.ok a, s') ↔ v = some a ∧ s = s' := by
  cases v <;> simp [Exec.param, Exec.fail, Exec.ret]

/-! ## The status check of `set_comm` -/

theorem bit_not_and_comm_set (x : Nat) :
    bit_not x &&& s_comm_set ≠ 0 ↔ ¬ flag_set x s_comm_set := by
  have h32 : (4294967296 : Nat) = 2 ^ 32 := by norm_num
  have hm : (4294967295 : Nat) = 2 ^ 32 - 1 := by norm_num
  have hb : (bit_not x).testBit 0 = !(x.testBit 0) := by
    unfold bit_not
    rw [Nat.testBit_xor, h32, Nat.testBit_mod_two_pow, hm, Nat.testBit_two_pow_sub_one]
    simp
  unfold flag_set s_comm_set
  rw [Nat.and_one_is_mod, Nat.and_one_is_mod]
  have h1 := @Nat.mod_two_eq_one_iff_testBit_zero (bit_not x)
  have h2 := @Nat.mod_two_eq_one_iff_testBit_zero x
  rw [hb] at h1
  cases hx : x.testBit 0 <;> simp [hx] at h1 h2 <;> omega

theorem or_and_disjoint (a c flag : Nat) (h : flag &&& c = 0) :
    (a ||| c) &&& flag = a &&& flag := by
  rw [Nat.and_comm, Nat.and_or_distrib_left, h, Nat.or_zero, Nat.and_comm]

theorem flag_set_or_self (a c : Nat) : flag_set (a ||| c) c := by
  unfold flag_set
  apply Nat.eq_of_testBit_eq
  intro i
  simp only [Nat.testBit_and, Nat.testBit_or]
  cases a.testBit i <;> cases c.testBit i <;> rfl

theorem set_comm_already_set (ext : Externals) (atm_comm : Comm) (s : AtmosphereDriver)
    (h : flag_set s.m_ad_status s_comm_set) :
    set_comm atm_comm ext s =
      (Except.error (ADError.status_not_expected s_comm_set s.m_ad_status), s) := by
  have hc : ¬ (bit_not s.m_ad_status &&& s_comm_set ≠ 0) := by
    rw [bit_not_and_comm_set]; exact not_not.mpr h
  simp only [set_comm, check_ad_status, bind_apply, Exec.get, ite_apply, if_neg hc, if_false,
    Bool.false_eq_true, Exec.fail]

theorem set_comm_not_yet_set (ext : Externals) (atm_comm : Comm) (s : AtmosphereDriver)
    (h : ¬ flag_set s.m_ad_status s_comm_set) :
    set_comm atm_comm ext s =
      (Except.ok (), { s with m_atm_comm := atm_comm,
                              m_ad_status := s.m_ad_status ||| s_comm_set }) := by
  have hc : bit_not s.m_ad_status &&& s_comm_set ≠ 0 := (bit_not_and_comm_set _).mpr h
  simp only [set_comm, check_ad_status, bind_apply, Exec.get, ite_apply, if_pos hc, if_false,
    Bool.false_eq_true, pure_apply, Exec.modify, or_status]

/-! ## The steps of `run` -/

theorem nse_pure {α : Type} (a : α) : NoStatusError (pure a : Exec α) :=
  ⟨fun _ _ _ h => by simp [pure_apply] at h⟩

theorem nse_fail {α : Type} {e : ADError} (he : e.is_status_error = false) :
    NoStatusError (Exec.fail e : Exec α) :=
  ⟨fun _ _ e1 h => by
    simp only [Exec.fail, Except.error.injEq] at h
    rw [← h]; exact he⟩

theorem nse_bind {α β : Type} {m : Exec α} {f : α → Exec β}
    (hm : NoStatusError m) (hf : ∀ a, NoStatusError (f a)) : NoStatusError (m >>= f) := by
  constructor
  intro ext s e h
  rw [bind_apply] at h
  have h1 := hm.err ext s
  cases hr : m ext s with
  | mk r s1 =>
    rw [hr] at h h1
    cases r with
    | error e1 =>
      simp only [Except.error.injEq] at h
      exact h1 e (by rw [h])
    | ok a => exact (hf a).err ext s1 e h

theorem nse_ite {α : Type} {c : Prop} [Decidable c] {a b : Exec α}
    (ha : NoStatusError a) (hb : NoStatusError b) : NoStatusError (if c then a else b) := by
  split
  · exact ha
  · exact hb

theorem nse_get : NoStatusError Exec.get :=
  ⟨fun _ _ _ h => by simp [Exec.get] at h⟩

theorem nse_modify (f : AtmosphereDriver → AtmosphereDriver) : NoStatusError (Exec.modify f) :=
  ⟨fun _ _ _ h => by simp [Exec.modify] at h⟩

theorem nse_call (c : Call) : NoStatusError (Exec.call c) := by
  constructor
  intro ext s e h
  unfold Exec.call at h
  split at h
  · simp at h
  · simp only [Except.error.injEq] at h
    rw [← h]; rfl

theorem nse_deref {α : Type} (p : Option α) : NoStatusError (Exec.deref p) := by
  cases p
  · exact nse_fail rfl
  · exact ⟨fun _ _ _ h => by simp [Exec.deref, Exec.ret] at h⟩

theorem nse_run (dt : ℚ) : NoStatusError (run dt) := by
  unfold run
  repeat' first
    | with_reducible exact nse_get
    | with_reducible exact nse_call _
    | with_reducible exact nse_deref _
    | with_reducible exact nse_pure _
    | exact nse_fail rfl
    | with_reducible exact nse_modify _
    | with_reducible apply nse_bind
    | with_reducible apply nse_ite
    | intro _

theorem run_nonpositive (ext : Externals) (s : AtmosphereDriver) (dt : ℚ) (hdt : dt ≤ 0) :
    run dt ext s = (Except.error ADError.time_step, s) := by
  have h : ¬ dt > 0 := not_lt.mpr hdt
  simp [run, bind_apply, h, Exec.fail]

theorem run_ok_state (ext : Externals) (s s' : AtmosphereDriver) (dt : ℚ) (hdt : 0 < dt)
    (hrun : run dt ext s = (Except.ok (), s')) :
    s' = { s with
      m_current_ts := s.m_current_ts + dt,
      calls := s.calls ++ (if s.m_surface_coupling.isSome then [Call.sc_do_import] else [])
        ++ [Call.pg_run dt, Call.om_run (s.m_current_ts + dt)]
        ++ (if s.m_surface_coupling.isSome then [Call.sc_do_export] else []) } := by
  have h : dt > 0 := hdt
  unfold run at hrun
  cases hsc : s.m_surface_coupling.isSome <;>
    simp only [bind_eq_ok, pure_eq_ok, fail_eq_ok, get_eq_ok, modify_eq_ok, call_eq_ok,
      deref_eq_ok, ite_apply, h, if_true] at hrun
  · obtain ⟨_, _, ⟨-, rfl⟩, _, _, ⟨rfl, rfl⟩, hrun⟩ := hrun
    simp only [hsc, Bool.false_eq_true, if_false, bind_eq_ok, pure_eq_ok, get_eq_ok,
      modify_eq_ok, call_eq_ok, deref_eq_ok] at hrun
    obtain ⟨_, _, ⟨-, rfl⟩, _, _, ⟨-, rfl⟩, _, _, ⟨-, rfl⟩, _, _, rfl, _, _, ⟨rfl, rfl⟩,
      _, _, ⟨-, rfl⟩, -, rfl⟩ := hrun
    simp
  · obtain ⟨_, _, ⟨-, rfl⟩, _, _, ⟨rfl, rfl⟩, hrun⟩ := hrun
    simp only [hsc, if_true, bind_eq_ok, pure_eq_ok, get_eq_ok,
      modify_eq_ok, call_eq_ok, deref_eq_ok] at hrun
    obtain ⟨_, _, ⟨-, rfl⟩, _, _, ⟨-, rfl⟩, _, _, ⟨-, rfl⟩, _, _, rfl, _, _, ⟨rfl, rfl⟩,
      _, _, ⟨-, rfl⟩, -, rfl⟩ := hrun
    simp

theorem run_ok_of_cooperation (ext : Externals) (s : AtmosphereDriver) (dt : ℚ)
    (hdt : 0 < dt) (hpg : s.m_atm_process_group.isSome = true)
    (hok : ∀ tr c, ext.ok tr c = true) :
    (run dt ext s).1 = Except.ok () := by
  have h : dt > 0 := hdt
  obtain ⟨pg, hpg⟩ := Option.isSome_iff_exists.mp hpg
  unfold run
  cases hsc : s.m_surface_coupling.isSome <;>
    simp [bind_apply, pure_apply, h, hsc, hpg, hok,
      Exec.get, Exec.call, Exec.modify, Exec.deref, Exec.fail, Exec.ret, ite_apply]

/-! ## Status checks and the status after `create_grids` -/

theorem check_ad_status_eq_ok (flag : Nat) (b : Bool) (u : Unit) (ext : Externals)
    (s s' : AtmosphereDriver) :
    check_ad_status flag b ext s = (Except.ok u, s') ↔
      (if b then s.m_ad_status &&& flag ≠ 0 else bit_not s.m_ad_status &&& flag ≠ 0) ∧
        s = s' := by
  unfold check_ad_status
  cases b <;>
    simp only [bind_apply, Exec.get, ite_apply, pure_apply, Exec.fail, if_true, if_false,
      Bool.false_eq_true] <;>
    split_ifs with hc <;> simp [pure_apply, Exec.fail, hc] <;> simpa using hc

theorem create_grids_ok_status (ext : Externals) (s s' : AtmosphereDriver)
    (h : create_grids ext s = (Except.ok (), s')) :
    s'.m_ad_status = s.m_ad_status ||| s_procs_created := by
  unfold create_grids at h
  simp only [bind_eq_ok, pure_eq_ok, fail_eq_ok, get_eq_ok, modify_eq_ok, call_eq_ok,
    deref_eq_ok, param_eq_ok, check_ad_status_eq_ok, or_status] at h
  obtain ⟨_, _, ⟨-, rfl⟩, _, _, ⟨rfl, rfl⟩, _, _, ⟨-, rfl⟩, _, _, ⟨-, rfl⟩, _, _, rfl,
    _, _, ⟨-, rfl⟩, _, _, ⟨-, rfl⟩, _, _, ⟨-, rfl⟩, _, _, rfl, _, _, ⟨-, rfl⟩, rfl⟩ := h
  rfl

theorem create_grids_ok_grids_created (ext : Externals) (s s' : AtmosphereDriver)
    (h : create_grids ext s = (Except.ok (), s')) :
    s'.m_ad_status &&& s_grids_created = s.m_ad_status &&& s_grids_created := by
  rw [create_grids_ok_status ext s s' h]
  exact or_and_disjoint _ _ _ (by decide)

/-! ## The claims -/

/-- C1. Status flags only grow: for every driver operation (`set_comm`,
`set_params`, `create_atm_processes`, `create_grids`, `create_fields`,
`initialize_output_manager`, `initialize_fields`, `initialize_atm_procs`,
`finish_setup`, `run`, `finalize`), every behaviour of the collaborators and
every state, if the operation completes then every flag (or set of flags) that
was set before is set afterwards. -/
theorem status_flags_only_grow (ext : Externals) (op : DriverOp)
    (s s' : AtmosphereDriver) (flag : Nat)
    (hdone : op.exec ext s = (Except.ok (), s'))
    (hset : flag_set s.m_ad_status flag) : flag_set s'.m_ad_status flag := by
  have h := (grows_exec op).le ext s
  rw [hdone] at h
  exact flag_set_of_status_le h hset

/-- C1, at a concrete input: `create_grids` completes on `with_processes` and
ParamsSet is still set. -/
theorem status_flags_only_grow_witness :
    flag_set (DriverOp.create_grids.exec cooperative with_processes).2.m_ad_status
      s_params_set :=
  status_flags_only_grow cooperative DriverOp.create_grids with_processes _ s_params_set
    (by rfl) (by decide)

/-- C2, the code at failing inputs. With CommSet set and ParamsSet unset,
`create_atm_processes` passes its status check and completes; the status checks
of `create_grids` (ProcessesCreated unset), `create_fields` (GridsCreated unset)
and `initialize_output_manager` (all but CommSet unset) pass as well, and
`create_fields` completes with GridsCreated unset. In general the check of
required flags passes exactly when at least one bit of the flags is set. -/
theorem status_check_passes_with_a_required_flag_unset :
    (set_comm { id := 7 } >>= fun _ => create_atm_processes) cooperative fresh =
      (Except.ok (),
        { fresh with
          m_ad_status := 5,
          m_atm_comm := { id := 7 },
          m_atm_process_group := some {},
          calls := [Call.make_process_group { id := 7 } {}] }) ∧
    ¬ flag_set (set_comm { id := 7 } cooperative fresh).2.m_ad_status s_params_set ∧
    check_ad_status (s_procs_created ||| s_comm_set ||| s_params_set) must_be_set_default
        cooperative with_params = (Except.ok (), with_params) ∧
    ¬ flag_set with_params.m_ad_status s_procs_created ∧
    check_ad_status (s_procs_created ||| s_grids_created) must_be_set_default
        cooperative with_processes = (Except.ok (), with_processes) ∧
    ¬ flag_set with_processes.m_ad_status s_grids_created ∧
    (create_fields cooperative with_processes).1 = Except.ok () ∧
    (check_ad_status (s_comm_set ||| s_params_set ||| s_grids_created ||| s_fields_created)
        must_be_set_default cooperative { fresh with m_ad_status := s_comm_set }).1
      = Except.ok () ∧
    (∀ ext s flag, check_ad_status flag must_be_set_default ext s = (Except.ok (), s) ↔
      s.m_ad_status &&& flag ≠ 0) := by
  refine ⟨by rfl, by decide, by rfl, by decide, by rfl, by decide, by rfl, by rfl, ?_⟩
  intro ext s flag
  rw [check_ad_status_eq_ok]
  simp [must_be_set_default]

/-- C3, the code at a failing input. On `with_processes` (CommSet, ParamsSet and
ProcessesCreated set) `create_grids` completes, builds the grids and leaves the
status at 7: GridsCreated is not set afterwards. On every state, a completed
`create_grids` leaves the GridsCreated bit as it was. -/
theorem create_grids_leaves_grids_created_unset :
    create_grids cooperative with_processes =
      (Except.ok (),
        { with_processes with
          m_grids_manager := some { reference_grid := some "Physics" },
          calls := with_processes.calls ++
            [Call.gm_create "Mesh Free" { id := 7 } (sample_params.sublist "Grids Manager"),
             Call.gm_build_grids "Physics", Call.pg_set_grids] }) ∧
    (create_grids cooperative with_processes).2.m_ad_status = 7 ∧
    ¬ flag_set (create_grids cooperative with_processes).2.m_ad_status s_grids_created ∧
    (∀ ext s s', create_grids ext s = (Except.ok (), s') →
      s'.m_ad_status &&& s_grids_created = s.m_ad_status &&& s_grids_created) := by
  refine ⟨by rfl, by rfl, by decide, create_grids_ok_grids_created⟩

/-- C4. `set_comm` fails when CommSet is already set and then leaves the whole
state (communicator and status included) unchanged; when CommSet is not set it
succeeds, stores the communicator, and the new status is the old one with
CommSet added: CommSet is set and the bits of every flag disjoint from CommSet
are the same as before. -/
theorem set_comm_contract (ext : Externals) (atm_comm : Comm) (s : AtmosphereDriver) :
    (flag_set s.m_ad_status s_comm_set →
      set_comm atm_comm ext s =
        (Except.error (ADError.status_not_expected s_comm_set s.m_ad_status), s)) ∧
    (¬ flag_set s.m_ad_status s_comm_set →
      set_comm atm_comm ext s =
        (Except.ok (), { s with m_atm_comm := atm_comm,
                                m_ad_status := s.m_ad_status ||| s_comm_set }) ∧
      flag_set (s.m_ad_status ||| s_comm_set) s_comm_set ∧
      ∀ flag, flag &&& s_comm_set = 0 →
        (s.m_ad_status ||| s_comm_set) &&& flag = s.m_ad_status &&& flag) :=
  ⟨set_comm_already_set ext atm_comm s,
   fun h => ⟨set_comm_not_yet_set ext atm_comm s h, flag_set_or_self _ _,
     fun flag hf => or_and_disjoint _ _ flag hf⟩⟩

/-- C4, at concrete inputs: `set_comm` on a fresh driver, and on a driver whose
communicator is set. -/
theorem set_comm_contract_witness :
    set_comm { id := 7 } cooperative fresh =
      (Except.ok (), { fresh with m_atm_comm := { id := 7 }, m_ad_status := 0 ||| s_comm_set }) ∧
    set_comm { id := 9 } cooperative with_processes =
      (Except.error (ADError.status_not_expected s_comm_set 7), with_processes) :=
  ⟨((set_comm_contract cooperative { id := 7 } fresh).2 (by decide)).1,
   (set_comm_contract cooperative { id := 9 } with_processes).1 (by decide)⟩

/-- C5, the code at a failing input. On `with_params` (CommSet and ParamsSet
set) a second `set_params` passes the status check and replaces the stored
parameters. -/
theorem set_params_replaces_parameters :
    set_params {} cooperative with_params =
      (Except.ok (), { with_params with m_atm_params := {} }) ∧
    flag_set with_params.m_ad_status s_params_set ∧
    (set_comm { id := 7 } >>= fun _ => set_params sample_params) cooperative fresh =
      (Except.ok (), with_params) := by
  refine ⟨by rfl, by decide, by rfl⟩

/-- C6, the code at a failing input. On a fresh driver `set_params` fails its
status check (no flag other than ParamsSet is set), so `set_params` followed by
`set_comm` stops at the first step with the state unchanged, while `set_comm`
followed by `set_params` completes with status 3. (4294967293 is the bit
pattern of `~s_params_set`, the `int` -3.) -/
theorem set_params_before_set_comm_fails :
    set_params sample_params cooperative fresh =
      (Except.error (ADError.status_expected 4294967293 0), fresh) ∧
    (set_params sample_params >>= fun _ => set_comm { id := 7 }) cooperative fresh =
      (Except.error (ADError.status_expected 4294967293 0), fresh) ∧
    (set_comm { id := 7 } >>= fun _ => set_params sample_params) cooperative fresh =
      (Except.ok (), with_params) := by
  refine ⟨by rfl, by rfl, by rfl⟩

/-- C7 as stated fails: on `with_processes`, reached from a fresh driver by
`set_comm`, `set_params` and `create_atm_processes` (no grids, no fields, no
initialization), `run 1` completes. -/
theorem run_completes_before_initialization :
    (run 1 cooperative with_processes).1 = Except.ok () ∧
    (set_comm { id := 7 } >>= fun _ => set_params sample_params >>= fun _ =>
        create_atm_processes) cooperative fresh = (Except.ok (), with_processes) ∧
    ¬ flag_set with_processes.m_ad_status s_fields_inited ∧
    ¬ flag_set with_processes.m_ad_status s_procs_inited := by
  refine ⟨by rfl, by rfl, by decide, by decide⟩

/-- C7, amended. `run` makes no status check: whatever the status and the step
size, it never stops with the sequencing error; for a step `dt <= 0` it stops
with the time-step error and leaves the driver as it was; and for a positive
step it completes whenever the process group exists and the collaborators return
normally, whatever the status, so also on a driver whose initialization has not
completed. -/
theorem run_makes_no_status_check (ext : Externals) (s : AtmosphereDriver) (dt : ℚ) :
    (∀ e, (run dt ext s).1 = Except.error e → e.is_status_error = false) ∧
    (dt ≤ 0 → run dt ext s = (Except.error ADError.time_step, s)) ∧
    (0 < dt → s.m_atm_process_group.isSome = true → (∀ tr c, ext.ok tr c = true) →
      (run dt ext s).1 = Except.ok ()) :=
  ⟨(nse_run dt).err ext s, run_nonpositive ext s dt, run_ok_of_cooperation ext s dt⟩

/-- C7 amended, at concrete inputs, on `with_processes` (no grids, no fields, no
initialization): a run with the step -1 stops with the time-step error, which is
not the sequencing error, and a run with the step 1 completes. -/
theorem run_makes_no_status_check_witness :
    ADError.time_step.is_status_error = false ∧
    run (-1) cooperative with_processes = (Except.error ADError.time_step, with_processes) ∧
    (run 1 cooperative with_processes).1 = Except.ok () :=
  ⟨(run_makes_no_status_check cooperative with_processes (-1)).1 ADError.time_step
      (by rw [run_nonpositive cooperative with_processes (-1) (by norm_num)]),
   (run_makes_no_status_check cooperative with_processes (-1)).2.1 (by norm_num),
   (run_makes_no_status_check cooperative with_processes 1).2.2 (by norm_num) rfl
      (fun _ _ => rfl)⟩

/-- C8. For every step `dt <= 0`, `run dt` fails (time-step error) and the state
after is the state before: no collaborator call (coupling import or export,
process-group run, output-manager run) is recorded and the current time stamp
is unchanged. -/
theorem run_rejects_nonpositive_step (ext : Externals) (s : AtmosphereDriver) (dt : ℚ)
    (hdt : dt ≤ 0) :
    run dt ext s = (Except.error ADError.time_step, s) ∧
    (run dt ext s).2.calls = s.calls ∧
    (run dt ext s).2.m_current_ts = s.m_current_ts := by
  rw [run_nonpositive ext s dt hdt]
  exact ⟨rfl, rfl, rfl⟩

/-- C8, at a concrete input: step 0 on the driver `coupled`. -/
theorem run_rejects_nonpositive_step_witness :
    run 0 cooperative coupled = (Except.error ADError.time_step, coupled) :=
  (run_rejects_nonpositive_step cooperative coupled 0 (le_refl 0)).1

/-- C9. For every `dt > 0`, a run that completes has made exactly these
collaborator calls, in this order: coupling import (if and only if a coupling
collaborator is attached), process-group `run(dt)`, output-manager `run` with
the time stamp already advanced by `dt`, coupling export (if and only if a
coupling collaborator is attached); the current time stamp is the old one plus
`dt` and nothing else of the state changes. The run does complete when the
process group exists and the collaborators return normally. -/
theorem run_performs_one_step (ext : Externals) (s s' : AtmosphereDriver) (dt : ℚ)
    (hdt : 0 < dt) :
    (run dt ext s = (Except.ok (), s') →
      s' = { s with
        m_current_ts := s.m_current_ts + dt,
        calls := s.calls
          ++ (if s.m_surface_coupling.isSome then [Call.sc_do_import] else [])
          ++ [Call.pg_run dt, Call.om_run (s.m_current_ts + dt)]
          ++ (if s.m_surface_coupling.isSome then [Call.sc_do_export] else []) }) ∧
    (s.m_atm_process_group.isSome = true → (∀ tr c, ext.ok tr c = true) →
      (run dt ext s).1 = Except.ok ()) :=
  ⟨run_ok_state ext s s' dt hdt, fun hpg hok => run_ok_of_cooperation ext s dt hdt hpg hok⟩

/-- C9, at a concrete input: step 1 on the driver `coupled` (a coupling
collaborator is attached). -/
theorem run_performs_one_step_witness :
    (run 1 cooperative coupled).2 =
      { coupled with
        m_current_ts := coupled.m_current_ts + 1,
        calls := coupled.calls
          ++ (if coupled.m_surface_coupling.isSome then [Call.sc_do_import] else [])
          ++ [Call.pg_run 1, Call.om_run (coupled.m_current_ts + 1)]
          ++ (if coupled.m_surface_coupling.isSome then [Call.sc_do_export] else []) } ∧
    (run 1 cooperative coupled).1 = Except.ok () :=
  ⟨(run_performs_one_step cooperative coupled _ 1 (by norm_num)).1 (by rfl),
   (run_performs_one_step cooperative coupled coupled 1 (by norm_num)).2 rfl (fun _ _ => rfl)⟩

end control

/-- C10. Backward remap on a `CoarseningRemapper` fails with an error for every
remapper state (every list of registered source, target and overlapped target
fields): it never returns normally, and the remapper, its fields included, is
as before. -/
theorem do_remap_bwd_always_fails (r : CoarseningRemapper) :
    (∃ msg, r.do_remap_bwd.1 = Except.error msg) ∧
    r.do_remap_bwd.1 ≠ Except.ok () ∧
    r.do_remap_bwd.2 = r ∧
    r.do_remap_bwd.2.m_src_fields = r.m_src_fields ∧
    r.do_remap_bwd.2.m_tgt_fields = r.m_tgt_fields :=
  ⟨⟨_, rfl⟩, by simp [CoarseningRemapper.do_remap_bwd], rfl, rfl, rfl⟩

/-! ## Layout compatibility and the forward remap -/

theorem length_add_at (xs : List ℚ) (i : Nat) (v : ℚ) : (add_at xs i v).length = xs.length := by
  induction xs generalizing i with
  | nil => rfl
  | cons x rest ih =>
    cases i with
    | zero => rfl
    | succ i => simp [add_at, ih]

theorem length_foldl_add_at (items : List (Nat × ℚ)) (acc : List ℚ) :
    (items.foldl (fun acc it => add_at acc it.1 it.2) acc).length = acc.length := by
  induction items generalizing acc with
  | nil => rfl
  | cons it rest ih => simp [List.foldl_cons, ih, length_add_at]

theorem length_accumulate (n : Nat) (items : List (Nat × ℚ)) :
    (accumulate n items).length = n := by
  simp [accumulate, length_foldl_add_at]

theorem length_axpby (a b : ℚ) (xs ys : List ℚ) (h : xs.length = ys.length) :
    (axpby a b xs ys).length = xs.length := by
  simp [axpby, h]

theorem getD_axpby (a b : ℚ) (xs ys : List ℚ) (h : xs.length = ys.length) (i : Nat) :
    (axpby a b xs ys).getD i 0 = a * xs.getD i 0 + b * ys.getD i 0 := by
  induction xs generalizing ys i with
  | nil =>
    cases ys with
    | nil => simp [axpby]
    | cons y ys => simp at h
  | cons x xs ih =>
    cases ys with
    | nil => simp at h
    | cons y ys =>
      cases i with
      | zero => simp [axpby]
      | succ i =>
        have := ih ys (by simpa using h) i
        simpa [axpby] using this

theorem add_at_axpby (a b : ℚ) (acc1 acc2 : List ℚ) (h : acc1.length = acc2.length)
    (i : Nat) (x y : ℚ) :
    add_at (axpby a b acc1 acc2) i (a * x + b * y) =
      axpby a b (add_at acc1 i x) (add_at acc2 i y) := by
  induction acc1 generalizing acc2 i with
  | nil =>
    cases acc2 with
    | nil => simp [axpby, add_at]
    | cons y ys => simp at h
  | cons x1 xs ih =>
    cases acc2 with
    | nil => simp at h
    | cons y1 ys =>
      cases i with
      | zero =>
        simp only [axpby, List.zipWith_cons_cons, add_at]
        congr 1
        ring
      | succ i =>
        have := ih ys (by simpa using h) i
        simp only [axpby, List.zipWith_cons_cons, add_at] at this ⊢
        rw [this]

theorem foldl_add_at_axpby (a b : ℚ) (idx : List Nat) (v1 v2 : List ℚ)
    (hv : v1.length = v2.length) (acc1 acc2 : List ℚ) (h : acc1.length = acc2.length) :
    (idx.zip (axpby a b v1 v2)).foldl (fun acc it => add_at acc it.1 it.2) (axpby a b acc1 acc2) =
      axpby a b ((idx.zip v1).foldl (fun acc it => add_at acc it.1 it.2) acc1)
        ((idx.zip v2).foldl (fun acc it => add_at acc it.1 it.2) acc2) := by
  induction idx generalizing v1 v2 acc1 acc2 with
  | nil => simp
  | cons i idx ih =>
    cases v1 with
    | nil =>
      cases v2 with
      | nil => simp [axpby]
      | cons y ys => simp at hv
    | cons x xs =>
      cases v2 with
      | nil => simp at hv
      | cons y ys =>
        simp only [axpby, List.zipWith_cons_cons, List.zip_cons_cons, List.foldl_cons]
        have h1 := add_at_axpby a b acc1 acc2 h i x y
        simp only [axpby] at h1
        rw [h1]
        exact ih xs ys (by simpa using hv) _ _ (by simp [length_add_at, h])


theorem axpby_replicate_zero (a b : ℚ) (n : Nat) :
    axpby a b (List.replicate n 0) (List.replicate n 0) = List.replicate n 0 := by
  induction n with
  | zero => rfl
  | succ n ih =>
    simp only [List.replicate_succ, axpby, List.zipWith_cons_cons] at ih ⊢
    rw [ih]
    simp

theorem axpby_map {α : Type} (a b : ℚ) (l : List α) (g1 g2 : α → ℚ) :
    axpby a b (l.map g1) (l.map g2) = l.map fun x => a * g1 x + b * g2 x := by
  induction l with
  | nil => rfl
  | cons x l ih =>
    simp only [axpby, List.map_cons, List.zipWith_cons_cons] at ih ⊢
    rw [ih]

theorem foldl_flatMap_axpby {α : Type} (a b : ℚ) (A : List α) (idx : α → List Nat)
    (m1 m2 : α → List ℚ) (hm : ∀ x ∈ A, (m1 x).length = (m2 x).length)
    (acc1 acc2 : List ℚ) (h : acc1.length = acc2.length) :
    (A.flatMap fun x => (idx x).zip (axpby a b (m1 x) (m2 x))).foldl
        (fun acc it => add_at acc it.1 it.2) (axpby a b acc1 acc2) =
      axpby a b
        ((A.flatMap fun x => (idx x).zip (m1 x)).foldl (fun acc it => add_at acc it.1 it.2) acc1)
        ((A.flatMap fun x => (idx x).zip (m2 x)).foldl (fun acc it => add_at acc it.1 it.2) acc2) := by
  induction A generalizing acc1 acc2 with
  | nil => rfl
  | cons x A ih =>
    simp only [List.flatMap_cons, List.foldl_append]
    rw [foldl_add_at_axpby a b (idx x) (m1 x) (m2 x) (hm x (List.mem_cons_self _ _)) acc1 acc2 h]
    exact ih (fun y hy => hm y (List.mem_cons_of_mem _ hy)) _ _
      (by simp [length_foldl_add_at, h])

theorem local_mat_vec_axpby (r : CoarseningRemapper) (a b : ℚ) (s1 s2 : List ℚ)
    (h : s1.length = s2.length) :
    r.local_mat_vec (axpby a b s1 s2) = axpby a b (r.local_mat_vec s1) (r.local_mat_vec s2) := by
  unfold CoarseningRemapper.local_mat_vec accumulate
  have hz : ∀ f : List ℚ, (r.triplets.map fun t => (t.1.1, t.2 * f.getD t.1.2 0)) =
      (r.triplets.map fun t => t.1.1).zip (r.triplets.map fun t => t.2 * f.getD t.1.2 0) := by
    intro f; rw [List.zip_map']
  rw [hz, hz, hz]
  have hv : (r.triplets.map fun t => t.2 * (axpby a b s1 s2).getD t.1.2 0) =
      axpby a b (r.triplets.map fun t => t.2 * s1.getD t.1.2 0)
        (r.triplets.map fun t => t.2 * s2.getD t.1.2 0) := by
    rw [axpby_map]
    apply List.map_congr_left
    intro t _
    rw [getD_axpby a b s1 s2 h]
    ring
  rw [hv]
  have hf := foldl_add_at_axpby a b (r.triplets.map fun t => t.1.1)
    (r.triplets.map fun t => t.2 * s1.getD t.1.2 0)
    (r.triplets.map fun t => t.2 * s2.getD t.1.2 0) (by simp)
    (List.replicate r.ov_tgt_num_dofs 0) (List.replicate r.ov_tgt_num_dofs 0) rfl
  rw [axpby_replicate_zero] at hf
  exact hf

theorem length_local_mat_vec (r : CoarseningRemapper) (s : List ℚ) :
    (r.local_mat_vec s).length = r.ov_tgt_num_dofs := by
  simp [CoarseningRemapper.local_mat_vec, length_accumulate]

theorem pack_axpby (r : CoarseningRemapper) (a b : ℚ) (ov1 ov2 : List ℚ)
    (h : ov1.length = ov2.length) (pid : Nat) :
    r.pack (axpby a b ov1 ov2) pid = axpby a b (r.pack ov1 pid) (r.pack ov2 pid) := by
  unfold CoarseningRemapper.pack
  rw [axpby_map]
  apply List.map_congr_left
  intro lid _
  exact getD_axpby a b ov1 ov2 h lid

theorem length_pack (r : CoarseningRemapper) (ov : List ℚ) (pid : Nat) :
    (r.pack ov pid).length = (lids_of_pid r.m_send_lids_pids pid).length := by
  simp [CoarseningRemapper.pack]

theorem unpack_axpby {α : Type} (rq : CoarseningRemapper) (a b : ℚ) (A : List α)
    (pid : α → Nat) (m1 m2 : α → List ℚ) (hm : ∀ x ∈ A, (m1 x).length = (m2 x).length) :
    rq.unpack (A.map fun x => (pid x, axpby a b (m1 x) (m2 x))) =
      axpby a b (rq.unpack (A.map fun x => (pid x, m1 x)))
        (rq.unpack (A.map fun x => (pid x, m2 x))) := by
  unfold CoarseningRemapper.unpack accumulate
  simp only [List.flatMap_map]
  have hf := foldl_flatMap_axpby a b A (fun x => lids_of_pid rq.m_recv_lids_pids (pid x))
    m1 m2 hm (List.replicate rq.tgt_num_dofs 0) (List.replicate rq.tgt_num_dofs 0) rfl
  rw [axpby_replicate_zero] at hf
  exact hf

theorem zipWith_map_map {α β : Type} (f : β → β → β) (A : List α) (g h : α → β) :
    List.zipWith f (A.map g) (A.map h) = A.map fun x => f (g x) (h x) := by
  induction A with
  | nil => rfl
  | cons x A ih => simp [ih]

theorem remap_forward_axpby (a b : ℚ) (world : List (CoarseningRemapper × List ℚ × List ℚ))
    (h : ∀ x ∈ world, x.2.1.length = x.2.2.length) :
    remap_forward (world.map fun x => (x.1, axpby a b x.2.1 x.2.2)) =
      List.zipWith (axpby a b) (remap_forward (world.map fun x => (x.1, x.2.1)))
        (remap_forward (world.map fun x => (x.1, x.2.2))) := by
  unfold remap_forward
  simp only [List.map_map, Function.comp_def]
  rw [zipWith_map_map]
  apply List.map_congr_left
  intro rq _
  have hm : ∀ x ∈ world,
      (x.1.pack (x.1.local_mat_vec x.2.1) rq.1.m_comm.rank).length =
        (x.1.pack (x.1.local_mat_vec x.2.2) rq.1.m_comm.rank).length := by
    intro x _
    rw [length_pack, length_pack]
  rw [← unpack_axpby rq.1 a b world (fun x => x.1.m_comm.rank) _ _ hm]
  congr 1
  apply List.map_congr_left
  intro x hx
  rw [local_mat_vec_axpby _ a b _ _ (h x hx),
    pack_axpby _ a b _ _ (by rw [length_local_mat_vec, length_local_mat_vec])]


theorem getD_add_at (xs : List ℚ) (i j : Nat) (v : ℚ) :
    (add_at xs i v).getD j 0 = xs.getD j 0 + (if i = j ∧ j < xs.length then v else 0) := by
  induction xs generalizing i j with
  | nil => simp [add_at]
  | cons x rest ih =>
    cases i with
    | zero =>
      cases j with
      | zero => simp [add_at]
      | succ j => simp [add_at]
    | succ i =>
      cases j with
      | zero => simp [add_at]
      | succ j =>
        have := ih i j
        simpa [add_at] using this

theorem getD_foldl_add_at (items : List (Nat × ℚ)) (acc : List ℚ) (j : Nat) :
    (items.foldl (fun acc it => add_at acc it.1 it.2) acc).getD j 0 =
      acc.getD j 0 +
        (items.map fun it => if it.1 = j ∧ j < acc.length then it.2 else 0).sum := by
  induction items generalizing acc with
  | nil => simp
  | cons it rest ih =>
    simp only [List.foldl_cons, List.map_cons, List.sum_cons]
    rw [ih, getD_add_at, length_add_at]
    ring

theorem getD_accumulate (n : Nat) (items : List (Nat × ℚ)) (j : Nat) (hj : j < n) :
    (accumulate n items).getD j 0 = (items.map fun it => if it.1 = j then it.2 else 0).sum := by
  unfold accumulate
  rw [getD_foldl_add_at]
  simp [hj]

theorem sum_map_ite_eq_filter {α : Type} (l : List α) (p : α → Prop) [DecidablePred p]
    (f : α → ℚ) :
    (l.map fun x => if p x then f x else 0).sum = ((l.filter fun x => p x).map f).sum := by
  induction l with
  | nil => rfl
  | cons x l ih =>
    by_cases hp : p x <;> simp [List.filter_cons, hp, ih]

theorem sum_map_mul_left {α : Type} (l : List α) (c : ℚ) (f : α → ℚ) :
    (l.map fun x => c * f x).sum = c * (l.map f).sum := by
  induction l with
  | nil => simp
  | cons x l ih => simp [ih, mul_add]

theorem sum_flatMap {α β : Type} (l : List α) (g : α → List β) (h : β → ℚ) :
    ((l.flatMap g).map h).sum = (l.map fun x => ((g x).map h).sum).sum := by
  induction l with
  | nil => rfl
  | cons x l ih => simp [List.flatMap_cons, ih]

theorem ext_getD (l1 l2 : List ℚ) (hl : l1.length = l2.length)
    (h : ∀ j, j < l1.length → l1.getD j 0 = l2.getD j 0) : l1 = l2 := by
  apply List.ext_getElem hl
  intro j h1 h2
  have := h j h1
  rwa [List.getD_eq_getElem _ _ h1, List.getD_eq_getElem _ _ h2] at this

theorem local_mat_vec_const (r : CoarseningRemapper) (s : List ℚ) (c : ℚ)
    (hc : ∀ v ∈ s, v = c)
    (hv : ∀ tr ∈ r.triplets, tr.1.1 < r.ov_tgt_num_dofs ∧ tr.1.2 < s.length) (l : Nat) :
    (r.local_mat_vec s).getD l 0 =
      c * ((r.triplets.filter fun tr => tr.1.1 = l).map fun tr => tr.2).sum := by
  by_cases hl : l < r.ov_tgt_num_dofs
  · unfold CoarseningRemapper.local_mat_vec
    rw [getD_accumulate _ _ _ hl, List.map_map, ← sum_map_mul_left,
      ← sum_map_ite_eq_filter]
    congr 1
    apply List.map_congr_left
    intro tr htr
    have hcol := (hv tr htr).2
    have : s.getD tr.1.2 0 = c := by
      rw [List.getD_eq_getElem _ _ hcol]
      exact hc _ (List.getElem_mem _)
    simp only [Function.comp, this]
    split_ifs <;> ring
  · have h0 : (r.local_mat_vec s).getD l 0 = 0 := by
      apply List.getD_eq_default
      rw [length_local_mat_vec]
      omega
    have hf : (r.triplets.filter fun tr => tr.1.1 = l) = [] := by
      rw [List.filter_eq_nil_iff]
      intro tr htr
      have := (hv tr htr).1
      simp only [decide_eq_true_eq]
      omega
    rw [h0, hf]
    simp


theorem sum_ite_nil (p : Prop) [Decidable p] (l : List ℚ) :
    (if p then l else []).sum = if p then l.sum else 0 := by
  split_ifs <;> simp

theorem length_unpack (rq : CoarseningRemapper) (recv : List (Nat × List ℚ)) :
    (rq.unpack recv).length = rq.tgt_num_dofs := by
  simp [CoarseningRemapper.unpack, length_accumulate]

theorem remap_forward_const_getD (world : List (CoarseningRemapper × List ℚ)) (c : ℚ)
    (hc : ∀ x ∈ world, ∀ v ∈ x.2, v = c)
    (hv : ∀ x ∈ world, ∀ tr ∈ x.1.triplets,
      tr.1.1 < x.1.ov_tgt_num_dofs ∧ tr.1.2 < x.2.length)
    (rq : CoarseningRemapper) (t : Nat) (ht : t < rq.tgt_num_dofs) :
    (rq.unpack (world.map fun rp =>
        (rp.1.m_comm.rank, rp.1.pack (rp.1.local_mat_vec rp.2) rq.m_comm.rank))).getD t 0 =
      c * (contributing_weights (world.map fun x => x.1) rq t).sum := by
  unfold CoarseningRemapper.unpack contributing_weights
  rw [getD_accumulate _ _ _ ht, List.flatMap_map, List.flatMap_map, sum_flatMap]
  have hs := sum_flatMap world
    (fun rp => ((lids_of_pid rq.m_recv_lids_pids rp.1.m_comm.rank).zip
        (lids_of_pid rp.1.m_send_lids_pids rq.m_comm.rank)).flatMap fun ll =>
      if ll.1 = t then (rp.1.triplets.filter fun tr => tr.1.1 = ll.2).map fun tr => tr.2
      else []) (fun w => w)
  simp only [List.map_id'] at hs
  rw [hs, ← sum_map_mul_left]
  congr 1
  apply List.map_congr_left
  intro rp hrp
  unfold CoarseningRemapper.pack
  rw [List.zip_map_right, List.map_map]
  have hs2 := sum_flatMap ((lids_of_pid rq.m_recv_lids_pids rp.1.m_comm.rank).zip
        (lids_of_pid rp.1.m_send_lids_pids rq.m_comm.rank))
    (fun ll => if ll.1 = t then
        (rp.1.triplets.filter fun tr => tr.1.1 = ll.2).map fun tr => tr.2 else [])
    (fun w => w)
  simp only [List.map_id'] at hs2
  rw [hs2, ← sum_map_mul_left]
  congr 1
  apply List.map_congr_left
  intro ll _
  simp only [Function.comp, Prod.map, id]
  rw [sum_ite_nil, local_mat_vec_const rp.1 rp.2 c (hc rp hrp) (hv rp hrp)]
  split_ifs <;> ring

theorem remap_forward_const (world : List (CoarseningRemapper × List ℚ)) (c : ℚ)
    (hc : ∀ x ∈ world, ∀ v ∈ x.2, v = c)
    (hv : ∀ x ∈ world, ∀ tr ∈ x.1.triplets,
      tr.1.1 < x.1.ov_tgt_num_dofs ∧ tr.1.2 < x.2.length)
    (hw : ∀ x ∈ world, ∀ t, t < x.1.tgt_num_dofs →
      (contributing_weights (world.map fun x => x.1) x.1 t).sum = 1) :
    remap_forward world = world.map fun x => List.replicate x.1.tgt_num_dofs c := by
  unfold remap_forward
  apply List.map_congr_left
  intro rq hrq
  apply ext_getD
  · rw [length_unpack, List.length_replicate]
  · intro t ht
    rw [length_unpack] at ht
    rw [remap_forward_const_getD world c hc hv rq.1 t ht, hw rq hrq t ht]
    simp [List.getD_eq_getElem, ht]


theorem size_div_dim0 (l : FieldLayout) (h : 0 < l.dim 0) :
    l.size / l.dim 0 = l.dims.tail.prod := by
  unfold FieldLayout.size FieldLayout.dim at *
  cases hd : l.dims with
  | nil => rw [hd] at h; simp at h
  | cons d rest =>
    rw [hd] at h
    simp only [List.getD_cons_zero] at h
    simp only [List.getD_cons_zero, List.prod_cons, List.tail_cons]
    exact Nat.mul_div_cancel_left _ h

theorem compatible_layouts_eq_true {τ : Type} [DecidableEq τ]
    (get_layout_type : List FieldTag → τ) (src tgt : FieldLayout) :
    CoarseningRemapper.compatible_layouts get_layout_type src tgt = true ↔
      get_layout_type src.tags = get_layout_type tgt.tags ∧
        src.size / src.dim 0 = tgt.size / tgt.dim 0 := by
  simp [CoarseningRemapper.compatible_layouts]

theorem register_field_incompatible {τ : Type} [DecidableEq τ]
    (get_layout_type : List FieldTag → τ) (r : CoarseningRemapper) (src tgt : FieldIdentifier)
    (h : CoarseningRemapper.compatible_layouts get_layout_type src.layout tgt.layout = false) :
    ∃ msg, r.register_field get_layout_type src tgt = Except.error msg := by
  unfold CoarseningRemapper.register_field
  split
  · exact ⟨_, rfl⟩
  · simp [h]

theorem remap_forward_axpby_getD (a b : ℚ)
    (world : List (CoarseningRemapper × List ℚ × List ℚ))
    (h : ∀ x ∈ world, x.2.1.length = x.2.2.length) (q t : Nat) :
    ((remap_forward (world.map fun x => (x.1, axpby a b x.2.1 x.2.2))).getD q []).getD t 0 =
      a * ((remap_forward (world.map fun x => (x.1, x.2.1))).getD q []).getD t 0 +
      b * ((remap_forward (world.map fun x => (x.1, x.2.2))).getD q []).getD t 0 := by
  rw [remap_forward_axpby a b world h]
  unfold remap_forward
  simp only [List.map_map, Function.comp_def]
  rw [zipWith_map_map]
  by_cases hq : q < world.length
  · simp only [List.getD_eq_getElem?_getD, List.getElem?_map, List.getElem?_eq_getElem hq,
      Option.map_some', Option.getD_some]
    have := getD_axpby a b
      ((world[q]).1.unpack (world.map fun x =>
        (x.1.m_comm.rank, x.1.pack (x.1.local_mat_vec x.2.1) (world[q]).1.m_comm.rank)))
      ((world[q]).1.unpack (world.map fun x =>
        (x.1.m_comm.rank, x.1.pack (x.1.local_mat_vec x.2.2) (world[q]).1.m_comm.rank)))
      (by rw [length_unpack, length_unpack]) t
    simpa [List.getD_eq_getElem?_getD] using this
  · have hq' : world.length ≤ q := Nat.le_of_not_lt hq
    simp [List.getD_eq_getElem?_getD, List.getElem?_eq_none, hq']

/-! ## The claims on the remapper -/

/-- C11. For all layouts `src` and `tgt` with positive leading dimension and
every `get_layout_type`: `compatible_layouts` is true exactly when both layouts
have the same layout type and `size/dim(0)` agree, `size` being the product of
all extents; `size/dim(0)` is the number of entries per leading index. A source
with 8 and a target with 5 entries per leading index are incompatible, and
`register_field` (as the spec describes it) rejects identifiers with these
layouts in every state of the remapper. -/
theorem compatible_layouts_contract {τ : Type} [DecidableEq τ]
    (get_layout_type : List FieldTag → τ) (src tgt : FieldLayout)
    (hs : 0 < src.dim 0) (ht : 0 < tgt.dim 0) :
    (CoarseningRemapper.compatible_layouts get_layout_type src tgt = true ↔
      get_layout_type src.tags = get_layout_type tgt.tags ∧
        src.dims.prod / src.dim 0 = tgt.dims.prod / tgt.dim 0) ∧
    src.size / src.dim 0 = src.dims.tail.prod ∧
    tgt.size / tgt.dim 0 = tgt.dims.tail.prod ∧
    (src.dims.tail.prod = 8 → tgt.dims.tail.prod = 5 →
      CoarseningRemapper.compatible_layouts get_layout_type src tgt = false ∧
      ∀ (r : CoarseningRemapper) (src_id tgt_id : FieldIdentifier),
        src_id.layout = src → tgt_id.layout = tgt →
        ∃ msg, r.register_field get_layout_type src_id tgt_id = Except.error msg) := by
  refine ⟨compatible_layouts_eq_true _ _ _, size_div_dim0 src hs, size_div_dim0 tgt ht, ?_⟩
  intro h8 h5
  have hf : CoarseningRemapper.compatible_layouts get_layout_type src tgt = false := by
    rw [Bool.eq_false_iff]
    intro hc
    have := ((compatible_layouts_eq_true _ _ _).mp hc).2
    rw [size_div_dim0 src hs, size_div_dim0 tgt ht, h8, h5] at this
    omega
  refine ⟨hf, ?_⟩
  intro r src_id tgt_id h1 h2
  exact register_field_incompatible _ r src_id tgt_id (by rw [h1, h2]; exact hf)

/-- C11, at a concrete input: 4 columns of 8 entries against 2 columns of 5. -/
theorem compatible_layouts_contract_witness :
    CoarseningRemapper.compatible_layouts (fun tags => tags.length) layout_4x8 layout_2x5
      = false ∧
    ∃ msg, CoarseningRemapper.register_field (fun tags => tags.length)
      { m_state := RepoState.Open } { name := "T", layout := layout_4x8, grid := "fine" }
      { name := "T", layout := layout_2x5, grid := "coarse" } = Except.error msg :=
  have h := (compatible_layouts_contract (fun tags => tags.length) layout_4x8 layout_2x5
    (by decide) (by decide)).2.2.2 (by decide) (by decide)
  ⟨h.1, h.2 _ _ _ rfl rfl⟩

/-- C13. Forward remap is linear: on every list of ranks, each with its
remapper (any triplets, any exchange plan) and the values of two scalar source
fields `f1`, `f2` with the same number of local DOFs, and for all scalars `a`,
`b`: the remap of `a*f1 + b*f2` is `a*remap(f1) + b*remap(f2)`, as fields and
at every target DOF `t` of every rank `q`. -/
theorem remap_forward_is_linear (a b : ℚ)
    (world : List (CoarseningRemapper × List ℚ × List ℚ))
    (h : ∀ x ∈ world, x.2.1.length = x.2.2.length) :
    remap_forward (world.map fun x => (x.1, axpby a b x.2.1 x.2.2)) =
      List.zipWith (axpby a b) (remap_forward (world.map fun x => (x.1, x.2.1)))
        (remap_forward (world.map fun x => (x.1, x.2.2))) ∧
    ∀ q t, ((remap_forward (world.map fun x => (x.1, axpby a b x.2.1 x.2.2))).getD q []).getD t 0 =
      a * ((remap_forward (world.map fun x => (x.1, x.2.1))).getD q []).getD t 0 +
      b * ((remap_forward (world.map fun x => (x.1, x.2.2))).getD q []).getD t 0 :=
  ⟨remap_forward_axpby a b world h, remap_forward_axpby_getD a b world h⟩

/-- C13, at a concrete input: two ranks, `2*f1 + 3*f2`. -/
theorem remap_forward_is_linear_witness :
    remap_forward ([(rank0, [1, 2], [3, 4]), (rank1, [5, 6], [7, 8])].map
        fun x => (x.1, axpby 2 3 x.2.1 x.2.2)) =
      List.zipWith (axpby 2 3)
        (remap_forward ([(rank0, [1, 2], [3, 4]), (rank1, [5, 6], [7, 8])].map
          fun x => (x.1, x.2.1)))
        (remap_forward ([(rank0, [1, 2], [3, 4]), (rank1, [5, 6], [7, 8])].map
          fun x => (x.1, x.2.2))) :=
  (remap_forward_is_linear 2 3 [(rank0, [1, 2], [3, 4]), (rank1, [5, 6], [7, 8])]
    (by simp)).1

/-- C14. On every list of ranks whose triplets have valid row and column lids:
if the source field is the constant `c` on every rank and, for every target DOF
of every rank, the weights contributing to it from all ranks sum to 1, then the
forward remap is `c` at every target DOF. The contributions that several ranks
send for one target row are added by `unpack`. -/
theorem remap_forward_of_constant (world : List (CoarseningRemapper × List ℚ)) (c : ℚ)
    (hc : ∀ x ∈ world, ∀ v ∈ x.2, v = c)
    (hv : ∀ x ∈ world, ∀ tr ∈ x.1.triplets,
      tr.1.1 < x.1.ov_tgt_num_dofs ∧ tr.1.2 < x.2.length)
    (hw : ∀ x ∈ world, ∀ t, t < x.1.tgt_num_dofs →
      (contributing_weights (world.map fun x => x.1) x.1 t).sum = 1) :
    remap_forward world = world.map fun x => List.replicate x.1.tgt_num_dofs c :=
  remap_forward_const world c hc hv hw

/-- C14, at a concrete input: two ranks that both contribute a partial sum to
each of the two target DOFs; the constant 3 is remapped to 3. -/
theorem remap_forward_of_constant_witness :
    remap_forward [(rank0, [3, 3]), (rank1, [3, 3])] = [[3], [3]] ∧
    contributing_weights [rank0, rank1] rank0 0 = [1 / 2, 1 / 2] ∧
    contributing_weights [rank0, rank1] rank1 0 = [1 / 4, 1 / 4, 1 / 2] :=
  ⟨remap_forward_of_constant [(rank0, [3, 3]), (rank1, [3, 3])] 3
    (by simp)
    (by decide)
    (by
      intro x hx t ht
      simp only [List.mem_cons, List.mem_singleton, List.not_mem_nil, or_false] at hx
      rcases hx with rfl | rfl
      · have : t = 0 := by simp [rank0] at ht; omega
        subst this
        simp [contributing_weights, lids_of_pid, CoarseningRemapper.triplets, rank0, rank1]
        norm_num
      · have : t = 0 := by simp [rank1] at ht; omega
        subst this
        simp [contributing_weights, lids_of_pid, CoarseningRemapper.triplets, rank0, rank1]
        norm_num),
   by simp [contributing_weights, lids_of_pid, CoarseningRemapper.triplets, rank0, rank1],
   by simp [contributing_weights, lids_of_pid, CoarseningRemapper.triplets, rank0, rank1]⟩

/-- C19, the code at a failing input. Two layouts with the same tags (hence the
same layout type, whatever `get_layout_type` is), the same rank and extents
(4, 2, 6) and (3, 3, 4): `compatible_layouts` returns true (12 entries per
leading index in both) although dimensions 1 and 2 differ. -/
theorem compatible_layouts_accepts_different_sizes :
    (∀ (get_layout_type : List FieldTag → String),
      CoarseningRemapper.compatible_layouts get_layout_type layout_4x2x6 layout_3x3x4 = true) ∧
    layout_4x2x6.rank = layout_3x3x4.rank ∧
    layout_4x2x6.dim 1 = 2 ∧ layout_3x3x4.dim 1 = 3 ∧
    layout_4x2x6.dim 2 = 6 ∧ layout_3x3x4.dim 2 = 4 := by
  refine ⟨?_, by decide, by decide, by decide, by decide, by decide⟩
  intro glt
  rw [compatible_layouts_eq_true]
  exact ⟨rfl, by decide⟩

namespace control

/-! ## Collaborator calls that return normally -/

theorem call_apply_ok (c : Call) (ext : Externals) (s : AtmosphereDriver)
    (h : ext.ok s.calls c = true) :
    Exec.call c ext s = (Except.ok (), { s with calls := s.calls ++ [c] }) := by
  simp [Exec.call, h]

theorem forEach_call_ok {α : Type} (xs : List α) (c : α → Call) (ext : Externals)
    (hok : ∀ tr c, ext.ok tr c = true) (s : AtmosphereDriver) :
    Exec.forEach xs (fun x => Exec.call (c x)) ext s =
      (Except.ok (), { s with calls := s.calls ++ xs.map c }) := by
  induction xs generalizing s with
  | nil => simp [Exec.forEach, Exec.ret]
  | cons x rest ih =>
    unfold Exec.forEach
    simp only [Exec.andThen, call_apply_ok _ _ _ (hok _ _), ih]
    simp

/-! ## The vector branch of `initialize_one_field` -/

theorem vector_field_initialized (ext : Externals) (s : AtmosphereDriver)
    (name : String) (ic_pl : ParameterList) (repo : FieldRepository) (gm : GridsManager)
    (grid : String) (fid : FieldIdentifier) (idim : Nat) (v : List ℚ)
    (hrepo : s.m_field_repo = some repo) (hgm : s.m_grids_manager = some gm)
    (hgrid : gm.reference_grid = some grid) (hfid : repo.get_fid name grid = some fid)
    (hvec : fid.layout.vector_dim = some idim) (hv : ic_pl.get_reals name = some v)
    (hok : ∀ tr c, ext.ok tr c = true) (hlen : v.length = fid.layout.dim idim) :
    initialize_one_field name ic_pl ext s =
      (Except.ok (), { s with calls := s.calls ++ [Call.repo_get_field_on_grid name grid] ++
        (List.range (fid.layout.dim idim)).map fun comp =>
          Call.field_set_value name grid (some comp) (v.getD comp 0) }) := by
  unfold initialize_one_field
  simp only [bind_apply, pure_apply, Exec.get, Exec.deref, Exec.ret, Exec.param, hrepo, hgm,
    hgrid, hfid, hvec, hv, call_apply_ok _ _ _ (hok _ _), FieldLayout.is_vector_layout,
    Option.isSome_some, if_true, hlen, forEach_call_ok _ _ _ hok]

theorem vector_field_rejected (ext : Externals) (s : AtmosphereDriver)
    (name : String) (ic_pl : ParameterList) (repo : FieldRepository) (gm : GridsManager)
    (grid : String) (fid : FieldIdentifier) (idim : Nat) (v : List ℚ)
    (hrepo : s.m_field_repo = some repo) (hgm : s.m_grids_manager = some gm)
    (hgrid : gm.reference_grid = some grid) (hfid : repo.get_fid name grid = some fid)
    (hvec : fid.layout.vector_dim = some idim) (hv : ic_pl.get_reals name = some v)
    (hok : ∀ tr c, ext.ok tr c = true) (hlen : v.length ≠ fid.layout.dim idim) :
    initialize_one_field name ic_pl ext s =
      (Except.error (ADError.wrong_dimension name (fid.layout.dim idim) v.length),
        { s with calls := s.calls ++ [Call.repo_get_field_on_grid name grid] }) := by
  unfold initialize_one_field
  simp only [bind_apply, pure_apply, Exec.get, Exec.deref, Exec.ret, Exec.param, hrepo, hgm,
    hgrid, hfid, hvec, hv, call_apply_ok _ _ _ (hok _ _), FieldLayout.is_vector_layout,
    Option.isSome_some, if_true, if_neg hlen, Exec.fail]

/-! ## Symbolic execution of an operation -/

theorem bind_assoc {α β γ : Type} (m : Exec α) (f : α → Exec β) (g : β → Exec γ) :
    (m >>= f) >>= g = m >>= fun a => f a >>= g := by
  funext ext s
  simp only [bind_apply]
  cases h : m ext s with
  | mk r s1 => cases r <;> rfl

theorem ite_bind {α β : Type} (c : Prop) [Decidable c] (a b : Exec α) (f : α → Exec β) :
    (if c then a else b) >>= f = if c then a >>= f else b >>= f := by
  split <;> rfl

theorem pure_bind_apply {α β : Type} (a : α) (f : α → Exec β) (ext : Externals)
    (s : AtmosphereDriver) : ((pure a : Exec α) >>= f) ext s = f a ext s := rfl

theorem fail_bind_apply {α β : Type} (e : ADError) (f : α → Exec β) (ext : Externals)
    (s : AtmosphereDriver) :
    ((Exec.fail e : Exec α) >>= f) ext s = (Except.error e, s) := rfl

theorem get_bind_apply {β : Type} (f : AtmosphereDriver → Exec β) (ext : Externals)
    (s : AtmosphereDriver) : (Exec.get >>= f) ext s = f s ext s := rfl

theorem externals_bind_apply {β : Type} (f : Externals → Exec β) (ext : Externals)
    (s : AtmosphereDriver) : (Exec.externals >>= f) ext s = f ext ext s := rfl

theorem modify_bind_apply {β : Type} (g : AtmosphereDriver → AtmosphereDriver)
    (f : Unit → Exec β) (ext : Externals) (s : AtmosphereDriver) :
    (Exec.modify g >>= f) ext s = f () ext (g s) := rfl

theorem call_apply (c : Call) (ext : Externals) (s : AtmosphereDriver) :
    Exec.call c ext s =
      if ext.ok s.calls c = true then (Except.ok (), { s with calls := s.calls ++ [c] })
      else (Except.error (ADError.external c), s) := rfl

theorem call_bind_apply {β : Type} (c : Call) (f : Unit → Exec β) (ext : Externals)
    (s : AtmosphereDriver) :
    (Exec.call c >>= f) ext s =
      if ext.ok s.calls c = true then f () ext { s with calls := s.calls ++ [c] }
      else (Except.error (ADError.external c), s) := by
  by_cases h : ext.ok s.calls c = true <;> simp [bind_apply, call_apply, h]

theorem deref_bind_apply {α β : Type} (p : Option α) (f : α → Exec β) (ext : Externals)
    (s : AtmosphereDriver) :
    (Exec.deref p >>= f) ext s =
      match p with
      | some a => f a ext s
      | none => (Except.error ADError.null_pointer, s) := by
  cases p <;> rfl

theorem param_bind_apply {α β : Type} (name : String) (p : Option α) (f : α → Exec β)
    (ext : Externals) (s : AtmosphereDriver) :
    (Exec.param name p >>= f) ext s =
      match p with
      | some a => f a ext s
      | none => (Except.error (ADError.parameter name), s) := by
  cases p <;> rfl

theorem ite_error_eq_ok {β : Type} (c : Prop) [Decidable c]
    (x : Except ADError β × AtmosphereDriver) (e : ADError) (s s' : AtmosphereDriver) (b : β) :
    (if c then x else (Except.error e, s)) = (Except.ok b, s') ↔ c ∧ x = (Except.ok b, s') := by
  split <;> simp [*]


/-! ## The state after a completed operation -/

theorem finalize_ok_state (ext : Externals) (s s' : AtmosphereDriver)
    (h : finalize ext s = (Except.ok (), s')) :
    s' = { s with
      calls := s.calls ++ [Call.pg_finalize, Call.om_finalize, Call.repo_clean_up]
        ++ (if ext.scream_debug then [Call.bkp_repo_clean_up] else [])
        ++ (if s.pio_inited then [Call.pio_finalize] else []) } := by
  unfold finalize deref_field_repo at h
  cases hpg : s.m_atm_process_group <;> cases hrepo : s.m_field_repo <;>
    cases hd : ext.scream_debug <;> cases hp : s.pio_inited <;>
    simp only [bind_assoc, ite_bind, pure_bind_apply, fail_bind_apply, get_bind_apply,
      externals_bind_apply, modify_bind_apply, call_bind_apply, deref_bind_apply, ite_apply,
      pure_apply, call_apply, Exec.modify, ite_error_eq_ok, hpg, hrepo, hd, hp,
      Option.isSome_some, Option.isSome_none, if_true, if_false, Bool.false_eq_true,
      Prod.mk.injEq, false_and, and_false, reduceCtorEq, true_and] at h
  all_goals first
    | exact h.elim
    | (obtain ⟨-, -, -, rfl⟩ := h; simp [hpg, hrepo])
    | (obtain ⟨-, -, -, -, rfl⟩ := h; simp [hpg, hrepo])
    | (obtain ⟨-, -, -, -, -, rfl⟩ := h; simp [hpg, hrepo])

theorem forEach_call_eq_ok {α : Type} (xs : List α) (c : α → Call) (u : Unit)
    (ext : Externals) (s s' : AtmosphereDriver)
    (h : Exec.forEach xs (fun x => Exec.call (c x)) ext s = (Except.ok u, s')) :
    s' = { s with calls := s.calls ++ xs.map c } := by
  induction xs generalizing s with
  | nil =>
    simp only [Exec.forEach, Exec.ret, Prod.mk.injEq] at h
    rw [← h.2]; simp
  | cons x rest ih =>
    unfold Exec.forEach at h
    change (Exec.call (c x) >>= fun _ => Exec.forEach rest fun x => Exec.call (c x)) ext s
      = _ at h
    simp only [call_bind_apply, ite_error_eq_ok] at h
    rw [ih _ h.2]
    simp

theorem initialize_one_field_ok_state (name : String) (ic_pl : ParameterList)
    (ext : Externals) (s s' : AtmosphereDriver) (repo : FieldRepository) (gm : GridsManager)
    (grid : String) (hrepo : s.m_field_repo = some repo) (hgm : s.m_grids_manager = some gm)
    (hgrid : gm.reference_grid = some grid)
    (h : initialize_one_field name ic_pl ext s = (Except.ok (), s')) :
    s' = { s with calls := s.calls ++ one_field_calls repo grid ic_pl name } := by
  unfold initialize_one_field at h
  unfold one_field_calls
  cases hfid : repo.get_fid name grid with
  | none =>
    simp only [bind_assoc, ite_bind, pure_bind_apply, fail_bind_apply, get_bind_apply,
      deref_bind_apply, call_bind_apply, hrepo, hgm, hgrid, hfid, ite_error_eq_ok,
      Prod.mk.injEq, reduceCtorEq, false_and, and_false] at h
  | some fid =>
    cases hvec : fid.layout.vector_dim with
    | none =>
      cases hval : ic_pl.get_real name <;>
      simp only [bind_assoc, ite_bind, pure_bind_apply, fail_bind_apply, get_bind_apply,
        deref_bind_apply, param_bind_apply, call_bind_apply, call_apply, hrepo, hgm, hgrid, hfid,
        hvec, hval, ite_error_eq_ok, FieldLayout.is_vector_layout, Option.isSome_none,
        Bool.false_eq_true, if_false, Prod.mk.injEq, reduceCtorEq, false_and, and_false,
        true_and] at h
      obtain ⟨-, -, rfl⟩ := h
      simp [hgm, hrepo, hvec]
    | some idim =>
      cases hval : ic_pl.get_reals name with
      | none =>
        simp only [bind_assoc, ite_bind, pure_bind_apply, fail_bind_apply, get_bind_apply,
          deref_bind_apply, param_bind_apply, call_bind_apply, hrepo, hgm, hgrid, hfid,
          hvec, hval, ite_error_eq_ok, FieldLayout.is_vector_layout, Option.isSome_some,
          if_true, Prod.mk.injEq, reduceCtorEq, false_and, and_false] at h
      | some v =>
        simp only [bind_assoc, ite_bind, pure_bind_apply, fail_bind_apply, get_bind_apply,
          deref_bind_apply, param_bind_apply, call_bind_apply, hrepo, hgm, hgrid, hfid,
          hvec, hval, ite_error_eq_ok, FieldLayout.is_vector_layout, Option.isSome_some,
          if_true, ite_apply] at h
        obtain ⟨-, h⟩ := h
        split_ifs at h with hlen
        · simp only [pure_bind_apply] at h
          have := forEach_call_eq_ok _ _ _ _ _ _ h
          rw [this]
          simp [hgm, hrepo, hvec, hval]
        · simp only [fail_bind_apply, Prod.mk.injEq, reduceCtorEq, false_and] at h

theorem initialize_fields_loop_ok_state (ic_pl : ParameterList) (t0 : ℚ) (ext : Externals)
    (repo : FieldRepository) (gm : GridsManager) (grid : String) (hgrid : gm.reference_grid = some grid)
    (names : List String) :
    ∀ (ifield : Nat) (ic_fields : List (String × ParamValue)) (s s' : AtmosphereDriver)
      (n : Nat) (keys : List (String × ParamValue)),
      s.m_field_repo = some repo → s.m_grids_manager = some gm →
      initialize_fields_loop ic_pl t0 names ifield ic_fields ext s = (Except.ok (n, keys), s') →
      s' = { s with calls := s.calls ++ loop_calls repo grid ic_pl t0 names } ∧
        n = ifield + (fields_from_file ic_pl names).length ∧
        keys = ic_fields ++ ic_field_keys ifield (fields_from_file ic_pl names) := by
  induction names with
  | nil =>
    intro ifield ic_fields s s' n keys _ _ h
    simp only [initialize_fields_loop, pure_apply, Prod.mk.injEq, Except.ok.injEq] at h
    obtain ⟨⟨rfl, rfl⟩, rfl⟩ := h
    simp [loop_calls, fields_from_file, ic_field_keys]
  | cons name rest ih =>
    intro ifield ic_fields s s' n keys hrepo hgm h
    unfold initialize_fields_loop deref_field_repo at h
    cases hp : ic_pl.isParameter name
    · simp only [bind_assoc, ite_bind, pure_bind_apply, fail_bind_apply, get_bind_apply,
        call_bind_apply, hrepo, Option.isSome_some, if_true, ite_error_eq_ok, hp, if_false,
        Bool.false_eq_true] at h
      obtain ⟨-, -, h⟩ := h
      obtain ⟨h1, h2, h3⟩ := ih _ _ _ _ _ _ (by simp [hrepo]) (by simp [hgm]) h
      clear h
      subst h1 h2 h3
      simp [loop_calls, fields_from_file, hp, ic_field_keys, hrepo]
      omega
    · simp only [bind_assoc, ite_bind, pure_bind_apply, fail_bind_apply, get_bind_apply,
        call_bind_apply, hrepo, Option.isSome_some, if_true, ite_error_eq_ok, hp] at h
      obtain ⟨-, h⟩ := h
      rw [bind_eq_ok] at h
      obtain ⟨u, s1, h1, h⟩ := h
      have hs1 := initialize_one_field_ok_state name ic_pl ext _ s1 repo gm grid
        (by simp) (by simp [hgm]) hgrid h1
      clear h1
      subst hs1
      simp only [call_bind_apply, ite_error_eq_ok] at h
      obtain ⟨-, h⟩ := h
      obtain ⟨h1, h2, h3⟩ := ih _ _ _ _ _ _ (by simp) (by simp [hgm]) h
      clear h
      subst h1 h2 h3
      simp [loop_calls, fields_from_file, hp, hrepo]

theorem initialize_fields_ok_state (t0 : ℚ) (ext : Externals) (s s' : AtmosphereDriver)
    (repo : FieldRepository) (hrepo : s.m_field_repo = some repo)
    (h : initialize_fields t0 ext s = (Except.ok (), s')) :
    ∃ lvl pg gm grid,
      (s.m_atm_params.sublist "Debug").get_int_or "Atmosphere DAG Verbosity Level" (-1)
        = some lvl ∧
      s.m_atm_process_group = some pg ∧ s.m_grids_manager = some gm ∧
      gm.reference_grid = some grid ∧
      (0 < (fields_from_file (s.m_atm_params.sublist "Initial Conditions")
          pg.required_fields).length →
        ((s.m_atm_params.sublist "Initial Conditions").get_string
          "Initial Conditions File").isSome = true) ∧
      s'.calls = s.calls ++ dag_calls s lvl
        ++ loop_calls repo grid (s.m_atm_params.sublist "Initial Conditions") t0
            pg.required_fields
        ++ reader_calls s grid (s.m_atm_params.sublist "Initial Conditions")
            (fields_from_file (s.m_atm_params.sublist "Initial Conditions")
              pg.required_fields) := by
  unfold initialize_fields at h
  cases hlvl : (s.m_atm_params.sublist "Debug").get_int_or "Atmosphere DAG Verbosity Level" (-1)
    with
  | none =>
    simp only [bind_assoc, get_bind_apply, param_bind_apply, hlvl, Prod.mk.injEq, reduceCtorEq,
      false_and] at h
  | some lvl =>
    cases hpg : s.m_atm_process_group with
    | none =>
      by_cases hpos : lvl > 0 <;>
      simp only [bind_assoc, ite_bind, get_bind_apply, param_bind_apply, deref_bind_apply,
        pure_bind_apply, hlvl, hpg, hpos, if_true, if_false, Prod.mk.injEq, reduceCtorEq,
        false_and] at h
    | some pg =>
      cases hgm : s.m_grids_manager with
      | none =>
        by_cases hpos : lvl > 0 <;> cases hsc : s.m_surface_coupling <;>
        simp only [bind_assoc, ite_bind, get_bind_apply, param_bind_apply, deref_bind_apply,
          pure_bind_apply, call_bind_apply, ite_error_eq_ok,
          hlvl, hpg, hgm, hsc, hpos, if_true, if_false, Prod.mk.injEq, reduceCtorEq,
          false_and, and_false] at h
      | some gm =>
        cases hgrid : gm.reference_grid with
        | none =>
          by_cases hpos : lvl > 0 <;> cases hsc : s.m_surface_coupling <;>
          simp only [bind_assoc, ite_bind, get_bind_apply, param_bind_apply, deref_bind_apply,
            pure_bind_apply, call_bind_apply, ite_error_eq_ok,
            hlvl, hpg, hgm, hgrid, hsc, hpos, if_true, if_false, Prod.mk.injEq, reduceCtorEq,
            false_and, and_false] at h
        | some grid =>
          refine ⟨lvl, pg, gm, grid, rfl, rfl, rfl, hgrid, ?_⟩
          by_cases hpos : lvl > 0 <;> cases hsc : s.m_surface_coupling <;>
          simp only [bind_assoc, ite_bind, get_bind_apply, param_bind_apply, deref_bind_apply,
            pure_bind_apply, call_bind_apply, ite_error_eq_ok,
            hlvl, hpg, hgm, hgrid, hsc, hpos, if_true, if_false, Prod.mk.injEq, reduceCtorEq,
            false_and, and_false] at h
          all_goals
            revert h
            try simp only [and_imp]
            intros
            rename_i h
            rw [bind_eq_ok] at h
            obtain ⟨⟨n, keys⟩, s2, hloop, h⟩ := h
            obtain ⟨h1, h2, h3⟩ := initialize_fields_loop_ok_state _ t0 ext repo gm grid hgrid _ _ _
              _ _ _ _ (by simp [hrepo]) (by simp [hgm]) hloop
            clear hloop
            subst h1 h2 h3
            simp only [Nat.zero_add, List.nil_append] at h
            cases hfile : (s.m_atm_params.sublist "Initial Conditions").get_string
                "Initial Conditions File" <;>
              cases hpio : s.pio_inited <;>
              by_cases hcomm : s.m_atm_comm = s.pio_comm <;>
              by_cases hN : (fields_from_file (s.m_atm_params.sublist "Initial Conditions")
                pg.required_fields).length > 0 <;>
              simp only [bind_assoc, ite_bind, get_bind_apply, param_bind_apply, deref_bind_apply,
                pure_bind_apply, fail_bind_apply, call_bind_apply, modify_bind_apply,
                ite_error_eq_ok, or_status, Exec.modify, ite_apply,
                hfile, hpio, hcomm, hN, if_true, if_false, Prod.mk.injEq, reduceCtorEq,
                false_and, and_false, Bool.not_true, Bool.not_false, Bool.false_eq_true,
                true_and] at h
            all_goals
              first
              | exact h.elim
              | (revert h
                 try simp only [and_imp]
                 intros
                 subst_vars
                 simp [dag_calls, reader_calls, hpos, hsc, hpio, hfile, hN, ic_reader_params, hcomm])

/-! ## Which errors an operation can stop with -/

theorem fo_pure {α : Type} (Q : ADError → Prop) (a : α) : FailsOnly Q (pure a : Exec α) :=
  ⟨fun _ _ _ h => by simp [pure_apply] at h⟩

theorem fo_fail {α : Type} {Q : ADError → Prop} {e : ADError} (he : Q e) :
    FailsOnly Q (Exec.fail e : Exec α) :=
  ⟨fun _ _ e1 h => by
    simp only [Exec.fail, Except.error.injEq] at h
    rw [← h]; exact he⟩

theorem fo_bind {α β : Type} {Q : ADError → Prop} {m : Exec α} {f : α → Exec β}
    (hm : FailsOnly Q m) (hf : ∀ a, FailsOnly Q (f a)) : FailsOnly Q (m >>= f) := by
  constructor
  intro ext s e h
  rw [bind_apply] at h
  have h1 := hm.err ext s
  cases hr : m ext s with
  | mk r s1 =>
    rw [hr] at h h1
    cases r with
    | error e1 =>
      simp only [Except.error.injEq] at h
      exact h1 e (by rw [h])
    | ok a => exact (hf a).err ext s1 e h

theorem fo_ite {α : Type} {Q : ADError → Prop} {c : Prop} [Decidable c] {a b : Exec α}
    (ha : FailsOnly Q a) (hb : FailsOnly Q b) : FailsOnly Q (if c then a else b) := by
  split
  · exact ha
  · exact hb

theorem fo_get (Q : ADError → Prop) : FailsOnly Q Exec.get :=
  ⟨fun _ _ _ h => by simp [Exec.get] at h⟩

theorem fo_call {Q : ADError → Prop} {c : Call} (hc : Q (ADError.external c)) :
    FailsOnly Q (Exec.call c) := by
  constructor
  intro ext s e h
  unfold Exec.call at h
  split at h
  · simp at h
  · simp only [Except.error.injEq] at h
    rw [← h]; exact hc

theorem fo_deref {α : Type} {Q : ADError → Prop} (hq : Q ADError.null_pointer) (p : Option α) :
    FailsOnly Q (Exec.deref p) := by
  cases p
  · exact fo_fail hq
  · exact ⟨fun _ _ _ h => by simp [Exec.deref, Exec.ret] at h⟩

theorem fo_param {α : Type} {Q : ADError → Prop} {name : String}
    (hq : Q (ADError.parameter name)) (p : Option α) : FailsOnly Q (Exec.param name p) := by
  cases p
  · exact fo_fail hq
  · exact ⟨fun _ _ _ h => by simp [Exec.param, Exec.ret] at h⟩

theorem fo_forEach {α : Type} {Q : ADError → Prop} (xs : List α) {body : α → Exec Unit}
    (hb : ∀ x, FailsOnly Q (body x)) : FailsOnly Q (Exec.forEach xs body) := by
  induction xs with
  | nil => exact ⟨fun _ _ _ h => by simp [Exec.forEach, Exec.ret] at h⟩
  | cons x rest ih =>
    unfold Exec.forEach
    exact fo_bind (hb x) fun _ => ih

theorem fo_initialize_one_field (name : String) (ic_pl : ParameterList) :
    FailsOnly (fun e => e.is_missing_input = false) (initialize_one_field name ic_pl) := by
  unfold initialize_one_field
  repeat' first
    | with_reducible exact fo_get _
    | with_reducible exact fo_pure _ _
    | exact fo_call rfl
    | (refine fo_deref ?_ _; exact rfl)
    | (refine fo_param ?_ _; exact rfl)
    | exact fo_fail rfl
    | with_reducible apply fo_forEach
    | with_reducible apply fo_bind
    | with_reducible apply fo_ite
    | intro _
    | split

theorem fo_initialize_fields_loop (ic_pl : ParameterList) (t0 : ℚ) (names : List String) :
    ∀ ifield ic_fields, FailsOnly (fun e => e.is_missing_input = false)
      (initialize_fields_loop ic_pl t0 names ifield ic_fields) := by
  induction names with
  | nil => intro _ _; exact fo_pure _ _
  | cons name rest ih =>
    intro ifield ic_fields
    unfold initialize_fields_loop deref_field_repo
    repeat' first
      | with_reducible exact fo_get _
      | with_reducible exact fo_pure _ _
      | with_reducible exact ih _ _
      | with_reducible exact fo_initialize_one_field _ _
      | exact fo_call rfl
      | exact fo_fail rfl
      | with_reducible apply fo_bind
      | with_reducible apply fo_ite
      | intro _

theorem bind_eq_error {α β : Type} (m : Exec α) (f : α → Exec β) (ext : Externals)
    (s s' : AtmosphereDriver) (e : ADError) :
    (m >>= f) ext s = (Except.error e, s') ↔
      m ext s = (Except.error e, s') ∨
        ∃ a s1, m ext s = (Except.ok a, s1) ∧ f a ext s1 = (Except.error e, s') := by
  rw [bind_apply]
  cases hm : m ext s with
  | mk r s1 =>
    cases r with
    | error e1 => simp
    | ok a =>
      constructor
      · intro h
        exact Or.inr ⟨a, s1, rfl, h⟩
      · rintro (h | ⟨a1, s2, h1, h2⟩)
        · simp at h
        · cases h1
          exact h2

theorem ite_error_eq_error {β : Type} (c : Prop) [Decidable c]
    (x : Except ADError β × AtmosphereDriver) (e0 e : ADError) (s s' : AtmosphereDriver) :
    (if c then x else (Except.error e0, s)) = (Except.error e, s') ↔
      (c ∧ x = (Except.error e, s')) ∨ (¬ c ∧ e0 = e ∧ s = s') := by
  split <;> simp [*]

theorem initialize_fields_missing_input_state (t0 : ℚ) (ext : Externals)
    (s s' : AtmosphereDriver) (repo : FieldRepository) (hrepo : s.m_field_repo = some repo)
    (h : initialize_fields t0 ext s
      = (Except.error (ADError.external Call.ic_reader_pull_input), s')) :
    ∃ lvl pg gm grid filename,
      (s.m_atm_params.sublist "Debug").get_int_or "Atmosphere DAG Verbosity Level" (-1)
        = some lvl ∧
      s.m_atm_process_group = some pg ∧ s.m_grids_manager = some gm ∧
      gm.reference_grid = some grid ∧
      s'.calls = s.calls ++ dag_calls s lvl
        ++ loop_calls repo grid (s.m_atm_params.sublist "Initial Conditions") t0
            pg.required_fields
        ++ (if s.pio_inited then [] else [Call.pio_init s.m_atm_comm])
        ++ [Call.ic_reader_create s.m_atm_comm (ic_reader_params grid filename
            (fields_from_file (s.m_atm_params.sublist "Initial Conditions")
              pg.required_fields))] := by
  unfold initialize_fields at h
  cases hlvl : (s.m_atm_params.sublist "Debug").get_int_or "Atmosphere DAG Verbosity Level" (-1)
    with
  | none =>
    simp only [bind_assoc, get_bind_apply, param_bind_apply, hlvl, Prod.mk.injEq, reduceCtorEq,
      Except.error.injEq, false_and] at h
  | some lvl =>
    cases hpg : s.m_atm_process_group with
    | none =>
      by_cases hpos : lvl > 0 <;>
      simp only [bind_assoc, ite_bind, get_bind_apply, param_bind_apply, deref_bind_apply,
        pure_bind_apply, hlvl, hpg, hpos, if_true, if_false, Prod.mk.injEq, reduceCtorEq,
        Except.error.injEq, false_and] at h
    | some pg =>
      cases hgm : s.m_grids_manager with
      | none =>
        by_cases hpos : lvl > 0 <;> cases hsc : s.m_surface_coupling <;>
        simp only [bind_assoc, ite_bind, get_bind_apply, param_bind_apply, deref_bind_apply,
          pure_bind_apply, call_bind_apply, ite_error_eq_error,
          hlvl, hpg, hgm, hsc, hpos, if_true, if_false, Prod.mk.injEq, reduceCtorEq,
          Except.error.injEq, ADError.external.injEq,
          false_and, and_false, or_false, false_or] at h
      | some gm =>
        cases hgrid : gm.reference_grid with
        | none =>
          by_cases hpos : lvl > 0 <;> cases hsc : s.m_surface_coupling <;>
          simp only [bind_assoc, ite_bind, get_bind_apply, param_bind_apply, deref_bind_apply,
            pure_bind_apply, call_bind_apply, ite_error_eq_error,
            hlvl, hpg, hgm, hgrid, hsc, hpos, if_true, if_false, Prod.mk.injEq, reduceCtorEq,
            Except.error.injEq, ADError.external.injEq,
            false_and, and_false, or_false, false_or] at h
        | some grid =>
          by_cases hpos : lvl > 0 <;> cases hsc : s.m_surface_coupling <;>
          simp only [bind_assoc, ite_bind, get_bind_apply, param_bind_apply, deref_bind_apply,
            pure_bind_apply, call_bind_apply, ite_error_eq_error,
            hlvl, hpg, hgm, hgrid, hsc, hpos, if_true, if_false, Prod.mk.injEq, reduceCtorEq,
            Except.error.injEq, ADError.external.injEq,
            false_and, and_false, or_false, false_or] at h
          all_goals
            revert h
            try simp only [and_imp]
            intros
            rename_i h
            rw [bind_eq_error] at h
            rcases h with h | ⟨⟨n, keys⟩, s2, hloop, h⟩
            · have := (fo_initialize_fields_loop _ t0 _ _ _).err ext _ _ (by rw [h])
              simp [ADError.is_missing_input] at this
            obtain ⟨h1, h2, h3⟩ := initialize_fields_loop_ok_state _ t0 ext repo gm grid hgrid _ _ _
              _ _ _ _ (by simp [hrepo]) (by simp [hgm]) hloop
            clear hloop
            subst h1 h2 h3
            simp only [Nat.zero_add, List.nil_append] at h
            cases hfile : (s.m_atm_params.sublist "Initial Conditions").get_string
                "Initial Conditions File" with
            | none =>
              by_cases hN : (fields_from_file (s.m_atm_params.sublist "Initial Conditions")
                pg.required_fields).length > 0 <;>
              simp only [bind_assoc, ite_bind, get_bind_apply, param_bind_apply,
                pure_bind_apply, modify_bind_apply, or_status, Exec.modify, ite_apply,
                hfile, hN, if_true, if_false, Prod.mk.injEq, Except.error.injEq, reduceCtorEq,
                false_and] at h
            | some filename =>
              refine ⟨lvl, pg, gm, grid, filename, rfl, rfl, rfl, hgrid, ?_⟩
              cases hpio : s.pio_inited <;>
                by_cases hcomm : s.m_atm_comm = s.pio_comm <;>
                by_cases hN : (fields_from_file (s.m_atm_params.sublist "Initial Conditions")
                  pg.required_fields).length > 0 <;>
                simp only [bind_assoc, ite_bind, get_bind_apply, param_bind_apply,
                  deref_bind_apply, pure_bind_apply, fail_bind_apply, call_bind_apply,
                  modify_bind_apply, ite_error_eq_error, or_status, Exec.modify, ite_apply,
                  hfile, hpio, hN, hcomm, if_true, if_false, Prod.mk.injEq, reduceCtorEq,
                  Except.error.injEq, ADError.external.injEq,
                  false_and, and_false, or_false, false_or, Bool.not_true, Bool.not_false,
                  Bool.false_eq_true, true_and] at h
              all_goals
                first
                | exact h.elim
                | (revert h
                   try simp only [and_imp]
                   intros
                   subst_vars
                   simp [dag_calls, hpos, hsc, hpio, hfile, hN, ic_reader_params, hcomm])

/-! ## The calls of `initialize_fields` -/

theorem result_eq {α β : Type} (x : α × β) (a : α) (h : x.1 = a) : x = (a, x.2) := by
  cases x
  cases h
  rfl

theorem ic_field_keys_getElem? (names : List String) :
    ∀ (start i : Nat), (ic_field_keys start names)[i]? =
      names[i]?.map fun name => ("field" ++ toString (start + i + 1), ParamValue.str name) := by
  induction names with
  | nil => intro start i; simp [ic_field_keys]
  | cons name rest ih =>
    intro start i
    cases i with
    | zero => simp [ic_field_keys]
    | succ n =>
      simp only [ic_field_keys, List.getElem?_cons_succ, ih]
      have : start + 1 + n + 1 = start + (n + 1) + 1 := by omega
      rw [this]

theorem one_field_calls_not_dag (repo : FieldRepository) (grid : String)
    (ic_pl : ParameterList) (name : String) :
    ∀ c ∈ one_field_calls repo grid ic_pl name, c.is_dag_write = false := by
  intro c hc
  unfold one_field_calls at hc
  rcases List.mem_cons.mp hc with rfl | hc
  · rfl
  · split at hc
    · simp at hc
    · split at hc
      · obtain ⟨i, -, rfl⟩ := List.mem_map.mp hc
        rfl
      · split at hc
        · rw [List.mem_singleton] at hc
          subst hc
          rfl
        · simp at hc

theorem loop_calls_not_dag (repo : FieldRepository) (grid : String) (ic_pl : ParameterList)
    (t0 : ℚ) (names : List String) :
    ∀ c ∈ loop_calls repo grid ic_pl t0 names, c.is_dag_write = false := by
  intro c hc
  unfold loop_calls at hc
  obtain ⟨name, -, hc⟩ := List.mem_flatMap.mp hc
  rcases List.mem_append.mp hc with hc | hc
  · rcases List.mem_append.mp hc with hc | hc
    · rw [List.mem_singleton] at hc
      subst hc
      rfl
    · split at hc
      · exact one_field_calls_not_dag _ _ _ _ c hc
      · simp at hc
  · rw [List.mem_singleton] at hc
    subst hc
    rfl

theorem missing_input_dag (t0 : ℚ) (ext : Externals) (s s' : AtmosphereDriver)
    (repo : FieldRepository) (hrepo : s.m_field_repo = some repo)
    (h : initialize_fields t0 ext s
      = (Except.error (ADError.external Call.ic_reader_pull_input), s')) :
    ∃ lvl new,
      (s.m_atm_params.sublist "Debug").get_int_or "Atmosphere DAG Verbosity Level" (-1)
        = some lvl ∧
      s'.calls = s.calls ++ new ∧
      (0 < lvl → Call.dag_write "scream_atm_dag.dot" lvl ∈ new) ∧
      (lvl ≤ 0 → ∀ c ∈ new, c.is_dag_write = false) := by
  obtain ⟨lvl, pg, gm, grid, filename, hlvl, -, -, -, hcalls⟩ :=
    initialize_fields_missing_input_state t0 ext s s' repo hrepo h
  refine ⟨lvl, dag_calls s lvl
    ++ (loop_calls repo grid (s.m_atm_params.sublist "Initial Conditions") t0 pg.required_fields
    ++ ((if s.pio_inited then [] else [Call.pio_init s.m_atm_comm])
    ++ [Call.ic_reader_create s.m_atm_comm (ic_reader_params grid filename
          (fields_from_file (s.m_atm_params.sublist "Initial Conditions")
            pg.required_fields))])), hlvl, ?_, ?_, ?_⟩
  · rw [hcalls]
    simp only [List.append_assoc]
  · intro hpos
    have hmax : max lvl 0 = lvl := max_eq_left (le_of_lt hpos)
    simp [dag_calls, hpos, hmax]
  · intro hle c hc
    have hnot : ¬ lvl > 0 := not_lt.mpr hle
    simp only [dag_calls, hnot, if_false, List.nil_append] at hc
    rcases List.mem_append.mp hc with hc | hc
    · exact loop_calls_not_dag _ _ _ _ _ c hc
    · rcases List.mem_append.mp hc with hc | hc
      · split at hc
        · simp at hc
        · rw [List.mem_singleton] at hc
          subst hc
          rfl
      · rw [List.mem_singleton] at hc
        subst hc
        rfl

/-! ## Initial conditions and shutdown -/

/-- C15. For `initialize_one_field` on a vector-layout field whose vector
dimension has extent `n`, with a configured value list `v` and collaborators
that return normally: it succeeds if and only if `length v = n`; on success it
sets component subfield `i` to `v[i]` for every `i` in `0..n-1`, in order, and
nothing else of the driver changes; when `length v ≠ n` it fails with the
wrong-dimension error and no component has been written (the only call made is
the lookup of the field). -/
theorem initialize_one_field_vector (ext : Externals) (s : AtmosphereDriver)
    (repo : FieldRepository) (gm : GridsManager) (grid name : String) (fid : FieldIdentifier)
    (idim : Nat) (ic_pl : ParameterList) (v : List ℚ)
    (hrepo : s.m_field_repo = some repo) (hgm : s.m_grids_manager = some gm)
    (hgrid : gm.reference_grid = some grid) (hfid : repo.get_fid name grid = some fid)
    (hvec : fid.layout.vector_dim = some idim) (hv : ic_pl.get_reals name = some v)
    (hok : ∀ tr c, ext.ok tr c = true) :
    ((initialize_one_field name ic_pl ext s).1 = Except.ok () ↔
      v.length = fid.layout.dim idim) ∧
    (v.length = fid.layout.dim idim →
      initialize_one_field name ic_pl ext s =
        (Except.ok (), { s with calls := s.calls ++ [Call.repo_get_field_on_grid name grid] ++
          (List.range (fid.layout.dim idim)).map fun comp =>
            Call.field_set_value name grid (some comp) (v.getD comp 0) })) ∧
    (v.length ≠ fid.layout.dim idim →
      initialize_one_field name ic_pl ext s =
        (Except.error (ADError.wrong_dimension name (fid.layout.dim idim) v.length),
          { s with calls := s.calls ++ [Call.repo_get_field_on_grid name grid] })) := by
  have hyes := vector_field_initialized ext s name ic_pl repo gm grid fid idim v
    hrepo hgm hgrid hfid hvec hv hok
  have hno := vector_field_rejected ext s name ic_pl repo gm grid fid idim v
    hrepo hgm hgrid hfid hvec hv hok
  refine ⟨?_, hyes, hno⟩
  constructor
  · intro h
    by_contra hne
    rw [hno hne] at h
    simp at h
  · intro h
    rw [hyes h]

/-- C15, at a concrete input: "qv" with three components and the values 0.1,
0.2, 0.3; and with only two values. -/
theorem initialize_one_field_vector_witness :
    initialize_one_field "qv" qv_ic cooperative qv_driver =
      (Except.ok (), { qv_driver with
        calls := qv_driver.calls ++ [Call.repo_get_field_on_grid "qv" "Physics"] ++
          (List.range 3).map fun comp =>
            Call.field_set_value "qv" "Physics" (some comp)
              (([1 / 10, 2 / 10, 3 / 10] : List ℚ).getD comp 0) }) ∧
    initialize_one_field "qv" qv_ic_short cooperative qv_driver =
      (Except.error (ADError.wrong_dimension "qv" 3 2),
        { qv_driver with calls := qv_driver.calls
          ++ [Call.repo_get_field_on_grid "qv" "Physics"] }) :=
  ⟨(initialize_one_field_vector cooperative qv_driver qv_repo { reference_grid := some "Physics" }
      "Physics" "qv" qv_fid 1 qv_ic [1 / 10, 2 / 10, 3 / 10] rfl rfl rfl rfl rfl rfl
      (fun _ _ => rfl)).2.1 rfl,
   (initialize_one_field_vector cooperative qv_driver qv_repo { reference_grid := some "Physics" }
      "Physics" "qv" qv_fid 1 qv_ic_short [1 / 10, 2 / 10] rfl rfl rfl rfl rfl rfl
      (fun _ _ => rfl)).2.2 (by decide)⟩

/-- C16, refuted as stated: with no "Atmosphere DAG Verbosity Level" configured,
`initialize_fields` on a driver whose required field "T" is to be read from the
file fails in the reader's `pull_input` (the input is missing from the file),
and no call has written the dependency graph. -/
theorem missing_input_without_dag :
    (initialize_fields 0 missing_input ic_driver).1
      = Except.error (ADError.external Call.ic_reader_pull_input) ∧
    (initialize_fields 0 missing_input ic_driver).2.calls.filter Call.is_dag_write = [] := by
  decide!

/-- C16, amended. Whenever `initialize_fields` fails because the reader's
`pull_input` fails (a required input is missing from the file), the dependency
graph has been written before the failure when the configured "Atmosphere DAG
Verbosity Level" is greater than 0, and no call has written it when the level is
0 or less, which includes the default -1 of an absent parameter. -/
theorem dag_written_only_when_verbose (t0 : ℚ) (ext : Externals) (s s' : AtmosphereDriver)
    (repo : FieldRepository) (hrepo : s.m_field_repo = some repo)
    (h : initialize_fields t0 ext s
      = (Except.error (ADError.external Call.ic_reader_pull_input), s')) :
    ∃ lvl new,
      (s.m_atm_params.sublist "Debug").get_int_or "Atmosphere DAG Verbosity Level" (-1)
        = some lvl ∧
      s'.calls = s.calls ++ new ∧
      (0 < lvl → Call.dag_write "scream_atm_dag.dot" lvl ∈ new) ∧
      (lvl ≤ 0 → ∀ c ∈ new, c.is_dag_write = false) :=
  missing_input_dag t0 ext s s' repo hrepo h

/-- C16 amended, at a concrete input: the driver `ic_driver` with a reader whose
`pull_input` fails. -/
theorem dag_written_only_when_verbose_witness :
    ∃ lvl new,
      (ic_driver.m_atm_params.sublist "Debug").get_int_or "Atmosphere DAG Verbosity Level" (-1)
        = some lvl ∧
      (initialize_fields 0 missing_input ic_driver).2.calls = ic_driver.calls ++ new ∧
      (0 < lvl → Call.dag_write "scream_atm_dag.dot" lvl ∈ new) ∧
      (lvl ≤ 0 → ∀ c ∈ new, c.is_dag_write = false) :=
  dag_written_only_when_verbose 0 missing_input ic_driver
    (initialize_fields 0 missing_input ic_driver).2 qv_repo rfl (result_eq _ _ (by decide!))

/-- C17, refuted as stated: the I/O subsystem is initialized by someone else
before the driver runs; `initialize_fields` then `finalize` complete, the driver
never calls the init routine, and yet `finalize` calls the shutdown routine: it
is the only call to the I/O subsystem that the driver makes. -/
theorem finalize_shuts_down_foreign_pio :
    ((initialize_fields 0 >>= fun _ => finalize) cooperative foreign_pio_driver).1
      = Except.ok () ∧
    foreign_pio_driver.pio_inited = true ∧
    ((initialize_fields 0 >>= fun _ => finalize) cooperative foreign_pio_driver).2.calls.filter
      Call.is_pio = [Call.pio_finalize] ∧
    (finalize cooperative (initialize_fields 0 cooperative foreign_pio_driver).2).2.calls =
      (initialize_fields 0 cooperative foreign_pio_driver).2.calls
        ++ [Call.pg_finalize, Call.om_finalize, Call.repo_clean_up, Call.pio_finalize] := by
  decide!

/-- C17, amended. A `finalize` that completes calls the shutdown routine of the
external I/O subsystem whenever the subsystem is initialized at that moment,
whoever initialized it: the calls it makes are the finalization of the process
group, of the output manager and of the repository, and then the shutdown
routine if and only if the subsystem was initialized when `finalize` started.
No member of the driver enters the decision but the state of the subsystem. -/
theorem finalize_shuts_down_pio_when_inited (ext : Externals) (s s' : AtmosphereDriver)
    (h : finalize ext s = (Except.ok (), s')) :
    s'.calls = s.calls ++ [Call.pg_finalize, Call.om_finalize, Call.repo_clean_up]
        ++ (if ext.scream_debug then [Call.bkp_repo_clean_up] else [])
        ++ (if s.pio_inited then [Call.pio_finalize] else []) ∧
    (Call.pio_finalize ∈ s'.calls.drop s.calls.length ↔ s.pio_inited = true) := by
  have hs := finalize_ok_state ext s s' h
  have hc : s'.calls = s.calls ++ [Call.pg_finalize, Call.om_finalize, Call.repo_clean_up]
      ++ (if ext.scream_debug then [Call.bkp_repo_clean_up] else [])
      ++ (if s.pio_inited then [Call.pio_finalize] else []) := by
    rw [hs]
  refine ⟨hc, ?_⟩
  rw [hc, List.append_assoc, List.append_assoc, List.drop_left]
  cases ext.scream_debug <;> cases s.pio_inited <;> simp

/-- C17 amended, at concrete inputs: the driver `pio_inited_elsewhere`, on which
no call of the driver initialized the I/O subsystem, and the same driver with
the subsystem not initialized. -/
theorem finalize_shuts_down_pio_when_inited_witness :
    ((finalize cooperative pio_inited_elsewhere).2.calls = pio_inited_elsewhere.calls
        ++ [Call.pg_finalize, Call.om_finalize, Call.repo_clean_up]
        ++ (if cooperative.scream_debug then [Call.bkp_repo_clean_up] else [])
        ++ (if pio_inited_elsewhere.pio_inited then [Call.pio_finalize] else []) ∧
      (Call.pio_finalize ∈ (finalize cooperative pio_inited_elsewhere).2.calls.drop
          pio_inited_elsewhere.calls.length ↔ pio_inited_elsewhere.pio_inited = true)) ∧
    pio_inited_elsewhere.pio_inited = true ∧
    (Call.pio_finalize ∈ (finalize cooperative { pio_inited_elsewhere with
        pio_inited := false }).2.calls.drop pio_inited_elsewhere.calls.length ↔
      false = true) :=
  ⟨finalize_shuts_down_pio_when_inited cooperative pio_inited_elsewhere _ (by rfl), rfl,
   (finalize_shuts_down_pio_when_inited cooperative { pio_inited_elsewhere with
      pio_inited := false } _ (by rfl)).2⟩

theorem bind_congr_at {α β : Type} (m : Exec α) (f g : α → Exec β) (ext : Externals)
    (s : AtmosphereDriver)
    (h : ∀ a s1, m ext s = (Except.ok a, s1) → f a ext s1 = g a ext s1) :
    (m >>= f) ext s = (m >>= g) ext s := by
  rw [bind_apply, bind_apply]
  cases hm : m ext s with
  | mk r s1 =>
    cases r with
    | error e => rfl
    | ok a => exact h a s1 hm

theorem initialize_fields_loop_count (ic_pl : ParameterList) (t0 : ℚ) (ext : Externals)
    (names : List String) :
    ∀ (ifield : Nat) (ic_fields : List (String × ParamValue)) (s s' : AtmosphereDriver)
      (n : Nat) (keys : List (String × ParamValue)),
      initialize_fields_loop ic_pl t0 names ifield ic_fields ext s = (Except.ok (n, keys), s') →
      n = ifield + (fields_from_file ic_pl names).length := by
  induction names with
  | nil =>
    intro ifield ic_fields s s' n keys h
    simp only [initialize_fields_loop, pure_apply, Prod.mk.injEq, Except.ok.injEq] at h
    obtain ⟨⟨rfl, -⟩, -⟩ := h
    simp [fields_from_file]
  | cons name rest ih =>
    intro ifield ic_fields s s' n keys h
    unfold initialize_fields_loop at h
    rw [bind_eq_ok] at h
    obtain ⟨_, s1, -, h⟩ := h
    rw [bind_eq_ok] at h
    obtain ⟨_, s2, -, h⟩ := h
    cases hp : ic_pl.isParameter name
    · simp only [hp, Bool.false_eq_true, if_false] at h
      rw [bind_eq_ok] at h
      obtain ⟨_, s3, -, h⟩ := h
      have := ih _ _ _ _ _ _ h
      simp [fields_from_file, hp] at this ⊢
      omega
    · simp only [hp, if_true] at h
      rw [bind_eq_ok] at h
      obtain ⟨_, s3, -, h⟩ := h
      rw [bind_eq_ok] at h
      obtain ⟨_, s4, -, h⟩ := h
      have := ih _ _ _ _ _ _ h
      simp [fields_from_file, hp] at this ⊢
      omega

theorem loop_then_skip (ic_pl : ParameterList) (t0 : ℚ) (names : List String)
    (h0 : (fields_from_file ic_pl names).length = 0)
    (f g : Nat × List (String × ParamValue) → Exec Unit) (ext : Externals) (s : AtmosphereDriver)
    (h : ∀ keys s1, f (0, keys) ext s1 = g (0, keys) ext s1) :
    (initialize_fields_loop ic_pl t0 names 0 [] >>= f) ext s =
      (initialize_fields_loop ic_pl t0 names 0 [] >>= g) ext s := by
  refine bind_congr_at _ _ _ _ _ (fun r s1 hloop => ?_)
  obtain ⟨n, keys⟩ := r
  have hn := initialize_fields_loop_count _ _ _ _ _ _ _ _ _ _ hloop
  rw [h0] at hn
  subst hn
  exact h keys s1

theorem after_deref_pg (ic_pl : ParameterList) (t0 : ℚ) (ext : Externals)
    (s s0 : AtmosphereDriver)
    (h0 : ∀ pg, s.m_atm_process_group = some pg →
      (fields_from_file ic_pl pg.required_fields).length = 0)
    (f g : String → Nat × List (String × ParamValue) → Exec Unit)
    (h : ∀ grid keys s1, f grid (0, keys) ext s1 = g grid (0, keys) ext s1) :
    (Exec.deref s.m_atm_process_group >>= fun pg =>
      Exec.deref s.m_grids_manager >>= fun gm =>
      Exec.deref gm.reference_grid >>= fun grid =>
      initialize_fields_loop ic_pl t0 pg.required_fields 0 [] >>= f grid) ext s0 =
    (Exec.deref s.m_atm_process_group >>= fun pg =>
      Exec.deref s.m_grids_manager >>= fun gm =>
      Exec.deref gm.reference_grid >>= fun grid =>
      initialize_fields_loop ic_pl t0 pg.required_fields 0 [] >>= g grid) ext s0 := by
  refine bind_congr_at _ _ _ _ _ (fun pg s1 hpg => ?_)
  have hpg1 : s.m_atm_process_group = some pg := by
    cases hx : s.m_atm_process_group with
    | none => rw [hx] at hpg; simp [Exec.deref, Exec.fail] at hpg
    | some pg1 =>
      rw [hx] at hpg
      simp only [Exec.deref, Exec.ret, Prod.mk.injEq, Except.ok.injEq] at hpg
      rw [hpg.1]
  refine bind_congr_at _ _ _ _ _ (fun gm s2 _ => ?_)
  refine bind_congr_at _ _ _ _ _ (fun grid s3 _ => ?_)
  exact loop_then_skip ic_pl t0 pg.required_fields (h0 pg hpg1) _ _ ext s3 (h grid)

theorem initialize_fields_skips_reader (t0 : ℚ) (ext : Externals) (s : AtmosphereDriver)
    (h0 : ∀ pg, s.m_atm_process_group = some pg →
      (fields_from_file (s.m_atm_params.sublist "Initial Conditions")
        pg.required_fields).length = 0) :
    initialize_fields t0 ext s = initialize_fields_without_file t0 ext s := by
  unfold initialize_fields initialize_fields_without_file
  simp only [get_bind_apply]
  refine bind_congr_at _ _ _ _ _ (fun lvl s1 _ => ?_)
  by_cases hpos : lvl > 0
  · simp only [hpos, if_true]
    refine bind_congr_at _ _ _ _ _ (fun _ s2 _ => ?_)
    refine bind_congr_at _ _ _ _ _ (fun _ s3 _ => ?_)
    cases hsc : s.m_surface_coupling with
    | none =>
      simp only []
      refine bind_congr_at _ _ _ _ _ (fun _ s4 _ => ?_)
      refine bind_congr_at _ _ _ _ _ (fun _ s5 _ => ?_)
      exact after_deref_pg _ t0 ext s s5 h0 _ _ (fun grid keys s6 => rfl)
    | some sc =>
      simp only []
      refine bind_congr_at _ _ _ _ _ (fun _ s4 _ => ?_)
      refine bind_congr_at _ _ _ _ _ (fun _ s5 _ => ?_)
      exact after_deref_pg _ t0 ext s s5 h0 _ _ (fun grid keys s6 => rfl)
  · simp only [hpos, if_false]
    refine bind_congr_at _ _ _ _ _ (fun _ s2 _ => ?_)
    exact after_deref_pg _ t0 ext s s2 h0 _ _ (fun grid keys s6 => rfl)

/-- C18. On a driver with a field repository, for every list of required fields
and every initial-conditions list, with `from_file` the required fields whose
name is not a parameter of the initial-conditions list, in iteration order, and
`N` its length. When `initialize_fields` completes, the calls made are the DAG
block, then for each required field the lookup, the calls of
`initialize_one_field` if and only if its name is a parameter, and the update of
the time stamp, then the reader block; the reader gets the sublist "FIELDS"
with entry `i` equal to ("field(i+1)", `from_file[i]`) followed by
"Number of Fields" = `N`; when `N > 0` the file name is configured, and when
`N = 0` the reader block is empty: no reader is created. When `N = 0`, whether
the operation completes or not, it does what `initialize_fields_without_file`
does, the operation without the block that looks the file name up and creates
the reader: the outcome does not depend on the file name. -/
theorem initialize_fields_reads_the_other_fields (t0 : ℚ) (ext : Externals)
    (s : AtmosphereDriver) (repo : FieldRepository) (hrepo : s.m_field_repo = some repo) :
    (∀ s', initialize_fields t0 ext s = (Except.ok (), s') →
      ∃ lvl pg gm grid,
        (s.m_atm_params.sublist "Debug").get_int_or "Atmosphere DAG Verbosity Level" (-1)
          = some lvl ∧
        s.m_atm_process_group = some pg ∧ s.m_grids_manager = some gm ∧
        gm.reference_grid = some grid ∧
        (0 < (fields_from_file (s.m_atm_params.sublist "Initial Conditions")
            pg.required_fields).length →
          ((s.m_atm_params.sublist "Initial Conditions").get_string
            "Initial Conditions File").isSome = true) ∧
        s'.calls = s.calls ++ dag_calls s lvl
          ++ loop_calls repo grid (s.m_atm_params.sublist "Initial Conditions") t0
              pg.required_fields
          ++ reader_calls s grid (s.m_atm_params.sublist "Initial Conditions")
              (fields_from_file (s.m_atm_params.sublist "Initial Conditions")
                pg.required_fields) ∧
        (∀ i, (ic_field_keys 0 (fields_from_file (s.m_atm_params.sublist "Initial Conditions")
            pg.required_fields))[i]? =
          (fields_from_file (s.m_atm_params.sublist "Initial Conditions")
            pg.required_fields)[i]?.map fun name =>
              ("field" ++ toString (i + 1), ParamValue.str name)) ∧
        ((fields_from_file (s.m_atm_params.sublist "Initial Conditions")
            pg.required_fields).length = 0 →
          reader_calls s grid (s.m_atm_params.sublist "Initial Conditions")
            (fields_from_file (s.m_atm_params.sublist "Initial Conditions")
              pg.required_fields) = [])) ∧
    (∀ pg, s.m_atm_process_group = some pg →
      (fields_from_file (s.m_atm_params.sublist "Initial Conditions")
        pg.required_fields).length = 0 →
      initialize_fields t0 ext s = initialize_fields_without_file t0 ext s) := by
  constructor
  · intro s' h
    obtain ⟨lvl, pg, gm, grid, h1, h2, h3, h4, h5, h6⟩ :=
      initialize_fields_ok_state t0 ext s s' repo hrepo h
    refine ⟨lvl, pg, gm, grid, h1, h2, h3, h4, h5, h6, ?_, ?_⟩
    · intro i
      rw [ic_field_keys_getElem?]
      simp
    · intro h0
      simp [reader_calls, h0]
  · intro pg hpg h0
    refine initialize_fields_skips_reader t0 ext s (fun pg1 hpg1 => ?_)
    rw [hpg] at hpg1
    cases hpg1
    exact h0

/-- C18, at concrete inputs. On `ic_driver`: the required fields "T", "qv", "ps"
with "qv" configured as a constant, so `N = 2`. On `ic_driver_const`: the only
required field "qv", configured, so `N = 0`, and no file name is configured;
the operation completes, as the operation without the reader block does, and
records no call of the reader or of the I/O subsystem. -/
theorem initialize_fields_reads_the_other_fields_witness :
    (∃ lvl pg gm grid,
      (ic_driver.m_atm_params.sublist "Debug").get_int_or "Atmosphere DAG Verbosity Level" (-1)
        = some lvl ∧
      ic_driver.m_atm_process_group = some pg ∧ ic_driver.m_grids_manager = some gm ∧
      gm.reference_grid = some grid ∧
      (0 < (fields_from_file (ic_driver.m_atm_params.sublist "Initial Conditions")
          pg.required_fields).length →
        ((ic_driver.m_atm_params.sublist "Initial Conditions").get_string
          "Initial Conditions File").isSome = true) ∧
      (initialize_fields 0 cooperative ic_driver).2.calls = ic_driver.calls
        ++ dag_calls ic_driver lvl
        ++ loop_calls qv_repo grid (ic_driver.m_atm_params.sublist "Initial Conditions") 0
            pg.required_fields
        ++ reader_calls ic_driver grid (ic_driver.m_atm_params.sublist "Initial Conditions")
            (fields_from_file (ic_driver.m_atm_params.sublist "Initial Conditions")
              pg.required_fields) ∧
      (∀ i, (ic_field_keys 0 (fields_from_file
          (ic_driver.m_atm_params.sublist "Initial Conditions") pg.required_fields))[i]? =
        (fields_from_file (ic_driver.m_atm_params.sublist "Initial Conditions")
          pg.required_fields)[i]?.map fun name =>
            ("field" ++ toString (i + 1), ParamValue.str name)) ∧
      ((fields_from_file (ic_driver.m_atm_params.sublist "Initial Conditions")
          pg.required_fields).length = 0 →
        reader_calls ic_driver grid (ic_driver.m_atm_params.sublist "Initial Conditions")
          (fields_from_file (ic_driver.m_atm_params.sublist "Initial Conditions")
            pg.required_fields) = [])) ∧
    (fields_from_file (ic_driver.m_atm_params.sublist "Initial Conditions") ["T", "qv", "ps"]
      = ["T", "ps"]) ∧
    (fields_from_file (ic_driver_const.m_atm_params.sublist "Initial Conditions") ["qv"]
      = []) ∧
    ((ic_driver_const.m_atm_params.sublist "Initial Conditions").get_string
      "Initial Conditions File" = none) ∧
    initialize_fields 0 cooperative ic_driver_const =
      initialize_fields_without_file 0 cooperative ic_driver_const ∧
    (initialize_fields 0 cooperative ic_driver_const).1 = Except.ok () ∧
    ((initialize_fields 0 cooperative ic_driver_const).2.calls.filter
      fun c => c.is_ic_reader || c.is_pio) = [] :=
  ⟨(initialize_fields_reads_the_other_fields 0 cooperative ic_driver qv_repo rfl).1
    (initialize_fields 0 cooperative ic_driver).2 (result_eq _ _ (by decide!)),
   by decide!, by decide!, by decide!,
   (initialize_fields_reads_the_other_fields 0 cooperative ic_driver_const qv_repo rfl).2
    { required_fields := ["qv"] } rfl (by decide!),
   by decide!, by decide!⟩

/-- The calls of `initialize_fields` in two runs with collaborators that return
normally: with the required fields "T", "qv", "ps", where "qv" is configured as a
constant, "T" and "ps" are requested from the file as "field1" and "field2";
with the only required field "qv", configured, and no file name, the operation
completes and creates no reader. -/
theorem initialize_fields_example :
    (initialize_fields 0 cooperative ic_driver).2.calls = ic_driver.calls
      ++ [Call.repo_get_field "T", Call.update_time_stamp "T" 0,
          Call.repo_get_field "qv", Call.repo_get_field_on_grid "qv" "Physics",
          Call.field_set_value "qv" "Physics" (some 0) (1 / 10),
          Call.field_set_value "qv" "Physics" (some 1) (2 / 10),
          Call.field_set_value "qv" "Physics" (some 2) (3 / 10),
          Call.update_time_stamp "qv" 0,
          Call.repo_get_field "ps", Call.update_time_stamp "ps" 0,
          Call.pio_init { id := 7 },
          Call.ic_reader_create { id := 7 }
            { params := [("GRID", ParamValue.str "Physics"),
                         ("FILENAME", ParamValue.str "ic.nc")],
              sublists := [("FIELDS", [("field1", ParamValue.str "T"),
                ("field2", ParamValue.str "ps"), ("Number of Fields", ParamValue.int 2)])] },
          Call.ic_reader_pull_input] ∧
    (initialize_fields 0 cooperative ic_driver_const).1 = Except.ok () ∧
    (initialize_fields 0 cooperative ic_driver_const).2.calls = ic_driver_const.calls
      ++ [Call.repo_get_field "qv", Call.repo_get_field_on_grid "qv" "Physics",
          Call.field_set_value "qv" "Physics" (some 0) (1 / 10),
          Call.field_set_value "qv" "Physics" (some 1) (2 / 10),
          Call.field_set_value "qv" "Physics" (some 2) (3 / 10),
          Call.update_time_stamp "qv" 0] := by
  decide!

/-! ## Registration of the groups -/

theorem registered_append (ext : Externals) (fids new1 : List FieldIdentifier)
    (h1 : Registered ext fids new1) (new2 : List FieldIdentifier)
    (h2 : Registered ext (fids ++ new1) new2) : Registered ext fids (new1 ++ new2) := by
  induction h2 with
  | nil => simpa using h1
  | snoc new f _ hf ih =>
    rw [← List.append_assoc]
    refine Registered.snoc _ _ ih ?_
    rw [← List.append_assoc]
    exact hf

theorem repoExtended_refl (ext : Externals) (s : AtmosphereDriver) : RepoExtended ext s s := by
  intro repo hrepo
  exact ⟨[], by simp [hrepo], Registered.nil⟩

theorem repoExtended_trans (ext : Externals) (a b c : AtmosphereDriver)
    (hab : RepoExtended ext a b) (hbc : RepoExtended ext b c) : RepoExtended ext a c := by
  intro repo hrepo
  obtain ⟨new1, hb, h1⟩ := hab repo hrepo
  obtain ⟨new2, hc, h2⟩ := hbc _ hb
  refine ⟨new1 ++ new2, ?_, registered_append ext _ _ h1 _ h2⟩
  rw [hc]
  simp

theorem onGrid_mono (ext : Externals) (a b : AtmosphereDriver) (name grid : String)
    (hab : RepoExtended ext a b) (h : OnGrid a name grid) : OnGrid b name grid := by
  obtain ⟨repo, hrepo, hon⟩ := h
  obtain ⟨new, hb, -⟩ := hab repo hrepo
  refine ⟨_, hb, ?_⟩
  unfold FieldRepository.has_field_on_grid at hon ⊢
  rw [List.any_append, hon]
  rfl

theorem repoExtended_of_repo_eq (ext : Externals) (a b : AtmosphereDriver)
    (h : b.m_field_repo = a.m_field_repo) : RepoExtended ext a b := by
  intro repo hrepo
  exact ⟨[], by simp [h, hrepo], Registered.nil⟩

theorem forEach_ok_post {α : Type} (ext : Externals)
    (R : AtmosphereDriver → AtmosphereDriver → Prop) (Q : α → AtmosphereDriver → Prop)
    (body : α → Exec Unit) (hrefl : ∀ s, R s s)
    (htrans : ∀ a b c, R a b → R b c → R a c)
    (hmono : ∀ x a b, R a b → Q x a → Q x b) (xs : List α)
    (hbody : ∀ x ∈ xs, ∀ s s', body x ext s = (Except.ok (), s') → R s s' ∧ Q x s') :
    ∀ s s', Exec.forEach xs body ext s = (Except.ok (), s') → R s s' ∧ ∀ x ∈ xs, Q x s' := by
  induction xs with
  | nil =>
    intro s s' h
    simp only [Exec.forEach, Exec.ret, Prod.mk.injEq, true_and] at h
    subst h
    exact ⟨hrefl s, fun x hx => by simp at hx⟩
  | cons x rest ih =>
    intro s s' h
    unfold Exec.forEach at h
    change (body x >>= fun _ => Exec.forEach rest body) ext s = _ at h
    rw [bind_eq_ok] at h
    obtain ⟨u, s1, h1, h2⟩ := h
    obtain ⟨hR1, hQ1⟩ := hbody x (List.mem_cons_self _ _) s s1 h1
    obtain ⟨hR2, hQ2⟩ := ih (fun y hy => hbody y (List.mem_cons_of_mem _ hy)) s1 s' h2
    refine ⟨htrans _ _ _ hR1 hR2, ?_⟩
    intro y hy
    rcases List.mem_cons.mp hy with rfl | hy
    · exact hmono _ _ _ hR2 hQ1
    · exact hQ2 y hy

theorem register_if_not_there_ok (group grid name : String) (ext : Externals)
    (s s' : AtmosphereDriver)
    (h : register_if_not_there group grid name ext s = (Except.ok (), s')) :
    RepoExtended ext s s' ∧ OnGrid s' name grid := by
  unfold register_if_not_there at h
  cases hrepo : s.m_field_repo with
  | none =>
    simp only [bind_assoc, get_bind_apply, externals_bind_apply, deref_bind_apply, hrepo,
      Prod.mk.injEq, reduceCtorEq, false_and] at h
  | some repo =>
    cases hhas : repo.has_field name <;> cases hfound : repo.has_field_on_grid name grid <;>
      cases halias : (repo.aliases name).head? <;> cases hgm : s.m_grids_manager <;>
      simp only [bind_assoc, ite_bind, get_bind_apply, externals_bind_apply, deref_bind_apply,
        pure_bind_apply, fail_bind_apply, call_bind_apply, modify_bind_apply, ite_error_eq_ok,
        Exec.modify, pure_apply, ite_apply,
        hrepo, hhas, hfound, halias, hgm, if_true, if_false, Bool.not_true, Bool.not_false,
        Bool.false_eq_true, Prod.mk.injEq, reduceCtorEq, false_and, and_false, true_and,
        Option.map_some'] at h
    all_goals
      first
      | exact h.elim
      | (subst h
         exact ⟨repoExtended_refl ext _, repo, hrepo, hfound⟩)
      | skip
    all_goals
      obtain ⟨-, -, rfl⟩ := h
      rename_i fid gm
      have hmem : fid ∈ repo.aliases name := List.mem_of_mem_head? halias
      unfold FieldRepository.aliases at hmem
      rw [List.mem_filter] at hmem
      obtain ⟨hfid, hname⟩ := hmem
      have hname1 : fid.name = name := by simpa using hname
      constructor
      · intro repo1 hrepo1
        rw [hrepo] at hrepo1
        cases hrepo1
        refine ⟨[{ name := name, layout := ext.create_tgt_layout fid.grid grid fid.layout,
                   units := fid.units, grid := grid }], rfl, ?_⟩
        refine Registered.snoc [] _ Registered.nil ⟨?_, fid, ?_, hname1, rfl, rfl⟩
        · intro g hg hboth
          rw [List.append_nil] at hg
          unfold FieldRepository.has_field_on_grid at hfound
          rw [List.any_eq_false] at hfound
          exact hfound g hg (by simp [hboth.1, hboth.2])
        · simpa using hfid
      · refine ⟨_, rfl, ?_⟩
        simp [FieldRepository.has_field_on_grid, FieldRepository.register_field]

theorem group_fields_on_grid_ok (groups_info : List (String × FieldGroupInfo))
    (gg : String × String) (ext : Externals) (s s' : AtmosphereDriver)
    (h : group_fields_on_grid groups_info gg ext s = (Except.ok (), s')) :
    RepoExtended ext s s' ∧
      ∃ info, groups_info.lookup gg.1 = some info ∧
        ∀ name ∈ info.m_fields_names, OnGrid s' name gg.2 := by
  unfold group_fields_on_grid at h
  cases hl : groups_info.lookup gg.1 with
  | none =>
    simp only [hl, bind_assoc, fail_bind_apply, Prod.mk.injEq, reduceCtorEq, false_and] at h
  | some info =>
    simp only [hl, bind_assoc, pure_bind_apply] at h
    rw [bind_eq_ok] at h
    obtain ⟨u, s1, h1, h2⟩ := h
    obtain ⟨hR1, hQ1⟩ := forEach_ok_post ext (RepoExtended ext)
      (fun name st => OnGrid st name gg.2) _ (repoExtended_refl ext) (repoExtended_trans ext)
      (fun name a b hab hq => onGrid_mono ext a b name gg.2 hab hq) info.m_fields_names
      (fun name _ a b hab => register_if_not_there_ok gg.1 gg.2 name ext a b hab) s s1 h1
    have key : RepoExtended ext s1 s' := by
      cases hb : info.m_bundled with
      | false =>
        simp only [hb, Bool.false_eq_true, if_false, pure_apply, Prod.mk.injEq, true_and] at h2
        subst h2
        exact repoExtended_refl ext _
      | true =>
        cases hhead : info.m_fields_names.head? with
        | none =>
          simp only [hb, if_true, hhead, deref_bind_apply, Prod.mk.injEq, reduceCtorEq,
            false_and] at h2
        | some name =>
          cases hrepo : s1.m_field_repo with
          | none =>
            simp only [hb, if_true, hhead, hrepo, bind_assoc, deref_bind_apply, call_bind_apply,
              get_bind_apply, ite_error_eq_ok, Prod.mk.injEq, reduceCtorEq, false_and,
              and_false] at h2
          | some repo =>
            cases hpar : repo.parents.lookup (name, gg.2) with
            | none =>
              simp only [hb, if_true, hhead, hrepo, hpar, bind_assoc, deref_bind_apply,
                call_bind_apply, get_bind_apply, ite_error_eq_ok, Prod.mk.injEq, reduceCtorEq,
                false_and, and_false] at h2
            | some bundle_name =>
              simp only [hb, if_true, hhead, hrepo, hpar, bind_assoc, deref_bind_apply,
                call_bind_apply, get_bind_apply, ite_error_eq_ok] at h2
              obtain ⟨-, h2⟩ := h2
              have h3 := (register_if_not_there_ok gg.1 gg.2 bundle_name ext _ s' h2).1
              exact repoExtended_trans ext s1 _ s'
                (by apply repoExtended_of_repo_eq; simp [hrepo]) h3
    refine ⟨repoExtended_trans ext _ _ _ hR1 key, info, rfl, ?_⟩
    intro name hname
    exact onGrid_mono ext s1 s' name gg.2 key (hQ1 name hname)

theorem has_group_fields_on_grid_ok (groups_grids : List (String × String)) (ext : Externals)
    (s s' : AtmosphereDriver)
    (h : has_group_fields_on_grid groups_grids ext s = (Except.ok (), s')) :
    ∃ repo, s.m_field_repo = some repo ∧ RepoExtended ext s s' ∧
      ∀ gg ∈ groups_grids, ∃ info, repo.groups.lookup gg.1 = some info ∧
        ∀ name ∈ info.m_fields_names, OnGrid s' name gg.2 := by
  unfold has_group_fields_on_grid at h
  cases hrepo : s.m_field_repo with
  | none =>
    simp only [hrepo, bind_assoc, get_bind_apply, deref_bind_apply, Prod.mk.injEq, reduceCtorEq,
      false_and] at h
  | some repo =>
    simp only [hrepo, bind_assoc, get_bind_apply, deref_bind_apply] at h
    obtain ⟨hR, hQ⟩ := forEach_ok_post ext (RepoExtended ext)
      (fun gg st => ∃ info, repo.groups.lookup gg.1 = some info ∧
        ∀ name ∈ info.m_fields_names, OnGrid st name gg.2) _
      (repoExtended_refl ext) (repoExtended_trans ext)
      (fun gg a b hab hq => by
        obtain ⟨info, hinfo, hnames⟩ := hq
        exact ⟨info, hinfo, fun name hname => onGrid_mono ext a b name gg.2 hab (hnames name hname)⟩)
      groups_grids
      (fun gg _ a b hab => group_fields_on_grid_ok repo.groups gg ext a b hab) s s' h
    exact ⟨repo, rfl, hR, hQ⟩

theorem register_groups_ok (ext : Externals) (s s' : AtmosphereDriver)
    (h : register_groups ext s = (Except.ok (), s')) :
    ∃ pg repo new,
      s.m_atm_process_group = some pg ∧ s.m_field_repo = some repo ∧
      s'.m_field_repo = some { repo with fids := repo.fids ++ new } ∧
      Registered ext repo.fids new ∧
      ∀ gg ∈ pg.required_groups ++ pg.updated_groups,
        ∃ info, repo.groups.lookup gg.1 = some info ∧
          ∀ name ∈ info.m_fields_names,
            FieldRepository.has_field_on_grid { repo with fids := repo.fids ++ new } name gg.2
              = true := by
  unfold register_groups at h
  cases hpg : s.m_atm_process_group with
  | none =>
    simp only [hpg, bind_assoc, get_bind_apply, deref_bind_apply, Prod.mk.injEq, reduceCtorEq,
      false_and] at h
  | some pg =>
    simp only [hpg, bind_assoc, get_bind_apply, deref_bind_apply] at h
    rw [bind_eq_ok] at h
    obtain ⟨u, s1, h1, h2⟩ := h
    obtain ⟨repo, hrepo, hR1, hQ1⟩ := has_group_fields_on_grid_ok _ ext s s1 h1
    obtain ⟨repo1, hrepo1, hR2, hQ2⟩ := has_group_fields_on_grid_ok _ ext s1 s' h2
    obtain ⟨new, hs', hreg⟩ := repoExtended_trans ext _ _ _ hR1 hR2 repo hrepo
    obtain ⟨new1, hs1, -⟩ := hR1 repo hrepo
    have hgroups : repo1.groups = repo.groups := by
      rw [hrepo1] at hs1
      cases hs1
      rfl
    refine ⟨pg, repo, new, rfl, hrepo, hs', hreg, ?_⟩
    intro gg hgg
    have hon : ∃ info, repo.groups.lookup gg.1 = some info ∧
        ∀ name ∈ info.m_fields_names, OnGrid s' name gg.2 := by
      rcases List.mem_append.mp hgg with hgg | hgg
      · obtain ⟨info, hinfo, hnames⟩ := hQ1 gg hgg
        exact ⟨info, hinfo, fun name hname => onGrid_mono ext s1 s' name gg.2 hR2 (hnames name hname)⟩
      · obtain ⟨info, hinfo, hnames⟩ := hQ2 gg hgg
        exact ⟨info, hgroups ▸ hinfo, hnames⟩
    obtain ⟨info, hinfo, hnames⟩ := hon
    refine ⟨info, hinfo, fun name hname => ?_⟩
    obtain ⟨repo2, hrepo2, hhas⟩ := hnames name hname
    rw [hs'] at hrepo2
    cases hrepo2
    exact hhas

theorem register_groups_fails (ext : Externals) (s : AtmosphereDriver)
    (pg : AtmosphereProcessGroup) (repo : FieldRepository)
    (hpg : s.m_atm_process_group = some pg) (hrepo : s.m_field_repo = some repo)
    (gg : String × String) (hgg : gg ∈ pg.required_groups ++ pg.updated_groups)
    (hnone : repo.groups.lookup gg.1 = none) :
    (register_groups ext s).1 ≠ Except.ok () := by
  intro hok
  obtain ⟨pg1, repo1, new, hpg1, hrepo1, -, -, hall⟩ :=
    register_groups_ok ext s (register_groups ext s).2 (result_eq _ _ hok)
  rw [hpg] at hpg1
  rw [hrepo] at hrepo1
  cases hpg1
  cases hrepo1
  obtain ⟨info, hinfo, -⟩ := hall gg hgg
  rw [hnone] at hinfo
  cases hinfo

theorem registered_fresh (ext : Externals) (fids new : List FieldIdentifier)
    (h : Registered ext fids new) :
    ∀ f ∈ new, ∀ g ∈ fids, ¬ (g.name = f.name ∧ g.grid = f.grid) := by
  induction h with
  | nil => intro f hf; simp at hf
  | snoc new f _ hf ih =>
    intro f1 hf1 g hg
    rcases List.mem_append.mp hf1 with hf1 | hf1
    · exact ih f1 hf1 g hg
    · rw [List.mem_singleton] at hf1
      subst hf1
      exact hf.1 g (List.mem_append_left _ hg)

/-- C20. When `register_groups` completes, the repository has only gained
identifiers (its groups are as before), and for every (group, grid) pair of the
required and updated group requests the group is in the repository and every
field name of that group has an identifier on that grid. The identifiers gained
were registered one after another, each for a name that had no identifier on
that grid at that moment (so none for a name that had one on that grid before),
each with the name and units of an identifier the repository held and with the
layout `create_tgt_layout` of that identifier's layout, for the remapper from
that identifier's grid to the requested grid. If a requested group is not in
the repository, `register_groups` does not complete. -/
theorem register_groups_contract (ext : Externals) (s : AtmosphereDriver) :
    (∀ s', register_groups ext s = (Except.ok (), s') →
      ∃ pg repo new,
        s.m_atm_process_group = some pg ∧ s.m_field_repo = some repo ∧
        s'.m_field_repo = some { repo with fids := repo.fids ++ new } ∧
        Registered ext repo.fids new ∧
        (∀ f ∈ new, ∀ g ∈ repo.fids, ¬ (g.name = f.name ∧ g.grid = f.grid)) ∧
        ∀ gg ∈ pg.required_groups ++ pg.updated_groups,
          ∃ info, repo.groups.lookup gg.1 = some info ∧
            ∀ name ∈ info.m_fields_names,
              FieldRepository.has_field_on_grid { repo with fids := repo.fids ++ new }
                name gg.2 = true) ∧
    (∀ pg repo gg, s.m_atm_process_group = some pg → s.m_field_repo = some repo →
      gg ∈ pg.required_groups ++ pg.updated_groups → repo.groups.lookup gg.1 = none →
      (register_groups ext s).1 ≠ Except.ok ()) := by
  constructor
  · intro s' h
    obtain ⟨pg, repo, new, h1, h2, h3, h4, h5⟩ := register_groups_ok ext s s' h
    exact ⟨pg, repo, new, h1, h2, h3, h4, registered_fresh ext _ _ h4, h5⟩
  · intro pg repo gg hpg hrepo hgg hnone
    exact register_groups_fails ext s pg repo hpg hrepo gg hgg hnone

/-- C20, at concrete inputs: the group "tracers" (field "qv", held on the grid
"Physics") requested on the grids "Dynamics" and "Physics"; and a request for
the group "aerosols", which the repository does not hold. -/
theorem register_groups_contract_witness :
    (∃ pg repo new,
      tracers_driver.m_atm_process_group = some pg ∧ tracers_driver.m_field_repo = some repo ∧
      (register_groups cooperative tracers_driver).2.m_field_repo
        = some { repo with fids := repo.fids ++ new } ∧
      Registered cooperative repo.fids new ∧
      (∀ f ∈ new, ∀ g ∈ repo.fids, ¬ (g.name = f.name ∧ g.grid = f.grid)) ∧
      ∀ gg ∈ pg.required_groups ++ pg.updated_groups,
        ∃ info, repo.groups.lookup gg.1 = some info ∧
          ∀ name ∈ info.m_fields_names,
            FieldRepository.has_field_on_grid { repo with fids := repo.fids ++ new }
              name gg.2 = true) ∧
    (register_groups cooperative aerosols_driver).1 ≠ Except.ok () :=
  ⟨(register_groups_contract cooperative tracers_driver).1
      (register_groups cooperative tracers_driver).2 (result_eq _ _ (by decide!)),
   (register_groups_contract cooperative aerosols_driver).2
      { required_groups := [("aerosols", "Dynamics")] } tracers_repo ("aerosols", "Dynamics")
      rfl rfl (by decide) (by decide)⟩

/-- Two runs of `register_groups` with collaborators that return normally: on
`tracers_driver` the only identifier registered is a copy of "qv" on the grid
"Dynamics", with the units and (for the identity `create_tgt_layout`) the
layout of "qv" on "Physics"; on `aerosols_driver` the operation stops with the
error "Group 'aerosols' not found in the repo" and registers nothing. -/
theorem register_groups_example :
    register_groups cooperative tracers_driver =
      (Except.ok (), { tracers_driver with
        m_field_repo := some { tracers_repo with
          fids := tracers_repo.fids
            ++ [{ name := "qv", layout := qv_layout, units := "kg/kg", grid := "Dynamics" }] },
        calls := tracers_driver.calls
          ++ [Call.gm_create_remapper "Physics" "Dynamics",
              Call.repo_register_field
                { name := "qv", layout := qv_layout, units := "kg/kg", grid := "Dynamics" }
                "tracers"] }) ∧
    register_groups cooperative aerosols_driver =
      (Except.error (ADError.group_not_found "aerosols"), aerosols_driver) := by
  decide!

/-! ## A driver built by the two-argument constructor -/

theorem constructor_builds (ext : Externals) (atm_comm : Comm) (params : ParameterList) :
    new_AtmosphereDriver atm_comm params ext fresh =
      (Except.ok (), constructed atm_comm params) := by
  have h0 : ¬ flag_set fresh.m_ad_status s_comm_set := by decide
  unfold new_AtmosphereDriver
  rw [bind_apply, set_comm_not_yet_set ext atm_comm fresh h0]
  have hc : (fresh.m_ad_status ||| s_comm_set) &&& bit_not s_params_set ≠ 0 := by decide
  simp only [set_params, check_ad_status, must_be_set_default, bind_apply, Exec.get, ite_apply,
    if_pos hc, if_true, pure_apply, Exec.modify, or_status]
  rfl

theorem bind_of_error {α β : Type} (m : Exec α) (f : α → Exec β) (ext : Externals)
    (s s' : AtmosphereDriver) (e : ADError) (h : m ext s = (Except.error e, s')) :
    (m >>= f) ext s = (Except.error e, s') := by
  rw [bind_apply, h]

theorem constructed_has_comm_set (atm_comm : Comm) (params : ParameterList) :
    flag_set (constructed atm_comm params).m_ad_status s_comm_set := by
  have h : flag_set 3 s_comm_set := by decide
  exact h

theorem set_comm_on_constructed (ext : Externals) (atm_comm comm : Comm)
    (params : ParameterList) :
    set_comm comm ext (constructed atm_comm params) =
      (Except.error (ADError.status_not_expected s_comm_set 3), constructed atm_comm params) :=
  set_comm_already_set ext comm (constructed atm_comm params)
    (constructed_has_comm_set atm_comm params)

theorem initialize_driver_on_constructed (ext : Externals) (atm_comm comm : Comm)
    (params0 params : ParameterList) (t0 : ℚ) :
    initialize_driver comm params t0 ext (constructed atm_comm params0) =
      (Except.error (ADError.status_not_expected s_comm_set 3), constructed atm_comm params0) :=
  bind_of_error _ _ _ _ _ _ (set_comm_on_constructed ext atm_comm comm params0)

/-- C25. The two-argument constructor `AtmosphereDriver(atm_comm, params0)`
completes and leaves a driver with CommSet and ParamsSet set. On this driver
`initialize(comm, params, t0)` fails for every `comm`, `params` and `t0` (the
constructor's or others), with the error of the status check of its first step
`set_comm`, which finds CommSet already set. The driver is left as the constructor
built it: no process group, no grids manager, no field repository, and no
collaborator was called. -/
theorem initialize_fails_on_constructed_driver (ext : Externals) (atm_comm comm : Comm)
    (params0 params : ParameterList) (t0 : ℚ) :
    new_AtmosphereDriver atm_comm params0 ext fresh =
      (Except.ok (), constructed atm_comm params0) ∧
    set_comm comm ext (constructed atm_comm params0) =
      (Except.error (ADError.status_not_expected s_comm_set 3), constructed atm_comm params0) ∧
    initialize_driver comm params t0 ext (constructed atm_comm params0) =
      (Except.error (ADError.status_not_expected s_comm_set 3), constructed atm_comm params0) ∧
    (constructed atm_comm params0).m_atm_process_group = none ∧
    (constructed atm_comm params0).m_grids_manager = none ∧
    (constructed atm_comm params0).m_field_repo = none ∧
    (constructed atm_comm params0).calls = [] :=
  ⟨constructor_builds ext atm_comm params0, set_comm_on_constructed ext atm_comm comm params0,
   initialize_driver_on_constructed ext atm_comm comm params0 params t0, rfl, rfl, rfl, rfl⟩

/-- The constructor followed by `initialize` with the same arguments, on
collaborators that return normally: the error of the status check of
`set_comm` for the flag CommSet (1) on the status 3. -/
theorem initialize_after_constructor_example :
    ((new_AtmosphereDriver default sample_params >>= fun _ =>
        initialize_driver default sample_params 0) cooperative fresh).1 =
      Except.error (ADError.status_not_expected 1 3) := by
  decide!

end control

end scream

namespace scream.PhysicsFunctions

/-! ## The common physics functions -/

theorem team_thread_range_set (f : Nat → ℚ) (n : Nat) :
    ∀ (view : List ℚ), n ≤ view.length →
      (team_thread_range n (fun k v => v.set k (f k)) view).length = view.length ∧
      ∀ k, k < view.length →
        (team_thread_range n (fun k v => v.set k (f k)) view)[k]? =
          if k < n then some (f k) else view[k]? := by
  induction n with
  | zero =>
    intro view _
    simp [team_thread_range]
  | succ n ih =>
    intro view hn
    have hstep : team_thread_range (n + 1) (fun k v => v.set k (f k)) view =
        (team_thread_range n (fun k v => v.set k (f k)) view).set n (f n) := by
      simp [team_thread_range, List.range_succ]
    obtain ⟨hlen, hget⟩ := ih view (by omega)
    rw [hstep]
    refine ⟨by simp [hlen], ?_⟩
    intro k hk
    by_cases hkn : k = n
    · subst hkn
      simp [hlen, hk]
    · rw [List.getElem?_set_ne (Ne.symm hkn), hget k hk]
      by_cases hlt : k < n
      · simp [hlt, Nat.lt_succ_of_lt hlt]
      · have : ¬ k < n + 1 := by omega
        simp [hlt, this]

theorem calculate_dz_eq (C : physics.Constants) (pseudo_density p_mid T_mid qv : ℚ)
    (hp : p_mid ≠ 0) (hg : C.gravit ≠ 0) :
    calculate_dz C pseudo_density p_mid T_mid qv =
      pseudo_density * calculate_virtual_temperature C T_mid qv * C.RD / (p_mid * C.gravit) := by
  unfold calculate_dz
  field_simp
  ring

theorem calculate_virtual_temperature_eq (C : physics.Constants) (T_mid qv : ℚ)
    (hep : C.ep_2 ≠ 0) (hqv : qv ≠ -1) :
    calculate_virtual_temperature C T_mid qv = T_mid * (qv + C.ep_2) / (C.ep_2 * (1 + qv)) := by
  have h1 : 1 + qv ≠ 0 := fun h => hqv (by linarith)
  unfold calculate_virtual_temperature
  field_simp

theorem virtual_temperature_round_trip (C : physics.Constants) (T qv : ℚ)
    (hep : C.ep_2 ≠ 0) (hqv : qv ≠ -1) (hq2 : qv ≠ -C.ep_2) :
    calculate_temperature_from_virtual_temperature C (calculate_virtual_temperature C T qv) qv
      = T ∧
    calculate_virtual_temperature C (calculate_temperature_from_virtual_temperature C T qv) qv
      = T := by
  have h1 : 1 + qv ≠ 0 := fun h => hqv (by linarith)
  have h2 : qv + C.ep_2 ≠ 0 := fun h => hq2 (by linarith)
  unfold calculate_temperature_from_virtual_temperature calculate_virtual_temperature
  constructor <;> field_simp


theorem calculate_dz_column_levels (C : physics.Constants)
    (pseudo_density p_mid T_mid qv : Nat → ℚ) (dz : List ℚ) :
    (calculate_dz_column C pseudo_density p_mid T_mid qv dz).length = dz.length ∧
    ∀ k, k < dz.length →
      (calculate_dz_column C pseudo_density p_mid T_mid qv dz)[k]? =
        some (calculate_dz C (pseudo_density k) (p_mid k) (T_mid k) (qv k)) := by
  obtain ⟨hlen, hget⟩ := team_thread_range_set
    (fun k => calculate_dz C (pseudo_density k) (p_mid k) (T_mid k) (qv k)) dz.length dz
    (le_refl _)
  refine ⟨hlen, ?_⟩
  intro k hk
  have h := hget k hk
  rw [if_pos hk] at h
  exact h

/-- C21. For `p_mid ≠ 0` (with `gravit ≠ 0`, `ep_2 ≠ 0`, `qv ≠ -1`)
`calculate_dz(pseudo_density, p_mid, T_mid, qv)` is
`pseudo_density * T_v * RD / (p_mid * gravit)`, where `T_v` is
`calculate_virtual_temperature(T_mid, qv)` = `T_mid * (qv + ep_2) / (ep_2 * (1 + qv))`.
The column version leaves the extent of `dz` as it is and writes at every level
`k` below the extent the value `calculate_dz` of the inputs at the level `k`. -/
theorem calculate_dz_documented_formula (C : physics.Constants)
    (pseudo_density p_mid T_mid qv : ℚ)
    (hp : p_mid ≠ 0) (hg : C.gravit ≠ 0) (hep : C.ep_2 ≠ 0) (hqv : qv ≠ -1) :
    calculate_dz C pseudo_density p_mid T_mid qv =
      pseudo_density * calculate_virtual_temperature C T_mid qv * C.RD / (p_mid * C.gravit) ∧
    calculate_virtual_temperature C T_mid qv = T_mid * (qv + C.ep_2) / (C.ep_2 * (1 + qv)) ∧
    ∀ (pseudo_density_k p_mid_k T_mid_k qv_k : Nat → ℚ) (dz : List ℚ),
      (calculate_dz_column C pseudo_density_k p_mid_k T_mid_k qv_k dz).length = dz.length ∧
      ∀ k, k < dz.length →
        (calculate_dz_column C pseudo_density_k p_mid_k T_mid_k qv_k dz)[k]? =
          some (calculate_dz C (pseudo_density_k k) (p_mid_k k) (T_mid_k k) (qv_k k)) :=
  ⟨calculate_dz_eq C pseudo_density p_mid T_mid qv hp hg,
   calculate_virtual_temperature_eq C T_mid qv hep hqv,
   fun pd pm tm q dz => calculate_dz_column_levels C pd pm tm q dz⟩

/-- C21 at `sample_constants`, for a layer of 1000 Pa at 100000 Pa, 300 K and a
mixing ratio of 1/100. -/
theorem calculate_dz_documented_formula_witness :
    calculate_dz sample_constants 1000 100000 300 (1 / 100) =
      1000 * calculate_virtual_temperature sample_constants 300 (1 / 100)
        * sample_constants.RD / (100000 * sample_constants.gravit) ∧
    calculate_virtual_temperature sample_constants 300 (1 / 100) =
      300 * (1 / 100 + sample_constants.ep_2) / (sample_constants.ep_2 * (1 + 1 / 100)) ∧
    ∀ (pseudo_density_k p_mid_k T_mid_k qv_k : Nat → ℚ) (dz : List ℚ),
      (calculate_dz_column sample_constants pseudo_density_k p_mid_k T_mid_k qv_k dz).length
        = dz.length ∧
      ∀ k, k < dz.length →
        (calculate_dz_column sample_constants pseudo_density_k p_mid_k T_mid_k qv_k dz)[k]? =
          some (calculate_dz sample_constants (pseudo_density_k k) (p_mid_k k) (T_mid_k k)
            (qv_k k)) :=
  calculate_dz_documented_formula sample_constants 1000 100000 300 (1 / 100)
    (by norm_num) (by norm_num [sample_constants]) (by norm_num [sample_constants])
    (by norm_num)

/-- At `sample_constants` a layer of 1000 Pa at 100000 Pa, 300 K and a mixing
ratio of 1/100 has the virtual temperature 30480/101 K and the thickness
218694/2525 m (about 86.6 m); in a column of two such layers, the second at
50000 Pa, the second is twice as thick. -/
theorem calculate_dz_example :
    calculate_virtual_temperature sample_constants 300 (1 / 100) = 30480 / 101 ∧
    calculate_dz sample_constants 1000 100000 300 (1 / 100) = 218694 / 2525 ∧
    calculate_dz_column sample_constants (fun _ => 1000)
        (fun k => if k = 0 then 100000 else 50000) (fun _ => 300) (fun _ => 1 / 100) [0, 0]
      = [218694 / 2525, 437388 / 2525] := by
  refine ⟨?_, ?_, ?_⟩
  · norm_num [calculate_virtual_temperature, sample_constants]
  · norm_num [calculate_dz, calculate_virtual_temperature, sample_constants]
  · norm_num [calculate_dz_column, team_thread_range, List.range_succ, calculate_dz,
      calculate_virtual_temperature, sample_constants]

/-- C26. For `ep_2 ≠ 0`, `qv ≠ -1` and `qv ≠ -ep_2` the two conversions are mutual
inverses: `calculate_temperature_from_virtual_temperature` of
`calculate_virtual_temperature(T, qv)` is `T`, and
`calculate_virtual_temperature` of
`calculate_temperature_from_virtual_temperature(T, qv)` is `T`. -/
theorem virtual_temperature_conversions_inverse (C : physics.Constants) (T qv : ℚ)
    (hep : C.ep_2 ≠ 0) (hqv : qv ≠ -1) (hq2 : qv ≠ -C.ep_2) :
    calculate_temperature_from_virtual_temperature C (calculate_virtual_temperature C T qv) qv
      = T ∧
    calculate_virtual_temperature C (calculate_temperature_from_virtual_temperature C T qv) qv
      = T :=
  virtual_temperature_round_trip C T qv hep hqv hq2

/-- C26 at `sample_constants`, 300 K and a mixing ratio of 1/100. -/
theorem virtual_temperature_conversions_inverse_witness :
    calculate_temperature_from_virtual_temperature sample_constants
        (calculate_virtual_temperature sample_constants 300 (1 / 100)) (1 / 100) = 300 ∧
    calculate_virtual_temperature sample_constants
        (calculate_temperature_from_virtual_temperature sample_constants 300 (1 / 100))
        (1 / 100) = 300 :=
  virtual_temperature_conversions_inverse sample_constants 300 (1 / 100)
    (by norm_num [sample_constants]) (by norm_num) (by norm_num [sample_constants])

end scream.PhysicsFunctions

namespace pam

/-! ## Checked steps, index spaces and loops -/

theorem ret_bind {α β : Type} (a : α) (f : α → Checked β) : (Checked.ret a >>= f) = f a := rfl

theorem pure_eq_ret {α : Type} (a : α) : (pure a : Checked α) = Checked.ret a := rfl

theorem found_some {α : Type} (a : α) : Checked.found (some a) = Checked.ret a := rfl

theorem andThen_ret {α β : Type} (a : α) (f : α → Checked β) :
    Checked.andThen (Checked.ret a) f = f a := rfl

theorem mem_irange (n i : Int) : i ∈ irange n ↔ 0 ≤ i ∧ i < n := by
  unfold irange
  rw [List.mem_map]
  constructor
  · rintro ⟨k, hk, rfl⟩
    rw [List.mem_range] at hk
    exact ⟨Int.ofNat_nonneg k, Int.lt_toNat.mp hk⟩
  · rintro ⟨h0, h1⟩
    refine ⟨i.toNat, ?_, ?_⟩
    · rw [List.mem_range]
      omega
    · exact Int.toNat_of_nonneg h0

theorem mem_SimpleBounds2 (n0 n1 i0 i1 : Int) :
    (i0, i1) ∈ SimpleBounds2 n0 n1 ↔ (0 ≤ i0 ∧ i0 < n0) ∧ (0 ≤ i1 ∧ i1 < n1) := by
  unfold SimpleBounds2
  simp only [List.mem_flatMap, List.mem_map, Prod.mk.injEq, mem_irange]
  constructor
  · rintro ⟨a, ha, b, hb, rfl, rfl⟩
    exact ⟨ha, hb⟩
  · rintro ⟨ha, hb⟩
    exact ⟨i0, ha, i1, hb, rfl, rfl⟩

theorem mem_SimpleBounds4 (n0 n1 n2 n3 i0 i1 i2 i3 : Int) :
    (i0, i1, i2, i3) ∈ SimpleBounds4 n0 n1 n2 n3 ↔
      (0 ≤ i0 ∧ i0 < n0) ∧ (0 ≤ i1 ∧ i1 < n1) ∧ (0 ≤ i2 ∧ i2 < n2) ∧ (0 ≤ i3 ∧ i3 < n3) := by
  unfold SimpleBounds4
  simp only [List.mem_flatMap, List.mem_map, Prod.mk.injEq, mem_irange]
  constructor
  · rintro ⟨a, ha, b, hb, c, hc, d, hd, rfl, rfl, rfl, rfl⟩
    exact ⟨ha, hb, hc, hd⟩
  · rintro ⟨ha, hb, hc, hd⟩
    exact ⟨i0, ha, i1, hb, i2, hc, i3, hd, rfl, rfl, rfl, rfl⟩

theorem parallel_for_eq_foldl {ι σ : Type} (I : σ → Prop) (body : ι → σ → Checked σ)
    (g : ι → σ → σ) (l : List ι)
    (hstep : ∀ idx ∈ l, ∀ st, I st → body idx st = Checked.ret (g idx st) ∧ I (g idx st)) :
    ∀ st, I st →
      parallel_for l body st = Checked.ret (l.foldl (fun s idx => g idx s) st) ∧
      I (l.foldl (fun s idx => g idx s) st) := by
  induction l with
  | nil =>
    intro st hst
    exact ⟨rfl, hst⟩
  | cons idx rest ih =>
    intro st hst
    obtain ⟨h1, h2⟩ := hstep idx (List.mem_cons_self _ _) st hst
    have ih1 := ih (fun i hi => hstep i (List.mem_cons_of_mem _ hi)) (g idx st) h2
    unfold parallel_for
    rw [h1, andThen_ret]
    exact ih1

theorem foldl_proj {ι σ τ : Type} (proj : σ → τ) (g : ι → σ → σ) (h : ι → τ → τ)
    (hp : ∀ idx st, proj (g idx st) = h idx (proj st)) (l : List ι) :
    ∀ st, proj (l.foldl (fun s idx => g idx s) st) = l.foldl (fun a idx => h idx a) (proj st) := by
  induction l with
  | nil => intro st; rfl
  | cons idx rest ih =>
    intro st
    simp only [List.foldl_cons]
    rw [ih, hp]

/-! ## Accesses within the extents -/

theorem real2d.inside_iff (a : real2d) (i0 i1 : Int) :
    a.inside i0 i1 = true ↔ (0 ≤ i0 ∧ i0 < a.extent0) ∧ (0 ≤ i1 ∧ i1 < a.extent1) := by
  simp [real2d.inside, and_assoc]

theorem real4d.inside4_iff (a : real4d) (i0 i1 i2 i3 : Int) :
    a.inside i0 i1 i2 i3 = true ↔
      (0 ≤ i0 ∧ i0 < a.extent0) ∧ (0 ≤ i1 ∧ i1 < a.extent1) ∧
      (0 ≤ i2 ∧ i2 < a.extent2) ∧ (0 ≤ i3 ∧ i3 < a.extent3) := by
  simp [real4d.inside, and_assoc]

theorem real2d.read_inside (a : real2d) (i0 i1 : Int) (h : a.inside i0 i1 = true) :
    a.read i0 i1 = Checked.ret (a.data i0 i1) := by
  simp [real2d.read, h]

theorem real2d.read_outside (a : real2d) (i0 i1 : Int) (h : a.inside i0 i1 = false) :
    a.read i0 i1 = Checked.fail := by
  simp [real2d.read, h]

theorem real2d.write_inside (a : real2d) (i0 i1 : Int) (v : ℚ) (h : a.inside i0 i1 = true) :
    a.write i0 i1 v = Checked.ret (a.updated i0 i1 v) := by
  simp [real2d.write, h]

theorem real4d.read4_inside (a : real4d) (i0 i1 i2 i3 : Int) (h : a.inside i0 i1 i2 i3 = true) :
    a.read i0 i1 i2 i3 = Checked.ret (a.data i0 i1 i2 i3) := by
  simp [real4d.read, h]

theorem atomicAdd_inside (a : real2d) (i0 i1 : Int) (v : ℚ) (h : a.inside i0 i1 = true) :
    atomicAdd a i0 i1 v = Checked.ret (a.added i0 i1 v) := by
  unfold atomicAdd
  rw [real2d.read_inside a i0 i1 h, ret_bind, real2d.write_inside a i0 i1 _ h]
  rfl

theorem real2d.inside_updated (a : real2d) (i0 i1 j0 j1 : Int) (v : ℚ) :
    (a.updated i0 i1 v).inside j0 j1 = a.inside j0 j1 := rfl

theorem real2d.inside_of_extents (a : real2d) (e0 e1 i0 i1 : Int) (h : a.has_extents e0 e1)
    (h0 : 0 ≤ i0 ∧ i0 < e0) (h1 : 0 ≤ i1 ∧ i1 < e1) : a.inside i0 i1 = true := by
  rw [real2d.inside_iff, h.1, h.2]
  exact ⟨h0, h1⟩

theorem real4d.inside4_of_extents (a : real4d) (e0 e1 e2 e3 i0 i1 i2 i3 : Int)
    (h : a.has_extents e0 e1 e2 e3) (h0 : 0 ≤ i0 ∧ i0 < e0) (h1 : 0 ≤ i1 ∧ i1 < e1)
    (h2 : 0 ≤ i2 ∧ i2 < e2) (h3 : 0 ≤ i3 ∧ i3 < e3) : a.inside i0 i1 i2 i3 = true := by
  rw [real4d.inside4_iff, h.1, h.2.1, h.2.2.1, h.2.2.2]
  exact ⟨h0, h1, h2, h3⟩

/-! ## The two loops of `pam_output_compute_means` -/

theorem initialize_horizontal_means_eq (e0 e1 : Int) (idx : Int × Int) (m : Means)
    (hm : m.has_extents e0 e1) (h0 : 0 ≤ idx.1 ∧ idx.1 < e0) (h1 : 0 ≤ idx.2 ∧ idx.2 < e1) :
    initialize_horizontal_means idx m = Checked.ret (m.zeroed idx) ∧
      (m.zeroed idx).has_extents e0 e1 := by
  obtain ⟨a1, a2, a3, a4, a5, a6⟩ := hm
  refine ⟨?_, a1, a2, a3, a4, a5, a6⟩
  unfold initialize_horizontal_means
  simp only [real2d.write_inside _ _ _ _ (real2d.inside_of_extents _ e0 e1 _ _ a1 h0 h1),
    real2d.write_inside _ _ _ _ (real2d.inside_of_extents _ e0 e1 _ _ a2 h0 h1),
    real2d.write_inside _ _ _ _ (real2d.inside_of_extents _ e0 e1 _ _ a3 h0 h1),
    real2d.write_inside _ _ _ _ (real2d.inside_of_extents _ e0 e1 _ _ a4 h0 h1),
    real2d.write_inside _ _ _ _ (real2d.inside_of_extents _ e0 e1 _ _ a5 h0 h1),
    real2d.write_inside _ _ _ _ (real2d.inside_of_extents _ e0 e1 _ _ a6 h0 h1),
    ret_bind, pure_eq_ret]
  rfl


theorem horz_mean_of_crm_state_eq (gcm_nlev crm_nz crm_ny crm_nx nens : Int) (r_nx_ny : ℚ)
    (nc ni qr nr qm bm : real4d) (idx : Int × Int × Int × Int) (m : Means)
    (hm : m.has_extents gcm_nlev nens) (hle : crm_nz ≤ gcm_nlev)
    (hnc : nc.has_extents crm_nz crm_ny crm_nx nens)
    (hni : ni.has_extents crm_nz crm_ny crm_nx nens)
    (hqr : qr.has_extents crm_nz crm_ny crm_nx nens)
    (hnr : nr.has_extents crm_nz crm_ny crm_nx nens)
    (hqm : qm.has_extents crm_nz crm_ny crm_nx nens)
    (hbm : bm.has_extents crm_nz crm_ny crm_nx nens)
    (h0 : 0 ≤ idx.1 ∧ idx.1 < crm_nz) (h1 : 0 ≤ idx.2.1 ∧ idx.2.1 < crm_ny)
    (h2 : 0 ≤ idx.2.2.1 ∧ idx.2.2.1 < crm_nx) (h3 : 0 ≤ idx.2.2.2 ∧ idx.2.2.2 < nens) :
    horz_mean_of_crm_state gcm_nlev r_nx_ny nc ni qr nr qm bm idx m =
        Checked.ret (m.accumulated gcm_nlev r_nx_ny nc ni qr nr qm bm idx) ∧
      (m.accumulated gcm_nlev r_nx_ny nc ni qr nr qm bm idx).has_extents gcm_nlev nens := by
  obtain ⟨a1, a2, a3, a4, a5, a6⟩ := hm
  refine ⟨?_, a1, a2, a3, a4, a5, a6⟩
  have hk : 0 ≤ gcm_nlev - 1 - idx.1 ∧ gcm_nlev - 1 - idx.1 < gcm_nlev := by omega
  unfold horz_mean_of_crm_state
  simp only [real4d.read4_inside _ _ _ _ _ (real4d.inside4_of_extents _ _ _ _ _ _ _ _ _ hnc h0 h1 h2 h3),
    real4d.read4_inside _ _ _ _ _ (real4d.inside4_of_extents _ _ _ _ _ _ _ _ _ hni h0 h1 h2 h3),
    real4d.read4_inside _ _ _ _ _ (real4d.inside4_of_extents _ _ _ _ _ _ _ _ _ hqr h0 h1 h2 h3),
    real4d.read4_inside _ _ _ _ _ (real4d.inside4_of_extents _ _ _ _ _ _ _ _ _ hnr h0 h1 h2 h3),
    real4d.read4_inside _ _ _ _ _ (real4d.inside4_of_extents _ _ _ _ _ _ _ _ _ hqm h0 h1 h2 h3),
    real4d.read4_inside _ _ _ _ _ (real4d.inside4_of_extents _ _ _ _ _ _ _ _ _ hbm h0 h1 h2 h3),
    atomicAdd_inside _ _ _ _ (real2d.inside_of_extents _ gcm_nlev nens _ _ a1 hk h3),
    atomicAdd_inside _ _ _ _ (real2d.inside_of_extents _ gcm_nlev nens _ _ a2 hk h3),
    atomicAdd_inside _ _ _ _ (real2d.inside_of_extents _ gcm_nlev nens _ _ a3 hk h3),
    atomicAdd_inside _ _ _ _ (real2d.inside_of_extents _ gcm_nlev nens _ _ a4 hk h3),
    atomicAdd_inside _ _ _ _ (real2d.inside_of_extents _ gcm_nlev nens _ _ a5 hk h3),
    atomicAdd_inside _ _ _ _ (real2d.inside_of_extents _ gcm_nlev nens _ _ a6 hk h3),
    ret_bind, pure_eq_ret]
  rfl

/-! ## Loops that write one array -/

theorem foldl_updated (val : Int × Int → ℚ) (l : List (Int × Int)) :
    ∀ (a : real2d),
      (l.foldl (fun b idx => b.updated idx.1 idx.2 (val idx)) a).extent0 = a.extent0 ∧
      (l.foldl (fun b idx => b.updated idx.1 idx.2 (val idx)) a).extent1 = a.extent1 ∧
      ∀ i0 i1, (l.foldl (fun b idx => b.updated idx.1 idx.2 (val idx)) a).data i0 i1 =
        if (i0, i1) ∈ l then val (i0, i1) else a.data i0 i1 := by
  induction l with
  | nil => intro a; simp
  | cons idx rest ih =>
    intro a
    obtain ⟨h0, h1, hd⟩ := ih (a.updated idx.1 idx.2 (val idx))
    simp only [List.foldl_cons]
    refine ⟨h0, h1, ?_⟩
    intro i0 i1
    rw [hd]
    by_cases hr : (i0, i1) ∈ rest
    · simp [hr]
    · by_cases he : (i0, i1) = idx
      · subst he
        simp [hr, real2d.updated]
      · have hne : ¬ (i0 = idx.1 ∧ i1 = idx.2) := fun h => he (Prod.ext h.1 h.2)
        simp [hr, he, real2d.updated, hne]

theorem foldl_contribution (gcm_nlev : Int) (r_nx_ny : ℚ) (x : real4d)
    (l : List (Int × Int × Int × Int)) :
    ∀ (a : real2d),
      (l.foldl (fun b idx => contribution gcm_nlev r_nx_ny x idx b) a).extent0 = a.extent0 ∧
      (l.foldl (fun b idx => contribution gcm_nlev r_nx_ny x idx b) a).extent1 = a.extent1 ∧
      ∀ k_gcm iens,
        (l.foldl (fun b idx => contribution gcm_nlev r_nx_ny x idx b) a).data k_gcm iens =
          a.data k_gcm iens +
            (l.map fun idx => if gcm_nlev - 1 - idx.1 = k_gcm ∧ idx.2.2.2 = iens
              then x.data idx.1 idx.2.1 idx.2.2.1 idx.2.2.2 * r_nx_ny else 0).sum := by
  induction l with
  | nil => intro a; simp
  | cons idx rest ih =>
    intro a
    obtain ⟨h0, h1, hd⟩ := ih (contribution gcm_nlev r_nx_ny x idx a)
    simp only [List.foldl_cons]
    refine ⟨h0, h1, ?_⟩
    intro k_gcm iens
    rw [hd]
    simp only [List.map_cons, List.sum_cons]
    by_cases hc : gcm_nlev - 1 - idx.1 = k_gcm ∧ idx.2.2.2 = iens
    · have hc' : k_gcm = gcm_nlev - 1 - idx.1 ∧ iens = idx.2.2.2 := ⟨hc.1.symm, hc.2.symm⟩
      simp only [contribution, real2d.added, real2d.updated, if_pos hc, if_pos hc']
      rw [hc.1, hc.2]
      ring
    · have hc' : ¬ (k_gcm = gcm_nlev - 1 - idx.1 ∧ iens = idx.2.2.2) :=
        fun h => hc ⟨h.1.symm, h.2.symm⟩
      simp only [contribution, real2d.added, real2d.updated, if_neg hc, if_neg hc']
      ring

/-! ## Sums over the index space -/

theorem nodup_irange (n : Int) : (irange n).Nodup := by
  unfold irange
  exact (List.nodup_range _).map (fun a b h => Int.ofNat.inj h)

theorem sum_map_ite_eq_of_nodup (l : List Int) (hl : l.Nodup) (c : Int) (g : Int → ℚ) :
    (l.map fun i => if i = c then g i else 0).sum = if c ∈ l then g c else 0 := by
  induction l with
  | nil => simp
  | cons a rest ih =>
    rw [List.nodup_cons] at hl
    simp only [List.map_cons, List.sum_cons, ih hl.2, List.mem_cons]
    by_cases hac : a = c
    · subst hac
      simp [hl.1]
    · have hca : ¬ c = a := fun h => hac h.symm
      simp [hac, hca]

theorem sum_irange_ite (n c : Int) (g : Int → ℚ) (hc : 0 ≤ c ∧ c < n) :
    ((irange n).map fun i => if i = c then g i else 0).sum = g c := by
  rw [sum_map_ite_eq_of_nodup _ (nodup_irange n), if_pos ((mem_irange n c).mpr hc)]

theorem sum_map_zero {α : Type} (l : List α) : (l.map fun _ => (0 : ℚ)).sum = 0 := by
  induction l with
  | nil => rfl
  | cons a rest ih => simp [ih]

theorem sum_flatMap_map {α β : Type} (l : List α) (g : α → List β) (h : β → ℚ) :
    ((l.flatMap g).map h).sum = (l.map fun x => ((g x).map h).sum).sum := by
  induction l with
  | nil => rfl
  | cons x l ih => simp [List.flatMap_cons, ih]

theorem sum_SimpleBounds4_level (n0 n1 n2 n3 kc ie : Int) (f : Int → Int → Int → Int → ℚ)
    (hk : 0 ≤ kc ∧ kc < n0) (he : 0 ≤ ie ∧ ie < n3) :
    ((SimpleBounds4 n0 n1 n2 n3).map fun idx =>
        if idx.1 = kc ∧ idx.2.2.2 = ie then f idx.1 idx.2.1 idx.2.2.1 idx.2.2.2 else 0).sum =
      ((irange n1).map fun j => ((irange n2).map fun i => f kc j i ie).sum).sum := by
  unfold SimpleBounds4
  rw [sum_flatMap_map]
  have h1 : ∀ i0 : Int,
      (((irange n1).flatMap fun i1 => (irange n2).flatMap fun i2 =>
          (irange n3).map fun i3 => (i0, i1, i2, i3)).map fun idx =>
            if idx.1 = kc ∧ idx.2.2.2 = ie
              then f idx.1 idx.2.1 idx.2.2.1 idx.2.2.2 else 0).sum =
        if i0 = kc then
          ((irange n1).map fun j => ((irange n2).map fun i => f i0 j i ie).sum).sum
        else 0 := by
    intro i0
    rw [sum_flatMap_map]
    by_cases h0 : i0 = kc
    · rw [if_pos h0]
      congr 1
      apply List.map_congr_left
      intro j _
      rw [sum_flatMap_map]
      congr 1
      apply List.map_congr_left
      intro i _
      rw [List.map_map]
      have : ((fun idx : Int × Int × Int × Int =>
          if idx.1 = kc ∧ idx.2.2.2 = ie then f idx.1 idx.2.1 idx.2.2.1 idx.2.2.2 else 0) ∘
            fun i3 => (i0, j, i, i3)) = fun i3 => if i3 = ie then f i0 j i i3 else 0 := by
        funext i3
        simp [h0]
      rw [this, sum_irange_ite n3 ie (fun i3 => f i0 j i i3) he]
    · rw [if_neg h0]
      apply List.sum_eq_zero
      intro v hv
      rw [List.mem_map] at hv
      obtain ⟨j, -, rfl⟩ := hv
      apply List.sum_eq_zero
      intro v hv
      rw [List.mem_map] at hv
      obtain ⟨idx, hidx, rfl⟩ := hv
      rw [List.mem_flatMap] at hidx
      obtain ⟨i, -, hidx⟩ := hidx
      rw [List.mem_map] at hidx
      obtain ⟨i3, -, rfl⟩ := hidx
      simp [h0]
  rw [List.map_congr_left (fun i0 _ => h1 i0)]
  exact sum_irange_ite n0 kc
    (fun i0 => ((irange n1).map fun j => ((irange n2).map fun i => f i0 j i ie).sum).sum) hk

theorem sum_sum_mul_right (l1 l2 : List Int) (f : Int → Int → ℚ) (r : ℚ) :
    (l1.map fun j => (l2.map fun i => f j i * r).sum).sum =
      (l1.map fun j => (l2.map fun i => f j i).sum).sum * r := by
  rw [← List.sum_map_mul_right]
  congr 1
  apply List.map_congr_left
  intro j _
  rw [List.sum_map_mul_right]


/-! ## The means that the two loops leave -/

theorem mean_of_loops (gcm_nlev crm_nz crm_ny crm_nx nens : Int) (x : real4d) (a : real2d)
    (ha : a.has_extents gcm_nlev nens) (hle : crm_nz ≤ gcm_nlev) :
    is_horizontal_mean
      ((SimpleBounds4 crm_nz crm_ny crm_nx nens).foldl
        (fun b idx => contribution gcm_nlev (1 / ((crm_nx * crm_ny : Int) : ℚ)) x idx b)
        ((SimpleBounds2 gcm_nlev nens).foldl (fun b idx => b.updated idx.1 idx.2 0) a))
      x crm_nz crm_ny crm_nx nens gcm_nlev := by
  obtain ⟨z0, z1, zd⟩ := foldl_updated (fun _ => 0) (SimpleBounds2 gcm_nlev nens) a
  obtain ⟨c0, c1, cd⟩ := foldl_contribution gcm_nlev (1 / ((crm_nx * crm_ny : Int) : ℚ)) x
    (SimpleBounds4 crm_nz crm_ny crm_nx nens)
    ((SimpleBounds2 gcm_nlev nens).foldl (fun b idx => b.updated idx.1 idx.2 0) a)
  refine ⟨⟨by rw [c0, z0, ha.1], by rw [c1, z1, ha.2]⟩, ?_, ?_⟩
  · intro k_crm iens hk0 hk1 he0 he1
    have hmem : (gcm_nlev - 1 - k_crm, iens) ∈ SimpleBounds2 gcm_nlev nens := by
      rw [mem_SimpleBounds2]
      omega
    rw [cd, zd, if_pos hmem, zero_add]
    have hfun : (fun idx : Int × Int × Int × Int =>
        if gcm_nlev - 1 - idx.1 = gcm_nlev - 1 - k_crm ∧ idx.2.2.2 = iens
          then x.data idx.1 idx.2.1 idx.2.2.1 idx.2.2.2 * (1 / ((crm_nx * crm_ny : Int) : ℚ))
          else 0) =
        fun idx => if idx.1 = k_crm ∧ idx.2.2.2 = iens
          then x.data idx.1 idx.2.1 idx.2.2.1 idx.2.2.2 * (1 / ((crm_nx * crm_ny : Int) : ℚ))
          else 0 := by
      funext idx
      have hiff : (gcm_nlev - 1 - idx.1 = gcm_nlev - 1 - k_crm ∧ idx.2.2.2 = iens) ↔
          (idx.1 = k_crm ∧ idx.2.2.2 = iens) := by
        constructor
        · rintro ⟨h1, h2⟩; exact ⟨by omega, h2⟩
        · rintro ⟨h1, h2⟩; exact ⟨by omega, h2⟩
      simp only [hiff]
    rw [hfun, sum_SimpleBounds4_level crm_nz crm_ny crm_nx nens k_crm iens
      (fun k j i e => x.data k j i e * (1 / ((crm_nx * crm_ny : Int) : ℚ))) ⟨hk0, hk1⟩
      ⟨he0, he1⟩, sum_sum_mul_right, mul_one_div]
  · intro k_gcm iens hk0 hkg hk1 he0 he1
    have hmem : (k_gcm, iens) ∈ SimpleBounds2 gcm_nlev nens := by
      rw [mem_SimpleBounds2]
      omega
    rw [cd, zd, if_pos hmem, zero_add]
    apply List.sum_eq_zero
    intro v hv
    rw [List.mem_map] at hv
    obtain ⟨⟨i0, i1, i2, i3⟩, hidx, rfl⟩ := hv
    rw [mem_SimpleBounds4] at hidx
    have hne : ¬ (gcm_nlev - 1 - i0 = k_gcm ∧ i3 = iens) := by
      rintro ⟨h1, -⟩
      omega
    simp only [if_neg hne]

theorem means_of_loops (gcm_nlev crm_nz crm_ny crm_nx nens : Int)
    (nc ni qr nr qm bm : real4d) (m : Means)
    (hm : m.has_extents gcm_nlev nens) (hle : crm_nz ≤ gcm_nlev)
    (hnc : nc.has_extents crm_nz crm_ny crm_nx nens)
    (hni : ni.has_extents crm_nz crm_ny crm_nx nens)
    (hqr : qr.has_extents crm_nz crm_ny crm_nx nens)
    (hnr : nr.has_extents crm_nz crm_ny crm_nx nens)
    (hqm : qm.has_extents crm_nz crm_ny crm_nx nens)
    (hbm : bm.has_extents crm_nz crm_ny crm_nx nens) :
    ∃ m1 m2,
      parallel_for (SimpleBounds2 gcm_nlev nens) initialize_horizontal_means m = Checked.ret m1 ∧
      parallel_for (SimpleBounds4 crm_nz crm_ny crm_nx nens)
        (horz_mean_of_crm_state gcm_nlev (1 / ((crm_nx * crm_ny : Int) : ℚ)) nc ni qr nr qm bm)
        m1 = Checked.ret m2 ∧
      is_horizontal_mean m2.nc_mean nc crm_nz crm_ny crm_nx nens gcm_nlev ∧
      is_horizontal_mean m2.ni_mean ni crm_nz crm_ny crm_nx nens gcm_nlev ∧
      is_horizontal_mean m2.qr_mean qr crm_nz crm_ny crm_nx nens gcm_nlev ∧
      is_horizontal_mean m2.nr_mean nr crm_nz crm_ny crm_nx nens gcm_nlev ∧
      is_horizontal_mean m2.qm_mean qm crm_nz crm_ny crm_nx nens gcm_nlev ∧
      is_horizontal_mean m2.bm_mean bm crm_nz crm_ny crm_nx nens gcm_nlev := by
  obtain ⟨h1, h1e⟩ := parallel_for_eq_foldl (fun st : Means => st.has_extents gcm_nlev nens)
    initialize_horizontal_means Means.zeroed (SimpleBounds2 gcm_nlev nens)
    (fun idx hidx st hst => by
      obtain ⟨i0, i1⟩ := idx
      rw [mem_SimpleBounds2] at hidx
      exact initialize_horizontal_means_eq gcm_nlev nens (i0, i1) st hst hidx.1 hidx.2)
    m hm
  obtain ⟨h2, -⟩ := parallel_for_eq_foldl (fun st : Means => st.has_extents gcm_nlev nens)
    (horz_mean_of_crm_state gcm_nlev (1 / ((crm_nx * crm_ny : Int) : ℚ)) nc ni qr nr qm bm)
    (Means.accumulated gcm_nlev (1 / ((crm_nx * crm_ny : Int) : ℚ)) nc ni qr nr qm bm)
    (SimpleBounds4 crm_nz crm_ny crm_nx nens)
    (fun idx hidx st hst => by
      obtain ⟨i0, i1, i2, i3⟩ := idx
      rw [mem_SimpleBounds4] at hidx
      exact horz_mean_of_crm_state_eq gcm_nlev crm_nz crm_ny crm_nx nens _ nc ni qr nr qm bm
        (i0, i1, i2, i3) st hst hle hnc hni hqr hnr hqm hbm hidx.1 hidx.2.1 hidx.2.2.1
        hidx.2.2.2)
    _ h1e
  refine ⟨_, _, h1, h2, ?_, ?_, ?_, ?_, ?_, ?_⟩
  · rw [foldl_proj Means.nc_mean _ (contribution gcm_nlev _ nc) (fun _ _ => rfl),
      foldl_proj Means.nc_mean Means.zeroed (fun idx b => b.updated idx.1 idx.2 0)
        (fun _ _ => rfl)]
    exact mean_of_loops gcm_nlev crm_nz crm_ny crm_nx nens nc _ hm.1 hle
  · rw [foldl_proj Means.ni_mean _ (contribution gcm_nlev _ ni) (fun _ _ => rfl),
      foldl_proj Means.ni_mean Means.zeroed (fun idx b => b.updated idx.1 idx.2 0)
        (fun _ _ => rfl)]
    exact mean_of_loops gcm_nlev crm_nz crm_ny crm_nx nens ni _ hm.2.1 hle
  · rw [foldl_proj Means.qr_mean _ (contribution gcm_nlev _ qr) (fun _ _ => rfl),
      foldl_proj Means.qr_mean Means.zeroed (fun idx b => b.updated idx.1 idx.2 0)
        (fun _ _ => rfl)]
    exact mean_of_loops gcm_nlev crm_nz crm_ny crm_nx nens qr _ hm.2.2.1 hle
  · rw [foldl_proj Means.nr_mean _ (contribution gcm_nlev _ nr) (fun _ _ => rfl),
      foldl_proj Means.nr_mean Means.zeroed (fun idx b => b.updated idx.1 idx.2 0)
        (fun _ _ => rfl)]
    exact mean_of_loops gcm_nlev crm_nz crm_ny crm_nx nens nr _ hm.2.2.2.1 hle
  · rw [foldl_proj Means.qm_mean _ (contribution gcm_nlev _ qm) (fun _ _ => rfl),
      foldl_proj Means.qm_mean Means.zeroed (fun idx b => b.updated idx.1 idx.2 0)
        (fun _ _ => rfl)]
    exact mean_of_loops gcm_nlev crm_nz crm_ny crm_nx nens qm _ hm.2.2.2.2.1 hle
  · rw [foldl_proj Means.bm_mean _ (contribution gcm_nlev _ bm) (fun _ _ => rfl),
      foldl_proj Means.bm_mean Means.zeroed (fun idx b => b.updated idx.1 idx.2 0)
        (fun _ _ => rfl)]
    exact mean_of_loops gcm_nlev crm_nz crm_ny crm_nx nens bm _ hm.2.2.2.2.2 hle


/-! ## The data manager -/

theorem register_and_allocate_ok (dm : DataManager) (name : String) (e0 e1 : Int)
    (d0 d1 : String) (contents : Int → Int → ℚ) (hfree : dm.entries.lookup name = none)
    (hd0 : dm.dimensions.lookup d0 = none ∨ dm.dimensions.lookup d0 = some e0)
    (hd1 : dm.dimensions.lookup d1 = some e1) (hne : (d1 == d0) = false) :
    ∃ dm1, dm.register_and_allocate name e0 e1 d0 d1 contents = Checked.ret dm1 ∧
      dm1.entries =
        (name, Entry.rank2 { extent0 := e0, extent1 := e1, data := contents }) :: dm.entries ∧
      dm1.dimensions.lookup d0 = some e0 ∧ dm1.dimensions.lookup d1 = some e1 := by
  unfold DataManager.register_and_allocate
  rcases hd0 with hd0 | hd0
  · refine ⟨{ dimensions := (d0, e0) :: dm.dimensions,
               entries := (name, Entry.rank2 { extent0 := e0, extent1 := e1, data := contents })
                 :: dm.entries }, ?_, rfl, ?_, ?_⟩
    · simp only [hfree, Option.isSome_none, Bool.false_eq_true, if_false,
        DataManager.add_dimension, hd0, ret_bind, List.lookup_cons, hne, hd1, if_true,
        pure_eq_ret]
    · simp [List.lookup_cons]
    · simp [List.lookup_cons, hne, hd1]
  · refine ⟨{ dm with
               entries := (name, Entry.rank2 { extent0 := e0, extent1 := e1, data := contents })
                 :: dm.entries }, ?_, rfl, hd0, hd1⟩
    simp only [hfree, Option.isSome_none, Bool.false_eq_true, if_false,
      DataManager.add_dimension, hd0, ret_bind, hd1, if_true, pure_eq_ret]

theorem lookup_store (dm : DataManager) (name : String) (a : real2d) (m : String) :
    (dm.store name a).entries.lookup m =
      if m = name then (dm.entries.lookup m).map (fun _ => Entry.rank2 a)
      else dm.entries.lookup m := by
  unfold DataManager.store
  simp only
  induction dm.entries with
  | nil => simp
  | cons e rest ih =>
    obtain ⟨k, v⟩ := e
    by_cases hk : k = name
    · subst hk
      by_cases hm : m = k
      · subst hm
        simp [List.lookup_cons]
      · have hmk : (m == k) = false := by simpa using hm
        simp only [List.map_cons, if_true, List.lookup_cons, hmk, ih, if_neg hm]
    · by_cases hm : m = name
      · subst hm
        have hmk : (m == k) = false := by
          simp only [beq_eq_false_iff_ne, ne_eq]
          exact fun h => hk h.symm
        simp only [List.map_cons, if_neg hk, List.lookup_cons, hmk, ih, if_true]
      · simp only [List.map_cons, if_neg hk, List.lookup_cons, ih, if_neg hm]

theorem get2_store_same (dm : DataManager) (name : String) (a : real2d) (e : Entry)
    (h : dm.entries.lookup name = some e) : (dm.store name a).get2 name = Checked.ret a := by
  unfold DataManager.get2
  rw [lookup_store, if_pos rfl, h]
  rfl

theorem get2_store_ne (dm : DataManager) (name : String) (a : real2d) (m : String)
    (h : m ≠ name) : (dm.store name a).get2 m = dm.get2 m := by
  unfold DataManager.get2
  rw [lookup_store, if_neg h]

theorem lookup_store_ne (dm : DataManager) (name : String) (a : real2d) (m : String)
    (h : m ≠ name) : (dm.store name a).entries.lookup m = dm.entries.lookup m := by
  rw [lookup_store, if_neg h]

theorem lookup_store_some (dm : DataManager) (name : String) (a : real2d) (m : String)
    (e : Entry) (h : dm.entries.lookup m = some e) :
    ∃ e1, (dm.store name a).entries.lookup m = some e1 := by
  rw [lookup_store]
  split
  · exact ⟨_, by rw [h]; rfl⟩
  · exact ⟨e, h⟩


/-! ## The result of `pam_output_compute_means` -/

theorem compute_means_result (coupler : PamCoupler) (crm_nz crm_ny crm_nx nens gcm_nlev : Int)
    (nc ni qr nr qm bm : real4d)
    (h : MeansInput coupler crm_nz crm_ny crm_nx nens gcm_nlev nc ni qr nr qm bm)
    (hle : crm_nz ≤ gcm_nlev) :
    ∃ coupler1, pam_output_compute_means coupler = Checked.ret coupler1 ∧
      coupler1.dm_host = coupler.dm_host ∧ coupler1.options = coupler.options ∧
      (∃ a, coupler1.dm_device.get2 "nc_mean" = Checked.ret a ∧
        is_horizontal_mean a nc crm_nz crm_ny crm_nx nens gcm_nlev) ∧
      (∃ a, coupler1.dm_device.get2 "ni_mean" = Checked.ret a ∧
        is_horizontal_mean a ni crm_nz crm_ny crm_nx nens gcm_nlev) ∧
      (∃ a, coupler1.dm_device.get2 "qr_mean" = Checked.ret a ∧
        is_horizontal_mean a qr crm_nz crm_ny crm_nx nens gcm_nlev) ∧
      (∃ a, coupler1.dm_device.get2 "nr_mean" = Checked.ret a ∧
        is_horizontal_mean a nr crm_nz crm_ny crm_nx nens gcm_nlev) ∧
      (∃ a, coupler1.dm_device.get2 "qm_mean" = Checked.ret a ∧
        is_horizontal_mean a qm crm_nz crm_ny crm_nx nens gcm_nlev) ∧
      (∃ a, coupler1.dm_device.get2 "bm_mean" = Checked.ret a ∧
        is_horizontal_mean a bm crm_nz crm_ny crm_nx nens gcm_nlev) := by
  have hne : ("nens" == "gcm_lev") = false := by decide
  obtain ⟨dm1, hr1, he1, hg1, hn1⟩ := register_and_allocate_ok coupler.dm_device "nc_mean"
    gcm_nlev nens "gcm_lev" "nens" (coupler.uninitialized "nc_mean") h.free_nc_mean
    h.dim_gcm_lev h.dim_nens hne
  obtain ⟨dm2, hr2, he2, hg2, hn2⟩ := register_and_allocate_ok dm1 "ni_mean"
    gcm_nlev nens "gcm_lev" "nens" (coupler.uninitialized "ni_mean")
    (by rw [he1, List.lookup_cons]; simp only [h.free_ni_mean]; rfl) (Or.inr hg1) hn1 hne
  obtain ⟨dm3, hr3, he3, hg3, hn3⟩ := register_and_allocate_ok dm2 "qr_mean"
    gcm_nlev nens "gcm_lev" "nens" (coupler.uninitialized "qr_mean")
    (by rw [he2, he1]; simp only [List.lookup_cons, h.free_qr_mean]; rfl) (Or.inr hg2) hn2 hne
  obtain ⟨dm4, hr4, he4, hg4, hn4⟩ := register_and_allocate_ok dm3 "nr_mean"
    gcm_nlev nens "gcm_lev" "nens" (coupler.uninitialized "nr_mean")
    (by rw [he3, he2, he1]; simp only [List.lookup_cons, h.free_nr_mean]; rfl) (Or.inr hg3)
    hn3 hne
  obtain ⟨dm5, hr5, he5, hg5, hn5⟩ := register_and_allocate_ok dm4 "qm_mean"
    gcm_nlev nens "gcm_lev" "nens" (coupler.uninitialized "qm_mean")
    (by rw [he4, he3, he2, he1]; simp only [List.lookup_cons, h.free_qm_mean]; rfl)
    (Or.inr hg4) hn4 hne
  obtain ⟨dm6, hr6, he6, hg6, hn6⟩ := register_and_allocate_ok dm5 "bm_mean"
    gcm_nlev nens "gcm_lev" "nens" (coupler.uninitialized "bm_mean")
    (by rw [he5, he4, he3, he2, he1]; simp only [List.lookup_cons, h.free_bm_mean]; rfl)
    (Or.inr hg5) hn5 hne
  have he : dm6.entries =
      ("bm_mean", Entry.rank2 ⟨gcm_nlev, nens, coupler.uninitialized "bm_mean"⟩) ::
      ("qm_mean", Entry.rank2 ⟨gcm_nlev, nens, coupler.uninitialized "qm_mean"⟩) ::
      ("nr_mean", Entry.rank2 ⟨gcm_nlev, nens, coupler.uninitialized "nr_mean"⟩) ::
      ("qr_mean", Entry.rank2 ⟨gcm_nlev, nens, coupler.uninitialized "qr_mean"⟩) ::
      ("ni_mean", Entry.rank2 ⟨gcm_nlev, nens, coupler.uninitialized "ni_mean"⟩) ::
      ("nc_mean", Entry.rank2 ⟨gcm_nlev, nens, coupler.uninitialized "nc_mean"⟩) ::
      coupler.dm_device.entries := by
    rw [he6, he5, he4, he3, he2, he1]
  have g_nc : dm6.get2 "nc_mean" =
      Checked.ret ⟨gcm_nlev, nens, coupler.uninitialized "nc_mean"⟩ := by
    unfold DataManager.get2
    rw [he]
    rfl
  have s_nc : coupler.dm_device.get4 "cloud_water_num" = Checked.ret nc := by
    unfold DataManager.get4
    rw [h.has_nc]
  have g_ni : dm6.get2 "ni_mean" =
      Checked.ret ⟨gcm_nlev, nens, coupler.uninitialized "ni_mean"⟩ := by
    unfold DataManager.get2
    rw [he]
    rfl
  have s_ni : coupler.dm_device.get4 "ice_num" = Checked.ret ni := by
    unfold DataManager.get4
    rw [h.has_ni]
  have g_qr : dm6.get2 "qr_mean" =
      Checked.ret ⟨gcm_nlev, nens, coupler.uninitialized "qr_mean"⟩ := by
    unfold DataManager.get2
    rw [he]
    rfl
  have s_qr : coupler.dm_device.get4 "rain" = Checked.ret qr := by
    unfold DataManager.get4
    rw [h.has_qr]
  have g_nr : dm6.get2 "nr_mean" =
      Checked.ret ⟨gcm_nlev, nens, coupler.uninitialized "nr_mean"⟩ := by
    unfold DataManager.get2
    rw [he]
    rfl
  have s_nr : coupler.dm_device.get4 "rain_num" = Checked.ret nr := by
    unfold DataManager.get4
    rw [h.has_nr]
  have g_qm : dm6.get2 "qm_mean" =
      Checked.ret ⟨gcm_nlev, nens, coupler.uninitialized "qm_mean"⟩ := by
    unfold DataManager.get2
    rw [he]
    rfl
  have s_qm : coupler.dm_device.get4 "ice_rime" = Checked.ret qm := by
    unfold DataManager.get4
    rw [h.has_qm]
  have g_bm : dm6.get2 "bm_mean" =
      Checked.ret ⟨gcm_nlev, nens, coupler.uninitialized "bm_mean"⟩ := by
    unfold DataManager.get2
    rw [he]
    rfl
  have s_bm : coupler.dm_device.get4 "ice_rime_vol" = Checked.ret bm := by
    unfold DataManager.get4
    rw [h.has_bm]
  obtain ⟨m1, m2, hp1, hp2, k1, k2, k3, k4, k5, k6⟩ := means_of_loops gcm_nlev crm_nz crm_ny
    crm_nx nens nc ni qr nr qm bm
    { nc_mean := ⟨gcm_nlev, nens, coupler.uninitialized "nc_mean"⟩,
      ni_mean := ⟨gcm_nlev, nens, coupler.uninitialized "ni_mean"⟩,
      qr_mean := ⟨gcm_nlev, nens, coupler.uninitialized "qr_mean"⟩,
      nr_mean := ⟨gcm_nlev, nens, coupler.uninitialized "nr_mean"⟩,
      qm_mean := ⟨gcm_nlev, nens, coupler.uninitialized "qm_mean"⟩,
      bm_mean := ⟨gcm_nlev, nens, coupler.uninitialized "bm_mean"⟩ }
    ⟨⟨rfl, rfl⟩, ⟨rfl, rfl⟩, ⟨rfl, rfl⟩, ⟨rfl, rfl⟩, ⟨rfl, rfl⟩, ⟨rfl, rfl⟩⟩ hle
    h.ext_nc h.ext_ni h.ext_qr h.ext_nr h.ext_qm h.ext_bm
  have hrun : pam_output_compute_means coupler = Checked.ret
      { coupler with
        dm_device := (((((dm6.store "nc_mean" m2.nc_mean).store "ni_mean" m2.ni_mean).store
          "qr_mean" m2.qr_mean).store "nr_mean" m2.nr_mean).store "qm_mean" m2.qm_mean).store
          "bm_mean" m2.bm_mean } := by
    unfold pam_output_compute_means
    simp only [DataManager.get_dimension_size, PamCoupler.get_option, h.dim_z, h.dim_y, h.dim_x,
      h.dim_nens, h.opt_gcm_nlev, found_some, ret_bind, s_nc, s_ni, s_qr, s_nr, s_qm, s_bm,
      hr1, hr2, hr3, hr4, hr5, hr6, g_nc, g_ni, g_qr, g_nr, g_qm, g_bm, hp1, hp2, pure_eq_ret]
  have l_nc : ∃ e, dm6.entries.lookup "nc_mean" = some e := ⟨_, by rw [he]; rfl⟩
  have l_ni : ∃ e, dm6.entries.lookup "ni_mean" = some e := ⟨_, by rw [he]; rfl⟩
  have l_qr : ∃ e, dm6.entries.lookup "qr_mean" = some e := ⟨_, by rw [he]; rfl⟩
  have l_nr : ∃ e, dm6.entries.lookup "nr_mean" = some e := ⟨_, by rw [he]; rfl⟩
  have l_qm : ∃ e, dm6.entries.lookup "qm_mean" = some e := ⟨_, by rw [he]; rfl⟩
  have l_bm : ∃ e, dm6.entries.lookup "bm_mean" = some e := ⟨_, by rw [he]; rfl⟩
  refine ⟨_, hrun, rfl, rfl, ⟨m2.nc_mean, ?_, k1⟩, ⟨m2.ni_mean, ?_, k2⟩, ⟨m2.qr_mean, ?_, k3⟩,
    ⟨m2.nr_mean, ?_, k4⟩, ⟨m2.qm_mean, ?_, k5⟩, ⟨m2.bm_mean, ?_, k6⟩⟩
  · obtain ⟨e, hl⟩ := l_nc
    rw [get2_store_ne _ _ _ _ (by decide), get2_store_ne _ _ _ _ (by decide),
      get2_store_ne _ _ _ _ (by decide), get2_store_ne _ _ _ _ (by decide),
      get2_store_ne _ _ _ _ (by decide)]
    exact get2_store_same _ _ _ e hl
  · obtain ⟨e, hl⟩ := l_ni
    rw [get2_store_ne _ _ _ _ (by decide), get2_store_ne _ _ _ _ (by decide),
      get2_store_ne _ _ _ _ (by decide), get2_store_ne _ _ _ _ (by decide)]
    exact get2_store_same _ _ _ e (by rw [lookup_store_ne _ _ _ _ (by decide)]; exact hl)
  · obtain ⟨e, hl⟩ := l_qr
    rw [get2_store_ne _ _ _ _ (by decide), get2_store_ne _ _ _ _ (by decide),
      get2_store_ne _ _ _ _ (by decide)]
    exact get2_store_same _ _ _ e (by
      rw [lookup_store_ne _ _ _ _ (by decide), lookup_store_ne _ _ _ _ (by decide)]; exact hl)
  · obtain ⟨e, hl⟩ := l_nr
    rw [get2_store_ne _ _ _ _ (by decide), get2_store_ne _ _ _ _ (by decide)]
    exact get2_store_same _ _ _ e (by
      rw [lookup_store_ne _ _ _ _ (by decide), lookup_store_ne _ _ _ _ (by decide),
        lookup_store_ne _ _ _ _ (by decide)]; exact hl)
  · obtain ⟨e, hl⟩ := l_qm
    rw [get2_store_ne _ _ _ _ (by decide)]
    exact get2_store_same _ _ _ e (by
      rw [lookup_store_ne _ _ _ _ (by decide), lookup_store_ne _ _ _ _ (by decide),
        lookup_store_ne _ _ _ _ (by decide), lookup_store_ne _ _ _ _ (by decide)]; exact hl)
  · obtain ⟨e, hl⟩ := l_bm
    exact get2_store_same _ _ _ e (by
      rw [lookup_store_ne _ _ _ _ (by decide), lookup_store_ne _ _ _ _ (by decide),
        lookup_store_ne _ _ _ _ (by decide), lookup_store_ne _ _ _ _ (by decide),
        lookup_store_ne _ _ _ _ (by decide)]; exact hl)


/-! ## The loop and the copies of `pam_output_copy_to_host` -/

theorem convert_to_gcm_grid_eq (gcm_nlev crm_nz nens : Int)
    (gcm_forcing_tend_temp gcm_forcing_tend_rho_d gcm_forcing_tend_rho_v : real2d)
    (idx : Int × Int) (out : ForcingOut) (ho : out.has_extents gcm_nlev nens)
    (ht : gcm_forcing_tend_temp.has_extents crm_nz nens)
    (hd : gcm_forcing_tend_rho_d.has_extents crm_nz nens)
    (hv : gcm_forcing_tend_rho_v.has_extents crm_nz nens)
    (h0 : 0 ≤ idx.1 ∧ idx.1 < gcm_nlev) (h1 : 0 ≤ idx.2 ∧ idx.2 < nens) :
    convert_to_gcm_grid gcm_nlev crm_nz gcm_forcing_tend_temp gcm_forcing_tend_rho_d
        gcm_forcing_tend_rho_v idx out =
      Checked.ret (out.converted gcm_nlev crm_nz gcm_forcing_tend_temp gcm_forcing_tend_rho_d
        gcm_forcing_tend_rho_v idx) ∧
    (out.converted gcm_nlev crm_nz gcm_forcing_tend_temp gcm_forcing_tend_rho_d
        gcm_forcing_tend_rho_v idx).has_extents gcm_nlev nens := by
  obtain ⟨a1, a2, a3⟩ := ho
  refine ⟨?_, a1, a2, a3⟩
  unfold convert_to_gcm_grid ForcingOut.converted flipped
  by_cases hk : gcm_nlev - 1 - idx.1 < crm_nz
  · have hin : 0 ≤ gcm_nlev - 1 - idx.1 ∧ gcm_nlev - 1 - idx.1 < crm_nz := by omega
    simp only [if_pos hk,
      real2d.read_inside _ _ _ (real2d.inside_of_extents _ crm_nz nens _ _ ht hin h1),
      real2d.read_inside _ _ _ (real2d.inside_of_extents _ crm_nz nens _ _ hd hin h1),
      real2d.read_inside _ _ _ (real2d.inside_of_extents _ crm_nz nens _ _ hv hin h1),
      real2d.write_inside _ _ _ _ (real2d.inside_of_extents _ gcm_nlev nens _ _ a1 h0 h1),
      real2d.write_inside _ _ _ _ (real2d.inside_of_extents _ gcm_nlev nens _ _ a2 h0 h1),
      real2d.write_inside _ _ _ _ (real2d.inside_of_extents _ gcm_nlev nens _ _ a3 h0 h1),
      ret_bind, pure_eq_ret]
  · simp only [if_neg hk,
      real2d.write_inside _ _ _ _ (real2d.inside_of_extents _ gcm_nlev nens _ _ a1 h0 h1),
      real2d.write_inside _ _ _ _ (real2d.inside_of_extents _ gcm_nlev nens _ _ a2 h0 h1),
      real2d.write_inside _ _ _ _ (real2d.inside_of_extents _ gcm_nlev nens _ _ a3 h0 h1),
      ret_bind, pure_eq_ret]

theorem flipped_of_loop (gcm_nlev crm_nz nens : Int) (x a : real2d)
    (ha : a.has_extents gcm_nlev nens) :
    is_flipped
      ((SimpleBounds2 gcm_nlev nens).foldl
        (fun b idx => b.updated idx.1 idx.2 (flipped gcm_nlev crm_nz x idx)) a)
      x crm_nz nens gcm_nlev := by
  obtain ⟨z0, z1, zd⟩ := foldl_updated (flipped gcm_nlev crm_nz x) (SimpleBounds2 gcm_nlev nens) a
  refine ⟨⟨by rw [z0, ha.1], by rw [z1, ha.2]⟩, ?_⟩
  intro k_gcm iens hk0 hk1 he0 he1
  have hmem : (k_gcm, iens) ∈ SimpleBounds2 gcm_nlev nens := by
    rw [mem_SimpleBounds2]
    exact ⟨⟨hk0, hk1⟩, he0, he1⟩
  rw [zd, if_pos hmem]
  rfl

theorem deep_copy_to_ok (src dst : real2d) (h0 : src.extent0 = dst.extent0)
    (h1 : src.extent1 = dst.extent1) :
    src.deep_copy_to dst = Checked.ret { dst with data := src.data } := by
  simp [real2d.deep_copy_to, h0, h1]

theorem get2_of_lookup (dm : DataManager) (name : String) (a : real2d)
    (h : dm.entries.lookup name = some (Entry.rank2 a)) : dm.get2 name = Checked.ret a := by
  unfold DataManager.get2
  rw [h]


/-! ## The result of `pam_output_copy_to_host` -/

theorem forcing_of_loop (gcm_nlev crm_nz nens : Int)
    (gcm_forcing_tend_temp gcm_forcing_tend_rho_d gcm_forcing_tend_rho_v : real2d)
    (out : ForcingOut) (ho : out.has_extents gcm_nlev nens)
    (ht : gcm_forcing_tend_temp.has_extents crm_nz nens)
    (hd : gcm_forcing_tend_rho_d.has_extents crm_nz nens)
    (hv : gcm_forcing_tend_rho_v.has_extents crm_nz nens) :
    ∃ out1,
      parallel_for (SimpleBounds2 gcm_nlev nens)
        (convert_to_gcm_grid gcm_nlev crm_nz gcm_forcing_tend_temp gcm_forcing_tend_rho_d
          gcm_forcing_tend_rho_v) out = Checked.ret out1 ∧
      is_flipped out1.forcing_tend_out_temp gcm_forcing_tend_temp crm_nz nens gcm_nlev ∧
      is_flipped out1.forcing_tend_out_rho_d gcm_forcing_tend_rho_d crm_nz nens gcm_nlev ∧
      is_flipped out1.forcing_tend_out_rho_v gcm_forcing_tend_rho_v crm_nz nens gcm_nlev := by
  obtain ⟨h1, -⟩ := parallel_for_eq_foldl (fun st : ForcingOut => st.has_extents gcm_nlev nens)
    (convert_to_gcm_grid gcm_nlev crm_nz gcm_forcing_tend_temp gcm_forcing_tend_rho_d
      gcm_forcing_tend_rho_v)
    (ForcingOut.converted gcm_nlev crm_nz gcm_forcing_tend_temp gcm_forcing_tend_rho_d
      gcm_forcing_tend_rho_v)
    (SimpleBounds2 gcm_nlev nens)
    (fun idx hidx st hst => by
      obtain ⟨i0, i1⟩ := idx
      rw [mem_SimpleBounds2] at hidx
      exact convert_to_gcm_grid_eq gcm_nlev crm_nz nens _ _ _ (i0, i1) st hst ht hd hv
        hidx.1 hidx.2)
    out ho
  refine ⟨_, h1, ?_, ?_, ?_⟩
  · rw [foldl_proj ForcingOut.forcing_tend_out_temp _
      (fun idx b => b.updated idx.1 idx.2 (flipped gcm_nlev crm_nz gcm_forcing_tend_temp idx))
      (fun _ _ => rfl)]
    exact flipped_of_loop gcm_nlev crm_nz nens _ _ ho.1
  · rw [foldl_proj ForcingOut.forcing_tend_out_rho_d _
      (fun idx b => b.updated idx.1 idx.2 (flipped gcm_nlev crm_nz gcm_forcing_tend_rho_d idx))
      (fun _ _ => rfl)]
    exact flipped_of_loop gcm_nlev crm_nz nens _ _ ho.2.1
  · rw [foldl_proj ForcingOut.forcing_tend_out_rho_v _
      (fun idx b => b.updated idx.1 idx.2 (flipped gcm_nlev crm_nz gcm_forcing_tend_rho_v idx))
      (fun _ _ => rfl)]
    exact flipped_of_loop gcm_nlev crm_nz nens _ _ ho.2.2

theorem is_flipped_of_copy (src dst x : real2d) (crm_nz nens gcm_nlev : Int)
    (hs : is_flipped src x crm_nz nens gcm_nlev) (hd : dst.has_extents gcm_nlev nens) :
    src.deep_copy_to dst = Checked.ret { dst with data := src.data } ∧
    is_flipped { dst with data := src.data } x crm_nz nens gcm_nlev :=
  ⟨deep_copy_to_ok src dst (by rw [hs.1.1, hd.1]) (by rw [hs.1.2, hd.2]), hd, hs.2⟩

theorem copy_to_host_result (coupler : PamCoupler) (nens crm_nz gcm_nlev : Int)
    (gcm_forcing_tend_temp gcm_forcing_tend_rho_d gcm_forcing_tend_rho_v : real2d)
    (h : CopyInput coupler nens crm_nz gcm_nlev gcm_forcing_tend_temp gcm_forcing_tend_rho_d
      gcm_forcing_tend_rho_v) :
    ∃ coupler1, pam_output_copy_to_host coupler = Checked.ret coupler1 ∧
      coupler1.dm_device = coupler.dm_device ∧ coupler1.options = coupler.options ∧
      (∃ a, coupler1.dm_host.get2 "output_t_ls" = Checked.ret a ∧
        is_flipped a gcm_forcing_tend_temp crm_nz nens gcm_nlev) ∧
      (∃ a, coupler1.dm_host.get2 "output_rho_v_ls" = Checked.ret a ∧
        is_flipped a gcm_forcing_tend_rho_d crm_nz nens gcm_nlev) ∧
      (∃ a, coupler1.dm_host.get2 "output_rho_d_ls" = Checked.ret a ∧
        is_flipped a gcm_forcing_tend_rho_v crm_nz nens gcm_nlev) := by
  obtain ⟨nc_mean, o_nc, a_nc, b_nc, x_nc, y_nc⟩ := h.copy_nc
  obtain ⟨ni_mean, o_ni, a_ni, b_ni, x_ni, y_ni⟩ := h.copy_ni
  obtain ⟨qr_mean, o_qr, a_qr, b_qr, x_qr, y_qr⟩ := h.copy_qr
  obtain ⟨nr_mean, o_nr, a_nr, b_nr, x_nr, y_nr⟩ := h.copy_nr
  obtain ⟨qm_mean, o_qm, a_qm, b_qm, x_qm, y_qm⟩ := h.copy_qm
  obtain ⟨bm_mean, o_bm, a_bm, b_bm, x_bm, y_bm⟩ := h.copy_bm
  obtain ⟨o_t, b_t, e_t⟩ := h.out_t_ls
  obtain ⟨o_v, b_v, e_v⟩ := h.out_rho_v_ls
  obtain ⟨o_d, b_d, e_d⟩ := h.out_rho_d_ls
  obtain ⟨out1, hp, f_t, f_d, f_v⟩ := forcing_of_loop gcm_nlev crm_nz nens gcm_forcing_tend_temp
    gcm_forcing_tend_rho_d gcm_forcing_tend_rho_v
    { forcing_tend_out_temp := ⟨gcm_nlev, nens, coupler.uninitialized "forcing_tend_out_temp"⟩,
      forcing_tend_out_rho_d := ⟨gcm_nlev, nens, coupler.uninitialized "forcing_tend_out_rho_d"⟩,
      forcing_tend_out_rho_v := ⟨gcm_nlev, nens, coupler.uninitialized "forcing_tend_out_rho_v"⟩ }
    ⟨⟨rfl, rfl⟩, ⟨rfl, rfl⟩, ⟨rfl, rfl⟩⟩ h.ext_temp h.ext_rho_d h.ext_rho_v
  obtain ⟨c_t, r_t⟩ := is_flipped_of_copy _ o_t _ crm_nz nens gcm_nlev f_t e_t
  obtain ⟨c_v, r_v⟩ := is_flipped_of_copy _ o_v _ crm_nz nens gcm_nlev f_d e_v
  obtain ⟨c_d, r_d⟩ := is_flipped_of_copy _ o_d _ crm_nz nens gcm_nlev f_v e_d
  have hrun : pam_output_copy_to_host coupler = Checked.ret
      { coupler with
        dm_host := ((((((((coupler.dm_host.store "output_nc_mean"
            { o_nc with data := nc_mean.data }).store "output_ni_mean"
            { o_ni with data := ni_mean.data }).store "output_qr_mean"
            { o_qr with data := qr_mean.data }).store "output_nr_mean"
            { o_nr with data := nr_mean.data }).store "output_qm_mean"
            { o_qm with data := qm_mean.data }).store "output_bm_mean"
            { o_bm with data := bm_mean.data }).store "output_t_ls"
            { o_t with data := out1.forcing_tend_out_temp.data }).store "output_rho_v_ls"
            { o_v with data := out1.forcing_tend_out_rho_d.data }).store "output_rho_d_ls"
            { o_d with data := out1.forcing_tend_out_rho_v.data } } := by
    unfold pam_output_copy_to_host
    simp only [PamCoupler.get_option, h.opt_ncrms, h.opt_crm_nz, h.opt_gcm_nlev, found_some,
      ret_bind, get2_of_lookup _ _ _ a_nc, get2_of_lookup _ _ _ a_ni, get2_of_lookup _ _ _ a_qr,
      get2_of_lookup _ _ _ a_nr, get2_of_lookup _ _ _ a_qm, get2_of_lookup _ _ _ a_bm,
      get2_of_lookup _ _ _ h.has_temp, get2_of_lookup _ _ _ h.has_rho_d,
      get2_of_lookup _ _ _ h.has_rho_v, hp,
      get2_of_lookup _ _ _ b_nc, get2_of_lookup _ _ _ b_ni, get2_of_lookup _ _ _ b_qr,
      get2_of_lookup _ _ _ b_nr, get2_of_lookup _ _ _ b_qm, get2_of_lookup _ _ _ b_bm,
      get2_of_lookup _ _ _ b_t, get2_of_lookup _ _ _ b_v, get2_of_lookup _ _ _ b_d,
      deep_copy_to_ok _ _ x_nc y_nc, deep_copy_to_ok _ _ x_ni y_ni, deep_copy_to_ok _ _ x_qr y_qr,
      deep_copy_to_ok _ _ x_nr y_nr, deep_copy_to_ok _ _ x_qm y_qm, deep_copy_to_ok _ _ x_bm y_bm,
      c_t, c_v, c_d, pure_eq_ret]
  refine ⟨_, hrun, rfl, rfl, ⟨_, ?_, r_t⟩, ⟨_, ?_, r_v⟩, ⟨_, ?_, r_d⟩⟩
  · rw [get2_store_ne _ _ _ _ (by decide), get2_store_ne _ _ _ _ (by decide)]
    refine get2_store_same _ _ _ (Entry.rank2 o_t) ?_
    rw [lookup_store_ne _ _ _ _ (by decide), lookup_store_ne _ _ _ _ (by decide),
      lookup_store_ne _ _ _ _ (by decide), lookup_store_ne _ _ _ _ (by decide),
      lookup_store_ne _ _ _ _ (by decide), lookup_store_ne _ _ _ _ (by decide)]
    exact b_t
  · rw [get2_store_ne _ _ _ _ (by decide)]
    refine get2_store_same _ _ _ (Entry.rank2 o_v) ?_
    rw [lookup_store_ne _ _ _ _ (by decide), lookup_store_ne _ _ _ _ (by decide),
      lookup_store_ne _ _ _ _ (by decide), lookup_store_ne _ _ _ _ (by decide),
      lookup_store_ne _ _ _ _ (by decide), lookup_store_ne _ _ _ _ (by decide),
      lookup_store_ne _ _ _ _ (by decide)]
    exact b_v
  · refine get2_store_same _ _ _ (Entry.rank2 o_d) ?_
    rw [lookup_store_ne _ _ _ _ (by decide), lookup_store_ne _ _ _ _ (by decide),
      lookup_store_ne _ _ _ _ (by decide), lookup_store_ne _ _ _ _ (by decide),
      lookup_store_ne _ _ _ _ (by decide), lookup_store_ne _ _ _ _ (by decide),
      lookup_store_ne _ _ _ _ (by decide), lookup_store_ne _ _ _ _ (by decide)]
    exact b_d


/-! ## The claims on the PAM output -/

theorem sample_crm_input :
    MeansInput sample_crm 2 1 2 1 3 (sample_state 10) (sample_state 20) (sample_state 30)
      (sample_state 40) (sample_state 50) (sample_state 60) where
  dim_z := rfl
  dim_y := rfl
  dim_x := rfl
  dim_nens := rfl
  dim_gcm_lev := Or.inl rfl
  opt_gcm_nlev := rfl
  has_nc := rfl
  has_ni := rfl
  has_qr := rfl
  has_nr := rfl
  has_qm := rfl
  has_bm := rfl
  ext_nc := ⟨rfl, rfl, rfl, rfl⟩
  ext_ni := ⟨rfl, rfl, rfl, rfl⟩
  ext_qr := ⟨rfl, rfl, rfl, rfl⟩
  ext_nr := ⟨rfl, rfl, rfl, rfl⟩
  ext_qm := ⟨rfl, rfl, rfl, rfl⟩
  ext_bm := ⟨rfl, rfl, rfl, rfl⟩
  free_nc_mean := rfl
  free_ni_mean := rfl
  free_qr_mean := rfl
  free_nr_mean := rfl
  free_qm_mean := rfl
  free_bm_mean := rfl

theorem sample_forced_input :
    CopyInput sample_forced 1 2 3 (sample_tendency 100) (sample_tendency 1)
      (sample_tendency 5) where
  opt_ncrms := rfl
  opt_crm_nz := rfl
  opt_gcm_nlev := rfl
  copy_nc := ⟨_, _, rfl, rfl, rfl, rfl⟩
  copy_ni := ⟨_, _, rfl, rfl, rfl, rfl⟩
  copy_qr := ⟨_, _, rfl, rfl, rfl, rfl⟩
  copy_nr := ⟨_, _, rfl, rfl, rfl, rfl⟩
  copy_qm := ⟨_, _, rfl, rfl, rfl, rfl⟩
  copy_bm := ⟨_, _, rfl, rfl, rfl, rfl⟩
  has_temp := rfl
  has_rho_d := rfl
  has_rho_v := rfl
  ext_temp := ⟨rfl, rfl⟩
  ext_rho_d := ⟨rfl, rfl⟩
  ext_rho_v := ⟨rfl, rfl⟩
  out_t_ls := ⟨_, rfl, rfl, rfl⟩
  out_rho_v_ls := ⟨_, rfl, rfl, rfl⟩
  out_rho_d_ls := ⟨_, rfl, rfl, rfl⟩

/-- A run of `pam_output_compute_means` on `sample_crm`: the mean of the values
10 and 11 of "cloud_water_num" on the CRM level 0 is at the GCM level 2, the
mean of 12 and 13 of the CRM level 1 is at the GCM level 1, the GCM level 0 holds
0, and there is no GCM level 3. -/
theorem compute_means_example :
    (pam_output_compute_means sample_crm >>= fun c => c.dm_device.value "nc_mean" 2 0)
      = Checked.ret (21 / 2) ∧
    (pam_output_compute_means sample_crm >>= fun c => c.dm_device.value "nc_mean" 1 0)
      = Checked.ret (25 / 2) ∧
    (pam_output_compute_means sample_crm >>= fun c => c.dm_device.value "nc_mean" 0 0)
      = Checked.ret 0 ∧
    (pam_output_compute_means sample_crm >>= fun c => c.dm_device.value "nc_mean" 3 0)
      = Checked.fail ∧
    (pam_output_compute_means sample_crm >>= fun c => c.dm_device.value "bm_mean" 2 0)
      = Checked.ret (121 / 2) := by
  decide!

/-- A run of `pam_output_copy_to_host` on `sample_forced`, GCM levels 2, 1, 0 of
the three host outputs of the forcing tendencies: "output_t_ls" holds the
temperature tendency 100, 101, 0; "output_rho_d_ls" holds the vapor density
tendency 5, 6, 0; "output_rho_v_ls" holds the dry density tendency 1, 2, 0. -/
theorem copy_to_host_example :
    (pam_output_copy_to_host sample_forced >>= fun c => c.dm_host.value "output_t_ls" 2 0)
      = Checked.ret 100 ∧
    (pam_output_copy_to_host sample_forced >>= fun c => c.dm_host.value "output_t_ls" 1 0)
      = Checked.ret 101 ∧
    (pam_output_copy_to_host sample_forced >>= fun c => c.dm_host.value "output_t_ls" 0 0)
      = Checked.ret 0 ∧
    (pam_output_copy_to_host sample_forced >>= fun c => c.dm_host.value "output_rho_d_ls" 2 0)
      = Checked.ret 5 ∧
    (pam_output_copy_to_host sample_forced >>= fun c => c.dm_host.value "output_rho_d_ls" 1 0)
      = Checked.ret 6 ∧
    (pam_output_copy_to_host sample_forced >>= fun c => c.dm_host.value "output_rho_d_ls" 0 0)
      = Checked.ret 0 ∧
    (pam_output_copy_to_host sample_forced >>= fun c => c.dm_host.value "output_rho_v_ls" 2 0)
      = Checked.ret 1 ∧
    (pam_output_copy_to_host sample_forced >>= fun c => c.dm_host.value "output_rho_v_ls" 1 0)
      = Checked.ret 2 ∧
    (pam_output_copy_to_host sample_forced >>= fun c => c.dm_host.value "output_nc_mean" 1 0)
      = Checked.ret 11 := by
  decide!


/-- C22. With the CRM dimensions and six CRM arrays of these extents in the
device data manager, `crm_nz ≤ gcm_nlev` and `crm_nx * crm_ny > 0`,
`pam_output_compute_means` completes, and each of the six arrays "nc_mean",
"ni_mean", "qr_mean", "nr_mean", "qm_mean", "bm_mean" that it leaves in the device
data manager holds the horizontal mean of its CRM array on the flipped vertical
grid: at `(gcm_nlev-1-k_crm, iens)` the sum of `X(k_crm,j,i,iens)` over all
`j < crm_ny`, `i < crm_nx`, divided by `crm_nx * crm_ny`, for every CRM level
`k_crm < crm_nz`, and 0 at every GCM level `k_gcm < gcm_nlev - crm_nz`. The
condition `crm_nx * crm_ny > 0` is the one under which the quotient is a division
by a non-zero number; the equations hold without it for the total division. -/
theorem pam_output_compute_means_on_flipped_grid (coupler : PamCoupler)
    (crm_nz crm_ny crm_nx nens gcm_nlev : Int) (nc ni qr nr qm bm : real4d)
    (h : MeansInput coupler crm_nz crm_ny crm_nx nens gcm_nlev nc ni qr nr qm bm)
    (hle : crm_nz ≤ gcm_nlev) (_hpos : crm_nx * crm_ny > 0) :
    ∃ coupler1, pam_output_compute_means coupler = Checked.ret coupler1 ∧
      (∃ nc_mean, coupler1.dm_device.get2 "nc_mean" = Checked.ret nc_mean ∧
        is_horizontal_mean nc_mean nc crm_nz crm_ny crm_nx nens gcm_nlev) ∧
      (∃ ni_mean, coupler1.dm_device.get2 "ni_mean" = Checked.ret ni_mean ∧
        is_horizontal_mean ni_mean ni crm_nz crm_ny crm_nx nens gcm_nlev) ∧
      (∃ qr_mean, coupler1.dm_device.get2 "qr_mean" = Checked.ret qr_mean ∧
        is_horizontal_mean qr_mean qr crm_nz crm_ny crm_nx nens gcm_nlev) ∧
      (∃ nr_mean, coupler1.dm_device.get2 "nr_mean" = Checked.ret nr_mean ∧
        is_horizontal_mean nr_mean nr crm_nz crm_ny crm_nx nens gcm_nlev) ∧
      (∃ qm_mean, coupler1.dm_device.get2 "qm_mean" = Checked.ret qm_mean ∧
        is_horizontal_mean qm_mean qm crm_nz crm_ny crm_nx nens gcm_nlev) ∧
      (∃ bm_mean, coupler1.dm_device.get2 "bm_mean" = Checked.ret bm_mean ∧
        is_horizontal_mean bm_mean bm crm_nz crm_ny crm_nx nens gcm_nlev) := by
  obtain ⟨c1, hrun, -, -, k⟩ := compute_means_result coupler crm_nz crm_ny crm_nx nens gcm_nlev
    nc ni qr nr qm bm h hle
  exact ⟨c1, hrun, k⟩

/-- C22 on `sample_crm`: 2 CRM levels of 1 row and 2 columns, 3 GCM levels. -/
theorem pam_output_compute_means_on_flipped_grid_witness :
    ∃ coupler1, pam_output_compute_means sample_crm = Checked.ret coupler1 ∧
      (∃ nc_mean, coupler1.dm_device.get2 "nc_mean" = Checked.ret nc_mean ∧
        is_horizontal_mean nc_mean (sample_state 10) 2 1 2 1 3) ∧
      (∃ ni_mean, coupler1.dm_device.get2 "ni_mean" = Checked.ret ni_mean ∧
        is_horizontal_mean ni_mean (sample_state 20) 2 1 2 1 3) ∧
      (∃ qr_mean, coupler1.dm_device.get2 "qr_mean" = Checked.ret qr_mean ∧
        is_horizontal_mean qr_mean (sample_state 30) 2 1 2 1 3) ∧
      (∃ nr_mean, coupler1.dm_device.get2 "nr_mean" = Checked.ret nr_mean ∧
        is_horizontal_mean nr_mean (sample_state 40) 2 1 2 1 3) ∧
      (∃ qm_mean, coupler1.dm_device.get2 "qm_mean" = Checked.ret qm_mean ∧
        is_horizontal_mean qm_mean (sample_state 50) 2 1 2 1 3) ∧
      (∃ bm_mean, coupler1.dm_device.get2 "bm_mean" = Checked.ret bm_mean ∧
        is_horizontal_mean bm_mean (sample_state 60) 2 1 2 1 3) :=
  pam_output_compute_means_on_flipped_grid sample_crm 2 1 2 1 3 (sample_state 10)
    (sample_state 20) (sample_state 30) (sample_state 40) (sample_state 50) (sample_state 60)
    sample_crm_input (by decide) (by decide)

/-- C23. With the three options, the nine device arrays and the nine host
outputs in place (the forcing tendencies with the extents `crm_nz` and `nens`,
their host outputs with `gcm_nlev` and `nens`), `pam_output_copy_to_host`
completes and leaves in "output_t_ls", for every `k_gcm < gcm_nlev` and every
`iens < nens`, the value `gcm_forcing_tend_temp(gcm_nlev-1-k_gcm, iens)` when
`gcm_nlev-1-k_gcm < crm_nz` and 0 otherwise. Every index of the loop at which the
CRM array is read has `gcm_nlev-1-k_gcm` in `[0, crm_nz)`, the checked read at
`(gcm_nlev-1-k_gcm, iens)` completes, and so does the body of the loop at every
index of its bounds. -/
theorem pam_output_copy_to_host_flips_temperature (coupler : PamCoupler)
    (nens crm_nz gcm_nlev : Int)
    (gcm_forcing_tend_temp gcm_forcing_tend_rho_d gcm_forcing_tend_rho_v : real2d)
    (h : CopyInput coupler nens crm_nz gcm_nlev gcm_forcing_tend_temp gcm_forcing_tend_rho_d
      gcm_forcing_tend_rho_v) :
    (∃ coupler1 output_t_ls, pam_output_copy_to_host coupler = Checked.ret coupler1 ∧
      coupler1.dm_host.get2 "output_t_ls" = Checked.ret output_t_ls ∧
      ∀ k_gcm iens, 0 ≤ k_gcm → k_gcm < gcm_nlev → 0 ≤ iens → iens < nens →
        output_t_ls.data k_gcm iens =
          if gcm_nlev - 1 - k_gcm < crm_nz
            then gcm_forcing_tend_temp.data (gcm_nlev - 1 - k_gcm) iens else 0) ∧
    (∀ k_gcm iens, (k_gcm, iens) ∈ SimpleBounds2 gcm_nlev nens → gcm_nlev - 1 - k_gcm < crm_nz →
      (0 ≤ gcm_nlev - 1 - k_gcm ∧ gcm_nlev - 1 - k_gcm < crm_nz) ∧
      gcm_forcing_tend_temp.read (gcm_nlev - 1 - k_gcm) iens =
        Checked.ret (gcm_forcing_tend_temp.data (gcm_nlev - 1 - k_gcm) iens)) ∧
    (∀ idx ∈ SimpleBounds2 gcm_nlev nens, ∀ out : ForcingOut, out.has_extents gcm_nlev nens →
      convert_to_gcm_grid gcm_nlev crm_nz gcm_forcing_tend_temp gcm_forcing_tend_rho_d
        gcm_forcing_tend_rho_v idx out ≠ Checked.fail) := by
  refine ⟨?_, ?_, ?_⟩
  · obtain ⟨c1, hrun, -, -, ⟨a, ha, hf⟩, -, -⟩ := copy_to_host_result coupler nens crm_nz
      gcm_nlev gcm_forcing_tend_temp gcm_forcing_tend_rho_d gcm_forcing_tend_rho_v h
    exact ⟨c1, a, hrun, ha, hf.2⟩
  · intro k_gcm iens hmem hk
    rw [mem_SimpleBounds2] at hmem
    have hin : 0 ≤ gcm_nlev - 1 - k_gcm ∧ gcm_nlev - 1 - k_gcm < crm_nz := by omega
    exact ⟨hin, real2d.read_inside _ _ _
      (real2d.inside_of_extents _ crm_nz nens _ _ h.ext_temp hin hmem.2)⟩
  · intro idx hidx out hout
    obtain ⟨i0, i1⟩ := idx
    rw [mem_SimpleBounds2] at hidx
    rw [(convert_to_gcm_grid_eq gcm_nlev crm_nz nens _ _ _ (i0, i1) out hout h.ext_temp
      h.ext_rho_d h.ext_rho_v hidx.1 hidx.2).1]
    exact fun hc => Option.noConfusion hc

/-- C23 on `sample_forced`: 2 CRM levels, 3 GCM levels, 1 ensemble member. -/
theorem pam_output_copy_to_host_flips_temperature_witness :
    (∃ coupler1 output_t_ls, pam_output_copy_to_host sample_forced = Checked.ret coupler1 ∧
      coupler1.dm_host.get2 "output_t_ls" = Checked.ret output_t_ls ∧
      ∀ k_gcm iens, 0 ≤ k_gcm → k_gcm < 3 → 0 ≤ iens → iens < 1 →
        output_t_ls.data k_gcm iens =
          if 3 - 1 - k_gcm < 2 then (sample_tendency 100).data (3 - 1 - k_gcm) iens else 0) ∧
    (∀ k_gcm iens, (k_gcm, iens) ∈ SimpleBounds2 3 1 → 3 - 1 - k_gcm < 2 →
      (0 ≤ 3 - 1 - k_gcm ∧ 3 - 1 - k_gcm < 2) ∧
      (sample_tendency 100).read (3 - 1 - k_gcm) iens =
        Checked.ret ((sample_tendency 100).data (3 - 1 - k_gcm) iens)) ∧
    (∀ idx ∈ SimpleBounds2 3 1, ∀ out : ForcingOut, out.has_extents 3 1 →
      convert_to_gcm_grid 3 2 (sample_tendency 100) (sample_tendency 1) (sample_tendency 5)
        idx out ≠ Checked.fail) :=
  pam_output_copy_to_host_flips_temperature sample_forced 1 2 3 (sample_tendency 100)
    (sample_tendency 1) (sample_tendency 5) sample_forced_input

/-- C24 fails. Under the conditions of C23 `pam_output_copy_to_host` completes
and delivers the two density tendencies crosswise: for every `k_gcm < gcm_nlev`
with `gcm_nlev-1-k_gcm < crm_nz` and every `iens < nens`,
`output_rho_d_ls(k_gcm,iens)` is `gcm_forcing_tend_rho_v(gcm_nlev-1-k_gcm, iens)` and
`output_rho_v_ls(k_gcm,iens)` is `gcm_forcing_tend_rho_d(gcm_nlev-1-k_gcm, iens)`.
So wherever the two tendencies differ, neither host output holds the tendency of
its own name. -/
theorem pam_output_copy_to_host_swaps_density_tendencies (coupler : PamCoupler)
    (nens crm_nz gcm_nlev : Int)
    (gcm_forcing_tend_temp gcm_forcing_tend_rho_d gcm_forcing_tend_rho_v : real2d)
    (h : CopyInput coupler nens crm_nz gcm_nlev gcm_forcing_tend_temp gcm_forcing_tend_rho_d
      gcm_forcing_tend_rho_v) :
    ∃ coupler1 output_rho_d_ls output_rho_v_ls,
      pam_output_copy_to_host coupler = Checked.ret coupler1 ∧
      coupler1.dm_host.get2 "output_rho_d_ls" = Checked.ret output_rho_d_ls ∧
      coupler1.dm_host.get2 "output_rho_v_ls" = Checked.ret output_rho_v_ls ∧
      ∀ k_gcm iens, 0 ≤ k_gcm → k_gcm < gcm_nlev → gcm_nlev - 1 - k_gcm < crm_nz →
        0 ≤ iens → iens < nens →
        (output_rho_d_ls.data k_gcm iens = gcm_forcing_tend_rho_v.data (gcm_nlev - 1 - k_gcm) iens ∧
         output_rho_v_ls.data k_gcm iens = gcm_forcing_tend_rho_d.data (gcm_nlev - 1 - k_gcm) iens) ∧
        (gcm_forcing_tend_rho_d.data (gcm_nlev - 1 - k_gcm) iens ≠
            gcm_forcing_tend_rho_v.data (gcm_nlev - 1 - k_gcm) iens →
          output_rho_d_ls.data k_gcm iens ≠
            gcm_forcing_tend_rho_d.data (gcm_nlev - 1 - k_gcm) iens ∧
          output_rho_v_ls.data k_gcm iens ≠
            gcm_forcing_tend_rho_v.data (gcm_nlev - 1 - k_gcm) iens) := by
  obtain ⟨c1, hrun, -, -, -, ⟨v, hv, fv⟩, ⟨d, hd, fd⟩⟩ := copy_to_host_result coupler nens crm_nz
    gcm_nlev gcm_forcing_tend_temp gcm_forcing_tend_rho_d gcm_forcing_tend_rho_v h
  refine ⟨c1, d, v, hrun, hd, hv, ?_⟩
  intro k_gcm iens hk0 hk1 hk he0 he1
  have e1 := fd.2 k_gcm iens hk0 hk1 he0 he1
  have e2 := fv.2 k_gcm iens hk0 hk1 he0 he1
  rw [if_pos hk] at e1 e2
  refine ⟨⟨e1, e2⟩, fun hne => ⟨?_, ?_⟩⟩
  · rw [e1]; exact fun hc => hne hc.symm
  · rw [e2]; exact hne

/-- C24 fails on `sample_forced` (dry density tendency 1 and 2, vapor density
tendency 5 and 6 on the CRM levels 0 and 1): at the GCM level 2 the host output
"output_rho_d_ls" holds 5, not 1, and "output_rho_v_ls" holds 1, not 5. -/
theorem pam_output_copy_to_host_swaps_density_tendencies_witness :
    ∃ coupler1 output_rho_d_ls output_rho_v_ls,
      pam_output_copy_to_host sample_forced = Checked.ret coupler1 ∧
      coupler1.dm_host.get2 "output_rho_d_ls" = Checked.ret output_rho_d_ls ∧
      coupler1.dm_host.get2 "output_rho_v_ls" = Checked.ret output_rho_v_ls ∧
      (output_rho_d_ls.data 2 0 = 5 ∧ output_rho_v_ls.data 2 0 = 1) ∧
      (output_rho_d_ls.data 2 0 ≠ (sample_tendency 1).data (3 - 1 - 2) 0 ∧
        output_rho_v_ls.data 2 0 ≠ (sample_tendency 5).data (3 - 1 - 2) 0) := by
  obtain ⟨c1, d, v, hrun, hd, hv, hall⟩ := pam_output_copy_to_host_swaps_density_tendencies
    sample_forced 1 2 3 (sample_tendency 100) (sample_tendency 1) (sample_tendency 5)
    sample_forced_input
  obtain ⟨⟨e1, e2⟩, hne⟩ := hall 2 0 (by decide) (by decide) (by decide) (by decide) (by decide)
  have h5 : (sample_tendency 5).data (3 - 1 - 2) 0 = 5 := by simp [sample_tendency]
  have h1 : (sample_tendency 1).data (3 - 1 - 2) 0 = 1 := by simp [sample_tendency]
  refine ⟨c1, d, v, hrun, hd, hv, ⟨by rw [e1, h5], by rw [e2, h1]⟩, hne ?_⟩
  rw [h5, h1]
  norm_num

end pam
